import Mathlib

/-!
# JadeAI Bluetooth HID engine

A shallow embedding of the classic L2CAP variant (`hid_server.cpp`, `hid_server.h`,
`key_mapper.cpp`, the escapes of `main.cpp` and `command_server.cpp`, the descriptor of
`hid_report_map.h`) and of the parts of the BLE variant that the properties below are about
(`hid_reports.cpp`, `hid_config.cpp`, and `hidReportMap`, `sendText`, `movePointerInternal`
of `bluetooth_hid_server.cpp`, in the namespace `Ble`).

* Bytes (`uint8_t`) are natural numbers; `static_cast<uint8_t>` is `to_uint8`.
* `char`, `int8_t` and `int` values are integers; `static_cast<int8_t>` is `to_int8`.
* The server object is the record `HidServer`.  The operating-system side is the
  record `Sys`: the server fields, the ordered trace of system calls and
  diagnostics issued so far, and the number of `send` calls made on the
  interrupt channel.  The result of the n-th interrupt `send` is supplied by an
  environment function `env : Nat → Int` (a negative value is a failed write).
* Each method is executed atomically with respect to the other threads, except in
  `type_text_threads`, where the events of the other threads take place between the
  critical sections of `type_text` and during its wait.
* The accept loop, the control loop and the public methods are the events of `Action`;
  `step` applies one event and `run` a list of them, starting from `sys_init`.
* `Worker` adds the state of `control_thread_` (joinable, loop running) to `Sys`.
* In `Ble`, published characteristic values are trace events, the `while` loop of
  `movePointerInternal` runs on a budget of passes, and a call of `std::clamp` with
  `hi < lo` is the outcome `undefined_behaviour`.
-/

namespace JadeAi

/-! ## Machine integers -/

/-- Value of `static_cast<uint8_t>(z)`. -/
def to_uint8 (z : Int) : Nat := (z % 256).toNat

/-- Value of `static_cast<int8_t>(z)` (two's-complement wrap). -/
def to_int8 (z : Int) : Int := (z + 128) % 256 - 128

/-! ## key_mapper -/

/-- Record `KeyInfo` of key_mapper.h. -/
structure KeyInfo where
  keycode : Nat
  requires_shift : Bool
deriving DecidableEq, Repr

/-- Function `map_character` of key_mapper.cpp; `ch` is the integer value of the `char`. -/
def map_character (ch : Int) : Option KeyInfo :=
  if ch ≥ 97 ∧ ch ≤ 122 then                       -- a .. z
    some ⟨to_uint8 (0x04 + (ch - 97)), false⟩
  else if ch ≥ 65 ∧ ch ≤ 90 then                   -- A .. Z
    some ⟨to_uint8 (0x04 + (ch - 65)), true⟩
  else if ch ≥ 49 ∧ ch ≤ 57 then                   -- 1 .. 9
    some ⟨to_uint8 (0x1E + (ch - 49)), false⟩
  else if ch = 48 then some ⟨0x27, false⟩          -- 0
  else if ch = 33 then some ⟨0x1E, true⟩           -- exclamation mark
  else if ch = 64 then some ⟨0x1F, true⟩           -- at sign
  else if ch = 35 then some ⟨0x20, true⟩           -- hash
  else if ch = 36 then some ⟨0x21, true⟩           -- dollar
  else if ch = 37 then some ⟨0x22, true⟩           -- percent
  else if ch = 94 then some ⟨0x23, true⟩           -- caret
  else if ch = 38 then some ⟨0x24, true⟩           -- ampersand
  else if ch = 42 then some ⟨0x25, true⟩           -- asterisk
  else if ch = 40 then some ⟨0x26, true⟩           -- left parenthesis
  else if ch = 41 then some ⟨0x27, true⟩           -- right parenthesis
  else if ch = 10 then some ⟨0x28, false⟩          -- line feed
  else if ch = 13 then some ⟨0x28, false⟩          -- carriage return
  else if ch = 9 then some ⟨0x2B, false⟩           -- tab
  else if ch = 8 then some ⟨0x2A, false⟩           -- backspace
  else if ch = 27 then some ⟨0x29, false⟩          -- escape
  else if ch = 32 then some ⟨0x2C, false⟩          -- space
  else if ch = 45 then some ⟨0x2D, false⟩          -- minus
  else if ch = 95 then some ⟨0x2D, true⟩           -- underscore
  else if ch = 61 then some ⟨0x2E, false⟩          -- equals
  else if ch = 43 then some ⟨0x2E, true⟩           -- plus
  else if ch = 91 then some ⟨0x2F, false⟩          -- left bracket
  else if ch = 123 then some ⟨0x2F, true⟩          -- left brace
  else if ch = 93 then some ⟨0x30, false⟩          -- right bracket
  else if ch = 125 then some ⟨0x30, true⟩          -- right brace
  else if ch = 92 then some ⟨0x31, false⟩          -- backslash
  else if ch = 124 then some ⟨0x31, true⟩          -- vertical bar
  else if ch = 59 then some ⟨0x33, false⟩          -- semicolon
  else if ch = 58 then some ⟨0x33, true⟩           -- colon
  else if ch = 39 then some ⟨0x34, false⟩          -- apostrophe
  else if ch = 34 then some ⟨0x34, true⟩           -- double quote
  else if ch = 96 then some ⟨0x35, false⟩          -- grave accent
  else if ch = 126 then some ⟨0x35, true⟩          -- tilde
  else if ch = 44 then some ⟨0x36, false⟩          -- comma
  else if ch = 60 then some ⟨0x36, true⟩           -- less than
  else if ch = 46 then some ⟨0x37, false⟩          -- full stop
  else if ch = 62 then some ⟨0x37, true⟩           -- greater than
  else if ch = 47 then some ⟨0x38, false⟩          -- slash
  else if ch = 63 then some ⟨0x38, true⟩           -- question mark
  else none

/-! ## hid_server.h -/

/-- Record `KeyboardReport` of hid_server.h, with its default member initialisers. -/
structure KeyboardReport where
  modifiers : Nat := 0
  reserved : Nat := 0
  keys : Fin 6 → Nat := fun _ => 0

/-- Record `MouseReport` of hid_server.h, with its default member initialisers. -/
structure MouseReport where
  buttons : Nat := 0
  dx : Int := 0
  dy : Int := 0
  wheel : Int := 0
deriving DecidableEq, Repr

/-- Data members of class `HidServer` (threads, mutex and condition variable left out). -/
structure HidServer where
  control_listen_fd : Int
  interrupt_listen_fd : Int
  control_client_fd : Int
  interrupt_client_fd : Int
  running : Bool
  connected : Bool
  protocol_mode : Nat
  led_status : Nat
deriving DecidableEq, Repr

/-- Diagnostics written to `std::cerr`. -/
inductive Diag where
  | unsupported_character (ch : Int)
  | send_failed
  | wait_timeout
deriving DecidableEq, Repr

/-- Observable actions of the server, in program order. -/
inductive Event where
  | send (fd : Int) (data : List Nat)
  | close (fd : Int)
  | sleep_ms (ms : Nat)
  | cerr (d : Diag)
deriving DecidableEq, Repr

/-- Server fields together with the trace of actions and the count of interrupt sends. -/
structure Sys where
  srv : HidServer
  trace : List Event
  sends : Nat
deriving DecidableEq, Repr

/-- The `(fd, data)` arguments of the `send` calls of a trace, in order. -/
def sent : List Event → List (Int × List Nat)
  | [] => []
  | Event.send fd data :: t => (fd, data) :: sent t
  | _ :: t => sent t

/-! ## hid_server.cpp -/

def kControlPsm : Nat := 0x11
def kInterruptPsm : Nat := 0x13
def kKeyboardReportId : Nat := 0x01
def kMouseReportId : Nat := 0x02
def kLeftShiftMask : Nat := 0x02

def HID_MSG_TYPE_HANDSHAKE : Nat := 0x00
def HID_MSG_TYPE_CONTROL : Nat := 0x10
def HID_MSG_TYPE_GET_REPORT : Nat := 0x40
def HID_MSG_TYPE_SET_REPORT : Nat := 0x50
def HID_MSG_TYPE_GET_PROTOCOL : Nat := 0x60
def HID_MSG_TYPE_SET_PROTOCOL : Nat := 0x70
def HID_MSG_TYPE_DATA : Nat := 0xA0

def HID_HANDSHAKE_SUCCESS : Nat := 0x00
def HID_HANDSHAKE_ERR_UNSUPPORTED : Nat := 0x03

def HID_CTRL_VIRTUAL_CABLE_UNPLUG : Nat := 0x05

namespace HidServer

/-- Constructor `HidServer::HidServer`. -/
def init : HidServer :=
  { control_listen_fd := -1, interrupt_listen_fd := -1,
    control_client_fd := -1, interrupt_client_fd := -1,
    running := false, connected := false, protocol_mode := 1, led_status := 0 }

/-- Method `close_client`: returns the new value of the descriptor and the calls made. -/
def close_client (fd : Int) : Int × List Event :=
  if fd ≥ 0 then (-1, [Event.close fd]) else (fd, [])

/-- Method `reset_connection_locked`. -/
def reset_connection_locked (w : Sys) : Sys :=
  let c := close_client w.srv.control_client_fd
  let i := close_client w.srv.interrupt_client_fd
  { w with
    srv := { w.srv with
      control_client_fd := c.1, interrupt_client_fd := i.1,
      connected := false, protocol_mode := 1, led_status := 0 },
    trace := w.trace ++ c.2 ++ i.2 }

/-- Method `ensure_connection_locked`.  No other thread runs during the wait, so
`wait_for` returns the value of its predicate `!running_ || connected_` on the
unchanged fields. -/
def ensure_connection_locked (w : Sys) : Bool × Sys :=
  if !w.srv.connected then
    if !(!w.srv.running || w.srv.connected) then
      (false, { w with trace := w.trace ++ [Event.cerr Diag.wait_timeout] })
    else (w.srv.connected, w)
  else (w.srv.connected, w)

/-- Method `send_interrupt_packet`; `data` is the `length` bytes starting at the pointer. -/
def send_interrupt_packet (env : Nat → Int) (w : Sys) (data : List Nat) : Bool × Sys :=
  let e := ensure_connection_locked w
  if !e.1 then (false, e.2)
  else
    let fd := e.2.srv.interrupt_client_fd
    let written := env e.2.sends
    let w1 : Sys := { e.2 with trace := e.2.trace ++ [Event.send fd data], sends := e.2.sends + 1 }
    if written < 0 then
      (false, reset_connection_locked
        { w1 with trace := w1.trace ++ [Event.cerr Diag.send_failed] })
    else (true, w1)

/-- Method `send_keyboard_report`. -/
def send_keyboard_report (env : Nat → Int) (w : Sys) (report : KeyboardReport) : Bool × Sys :=
  let packet : List Nat :=
    [kKeyboardReportId, report.modifiers, report.reserved,
     report.keys 0, report.keys 1, report.keys 2, report.keys 3, report.keys 4, report.keys 5]
  let report_mode : Bool := w.srv.protocol_mode != 0
  let data := if report_mode then packet else packet.drop 1
  let length := if report_mode then 9 else 9 - 1
  send_interrupt_packet env w (data.take length)

/-- Method `send_mouse_report`. -/
def send_mouse_report (env : Nat → Int) (w : Sys) (report : MouseReport) : Bool × Sys :=
  let packet : List Nat :=
    [kMouseReportId, report.buttons, to_uint8 report.dx, to_uint8 report.dy, to_uint8 report.wheel]
  let report_mode : Bool := w.srv.protocol_mode != 0
  let data := if report_mode then packet else packet.drop 1
  let length := if report_mode then 5 else 3
  send_interrupt_packet env w (data.take length)

/-- Method `type_text`; `text` holds the `char` values of the string. -/
def type_text (env : Nat → Int) : Sys → List Int → Bool × Sys
  | w, [] => (true, w)
  | w, ch :: rest =>
    match map_character ch with
    | none =>
      type_text env
        { w with trace := w.trace ++ [Event.cerr (Diag.unsupported_character ch)] } rest
    | some key =>
      let report : KeyboardReport :=
        { modifiers := if key.requires_shift then kLeftShiftMask else 0,
          keys := fun i => if i = 0 then key.keycode else 0 }
      let r1 := send_keyboard_report env w report
      if !r1.1 then (false, r1.2)
      else
        let release : KeyboardReport := {}
        let r2 := send_keyboard_report env r1.2 release
        if !r2.1 then (false, r2.2)
        else type_text env { r2.2 with trace := r2.2.trace ++ [Event.sleep_ms 8] } rest

/-- Method `move_mouse`. -/
def move_mouse (env : Nat → Int) (w : Sys) (dx dy wheel : Int) : Bool × Sys :=
  let dx := if dx > 127 then 127 else dx
  let dx := if dx < -127 then -127 else dx
  let dy := if dy > 127 then 127 else dy
  let dy := if dy < -127 then -127 else dy
  let wheel := if wheel > 127 then 127 else wheel
  let wheel := if wheel < -127 then -127 else wheel
  let report : MouseReport := { dx := to_int8 dx, dy := to_int8 dy, wheel := to_int8 wheel }
  let r1 := send_mouse_report env w report
  if !r1.1 then (false, r1.2)
  else
    let release : MouseReport := {}
    send_mouse_report env r1.2 release

/-- Method `click`. -/
def click (env : Nat → Int) (w : Sys) (button_mask : Nat) : Bool × Sys :=
  let press : MouseReport := { buttons := button_mask }
  let r1 := send_mouse_report env w press
  if !r1.1 then (false, r1.2)
  else
    let w1 : Sys := { r1.2 with trace := r1.2.trace ++ [Event.sleep_ms 20] }
    let release : MouseReport := {}
    send_mouse_report env w1 release

/-- Method `is_connected`. -/
def is_connected (s : HidServer) : Bool := s.connected

/-- Method `current_protocol`. -/
def current_protocol (s : HidServer) : Nat := s.protocol_mode

/-- Method `led_state`. -/
def led_state (s : HidServer) : Nat := s.led_status

/-- A `send` on the control peer; its return value is not inspected by the caller. -/
def send_control (w : Sys) (data : List Nat) : Sys :=
  { w with trace := w.trace ++ [Event.send w.srv.control_client_fd data] }

/-- Method `handle_control_message`; `data` holds the `length` received bytes. -/
def handle_control_message (w : Sys) (data : List Nat) : Sys :=
  match data with
  | [] => w
  | header :: rest =>
    let type := header &&& 0xF0
    let param := header &&& 0x0F
    if type = HID_MSG_TYPE_CONTROL then
      if param = HID_CTRL_VIRTUAL_CABLE_UNPLUG then
        reset_connection_locked (send_control w [HID_HANDSHAKE_SUCCESS])
      else
        send_control w [HID_HANDSHAKE_SUCCESS]
    else if type = HID_MSG_TYPE_SET_PROTOCOL then
      let new_mode := param &&& 0x01
      let w1 : Sys := { w with srv := { w.srv with protocol_mode := new_mode } }
      send_control w1 [HID_HANDSHAKE_SUCCESS]
    else if type = HID_MSG_TYPE_GET_PROTOCOL then
      send_control w [HID_MSG_TYPE_DATA ||| 0x03, w.srv.protocol_mode]
    else if type = HID_MSG_TYPE_SET_REPORT then
      let resp := HID_HANDSHAKE_SUCCESS
      let w1 : Sys :=
        if data.length > 1 then
          let payload := rest
          let payload_len := data.length - 1
          let has_report_id : Bool := (param &&& 0x08) != 0
          let report_type := param &&& 0x03
          let report_id := if has_report_id && decide (payload_len > 0) then payload.getD 0 0 else 0
          let p : List Nat × Nat :=
            if has_report_id then
              if payload_len > 0 then (payload.drop 1, payload_len - 1) else (payload, payload_len)
            else (payload, payload_len)
          let payload := p.1
          let payload_len := p.2
          if report_type = 0x02 ∧ payload_len > 0 then
            if !has_report_id || report_id == kKeyboardReportId then
              { w with srv := { w.srv with led_status := payload.getD 0 0 } }
            else w
          else w
        else w
      send_control w1 [resp]
    else if type = HID_MSG_TYPE_GET_REPORT then
      send_control w [HID_HANDSHAKE_ERR_UNSUPPORTED]
    else if type = HID_MSG_TYPE_HANDSHAKE then
      w
    else
      send_control w [HID_HANDSHAKE_SUCCESS]

/-- A connected server in report mode with both peers attached, nothing done yet. -/
def connected_fresh : Sys :=
  { srv := { control_listen_fd := 3, interrupt_listen_fd := 4,
             control_client_fd := 5, interrupt_client_fd := 6,
             running := true, connected := true, protocol_mode := 1, led_status := 0 },
    trace := [], sends := 0 }

/-- An environment in which every interrupt `send` writes the `n` bytes it was given. -/
def env_all_ok (n : Int) : Nat → Int := fun _ => n

/-- An environment in which the interrupt `send` number `k` fails and every other succeeds. -/
def env_fail_at (k : Nat) : Nat → Int := fun n => if n = k then -1 else 1

/-! ## hid_server.cpp: life cycle, accept loop and control loop -/

/-- Method `force_disconnect` (the `notify_all` has no effect on the fields). -/
def force_disconnect (w : Sys) : Sys := reset_connection_locked w

/-- Method `start`.  `control_socket` and `interrupt_socket` are the outcomes of the two calls
of `create_listen_socket`: the listening descriptor, or `none` when the call throws. -/
def start (w : Sys) (control_socket interrupt_socket : Option Int) : Sys :=
  if w.srv.running then w
  else
    match control_socket with
    | none => w
    | some c =>
      let w1 : Sys := { w with srv := { w.srv with control_listen_fd := c } }
      match interrupt_socket with
      | none => w1
      | some i => { w1 with srv := { w1.srv with interrupt_listen_fd := i, running := true } }

/-- Method `stop` (joining the threads has no effect on the fields). -/
def stop (w : Sys) : Sys :=
  if !w.srv.running && decide (w.srv.control_listen_fd < 0)
      && decide (w.srv.interrupt_listen_fd < 0) then w
  else
    let c : Int × List Event :=
      if w.srv.control_listen_fd ≥ 0 then (-1, [Event.close w.srv.control_listen_fd])
      else (w.srv.control_listen_fd, [])
    let i : Int × List Event :=
      if w.srv.interrupt_listen_fd ≥ 0 then (-1, [Event.close w.srv.interrupt_listen_fd])
      else (w.srv.interrupt_listen_fd, [])
    reset_connection_locked
      { w with
        srv := { w.srv with running := false, control_listen_fd := c.1,
                            interrupt_listen_fd := i.1 },
        trace := w.trace ++ c.2 ++ i.2 }

/-- First block of the body of `accept_loop`, taken when the control listening socket is
readable: `client` is the value returned by `accept`.  The creation of the control thread
does not touch the fields. -/
def accept_control (w : Sys) (client : Int) : Sys :=
  if client ≥ 0 then
    let c := close_client w.srv.control_client_fd
    { w with
      srv := { w.srv with control_client_fd := client },
      trace := w.trace ++ c.2 }
  else w

/-- Second block of the body of `accept_loop`, taken when the interrupt listening socket is
readable: `client` is the value returned by `accept`. -/
def accept_interrupt (w : Sys) (client : Int) : Sys :=
  if client ≥ 0 then
    let i := close_client w.srv.interrupt_client_fd
    let w1 : Sys :=
      { w with
        srv := { w.srv with interrupt_client_fd := client },
        trace := w.trace ++ i.2 }
    if w1.srv.control_client_fd ≥ 0 then
      { w1 with srv := { w1.srv with connected := true, protocol_mode := 1 } }
    else w1
  else w

/-- One pass through the `while` loop of `control_loop`.  `received` holds the bytes
delivered by `recv` into the 128-byte buffer (empty when `recv` returns a value `≤ 0`).
The Boolean tells whether the loop goes on; when it does not, the `reset_connection_locked`
that follows the loop has been executed. -/
def control_loop_iteration (w : Sys) (received : List Nat) : Bool × Sys :=
  if !w.srv.running then (false, reset_connection_locked w)
  else if w.srv.control_client_fd < 0 then (false, reset_connection_locked w)
  else if (received.take 128).length ≤ 0 then (false, reset_connection_locked w)
  else (true, handle_control_message w (received.take 128))

/-- Events that drive the server. -/
inductive Action where
  | start (control_socket interrupt_socket : Option Int)
  | accept_control (client : Int)
  | accept_interrupt (client : Int)
  | control_message (data : List Nat)
  | control_recv (received : List Nat)
  | control_closed
  | send_packet (data : List Nat)
  | force_disconnect
  | stop
deriving DecidableEq, Repr

/-- Effect of one event, each handler running atomically.  The guards of the two loops
(`running_`, readable listening socket) are not imposed on `accept_control`,
`accept_interrupt`, `control_message` and `control_closed`, so the states reached by `run`
include every state the program can reach. -/
def step (env : Nat → Int) (w : Sys) : Action → Sys
  | Action.start c i => start w c i
  | Action.accept_control client => accept_control w client
  | Action.accept_interrupt client => accept_interrupt w client
  | Action.control_message data => handle_control_message w data
  | Action.control_recv received => (control_loop_iteration w received).2
  | Action.control_closed => reset_connection_locked w
  | Action.send_packet data => (send_interrupt_packet env w data).2
  | Action.force_disconnect => force_disconnect w
  | Action.stop => stop w

/-- The freshly constructed server with an empty trace. -/
def sys_init : Sys := { srv := init, trace := [], sends := 0 }

/-- State after a sequence of events. -/
def run (env : Nat → Int) (w : Sys) (acts : List Action) : Sys :=
  acts.foldl (step env) w

/-! ## hid_server.cpp: the control thread -/

/-- The server together with the bookkeeping of the member `control_thread_`:
`control_thread_joinable` is the value of `control_thread_.joinable()` (true from the
construction of the `std::thread` until it is joined, also after its function has returned)
and `control_loop_running` tells whether the thread is still inside `control_loop`. -/
structure Worker where
  sys : Sys
  control_thread_joinable : Bool
  control_loop_running : Bool
deriving DecidableEq, Repr

/-- The freshly constructed server: no control thread yet. -/
def worker_init : Worker :=
  { sys := sys_init, control_thread_joinable := false, control_loop_running := false }

/-- First block of the body of `accept_loop` with the start of the control thread:
`if (!control_thread_.joinable()) control_thread_ = std::thread(&HidServer::control_loop, this)`. -/
def accept_control_worker (v : Worker) (client : Int) : Worker :=
  if client ≥ 0 then
    let s := accept_control v.sys client
    if !v.control_thread_joinable then
      { sys := s, control_thread_joinable := true, control_loop_running := true }
    else { v with sys := s }
  else v

/-- One pass of the control thread through the loop of `control_loop`; it can only happen
while the thread is inside the loop, and the loop is left when the pass breaks. -/
def control_loop_pass (v : Worker) (received : List Nat) : Worker :=
  if v.control_loop_running then
    let r := control_loop_iteration v.sys received
    { v with sys := r.2, control_loop_running := r.1 }
  else v

/-- Method `stop` with the joins at its end: after `join` the thread object is not joinable
and its function has returned. -/
def stop_worker (v : Worker) : Worker :=
  if !v.sys.srv.running && decide (v.sys.srv.control_listen_fd < 0)
      && decide (v.sys.srv.interrupt_listen_fd < 0) then v
  else { sys := stop v.sys, control_thread_joinable := false, control_loop_running := false }

/-- Events that drive the server when the control thread is tracked. -/
inductive WorkerAction where
  | start (control_socket interrupt_socket : Option Int)
  | accept_control (client : Int)
  | accept_interrupt (client : Int)
  | control_recv (received : List Nat)
  | send_packet (data : List Nat)
  | force_disconnect
  | stop
deriving DecidableEq, Repr

/-- Effect of one event on the server and its control thread. -/
def step_worker (env : Nat → Int) (v : Worker) : WorkerAction → Worker
  | WorkerAction.start c i => { v with sys := start v.sys c i }
  | WorkerAction.accept_control client => accept_control_worker v client
  | WorkerAction.accept_interrupt client => { v with sys := accept_interrupt v.sys client }
  | WorkerAction.control_recv received => control_loop_pass v received
  | WorkerAction.send_packet data => { v with sys := (send_interrupt_packet env v.sys data).2 }
  | WorkerAction.force_disconnect => { v with sys := force_disconnect v.sys }
  | WorkerAction.stop => stop_worker v

/-- State of the server and its control thread after a sequence of events. -/
def run_worker (env : Nat → Int) (v : Worker) (acts : List WorkerAction) : Worker :=
  acts.foldl (step_worker env) v

/-! ## hid_server.cpp: `type_text` next to the other threads -/

/-- Outcome of a public method that runs while other threads run: the value returned, the
state at the return, and the interrupt writes issued by the call itself, in order, each with
the value returned by `send`. -/
structure Call where
  result : Bool
  sys : Sys
  writes : List (List Nat × Int)
deriving DecidableEq, Repr

/-- Method `ensure_connection_locked` when other threads run during the wait.  `wait_for`
evaluates its predicate `!running_ || connected_` first and does not wait when it holds;
otherwise the mutex is released, the events `during_wait` of the other threads take place,
and `wait_for` returns the value of the predicate on the fields at the end of the wait. -/
def ensure_connection_locked_waiting (env : Nat → Int) (during_wait : List Action) (w : Sys) :
    Bool × Sys :=
  if !w.srv.connected then
    if !(!w.srv.running || w.srv.connected) then
      let w1 := run env w during_wait
      if !(!w1.srv.running || w1.srv.connected) then
        (false, { w1 with trace := w1.trace ++ [Event.cerr Diag.wait_timeout] })
      else (w1.srv.connected, w1)
    else (w.srv.connected, w)
  else (w.srv.connected, w)

/-- Method `send_interrupt_packet` when other threads run: `during_wait` are their events
during the wait of `ensure_connection_locked`, `before_send` those between `lock.unlock()`
and `send`, which writes to the descriptor read under the mutex, and `before_reset` those
between a failed `send` and the `reset_connection_locked` that follows it. -/
def send_interrupt_packet_threads (env : Nat → Int)
    (during_wait before_send before_reset : List Action) (w : Sys) (data : List Nat) : Call :=
  let e := ensure_connection_locked_waiting env during_wait w
  if !e.1 then { result := false, sys := e.2, writes := [] }
  else
    let fd := e.2.srv.interrupt_client_fd
    let w0 := run env e.2 before_send
    let written := env w0.sends
    let w1 : Sys := { w0 with trace := w0.trace ++ [Event.send fd data], sends := w0.sends + 1 }
    if written < 0 then
      let w2 := run env { w1 with trace := w1.trace ++ [Event.cerr Diag.send_failed] }
        before_reset
      { result := false, sys := reset_connection_locked w2, writes := [(data, written)] }
    else { result := true, sys := w1, writes := [(data, written)] }

/-- Method `send_keyboard_report` when other threads run.  `others 0` are their events before
the mutex is taken to read `protocol_mode_`, `others 1` those between that read and the
call of `send_interrupt_packet`, `others 2`, `others 3` and `others 4` those inside
`send_interrupt_packet` (during the wait, before the `send`, before the reset). -/
def send_keyboard_report_threads (env : Nat → Int) (others : Nat → List Action) (w : Sys)
    (report : KeyboardReport) : Call :=
  let packet : List Nat :=
    [kKeyboardReportId, report.modifiers, report.reserved,
     report.keys 0, report.keys 1, report.keys 2, report.keys 3, report.keys 4, report.keys 5]
  let w0 := run env w (others 0)
  let report_mode : Bool := w0.srv.protocol_mode != 0
  let data := if report_mode then packet else packet.drop 1
  let length := if report_mode then 9 else 9 - 1
  send_interrupt_packet_threads env (others 2) (others 3) (others 4)
    (run env w0 (others 1)) (data.take length)

/-- Method `type_text` when other threads run; `text` holds the `char` values of the string
from position `i` on.  `others i j` are the events of the other threads (accept loop, control
loop, other callers) at the character at position `i`: `j = 0 .. 4` inside the
`send_keyboard_report` of the press, `j = 5 .. 9` inside that of the release, `j = 10`
during the `sleep_for` of 8 ms; at a character without a mapping, `j = 0` are their events
while the warning is written. -/
def type_text_threads (env : Nat → Int) (others : Nat → Nat → List Action) :
    Nat → Sys → List Int → Call
  | _, w, [] => { result := true, sys := w, writes := [] }
  | i, w, ch :: rest =>
    match map_character ch with
    | none =>
      type_text_threads env others (i + 1)
        (run env { w with trace := w.trace ++ [Event.cerr (Diag.unsupported_character ch)] }
          (others i 0)) rest
    | some key =>
      let report : KeyboardReport :=
        { modifiers := if key.requires_shift then kLeftShiftMask else 0,
          keys := fun i => if i = 0 then key.keycode else 0 }
      let r1 := send_keyboard_report_threads env (fun j => others i j) w report
      if !r1.result then r1
      else
        let release : KeyboardReport := {}
        let r2 := send_keyboard_report_threads env (fun j => others i (5 + j)) r1.sys release
        if !r2.result then
          { result := false, sys := r2.sys, writes := r1.writes ++ r2.writes }
        else
          let w3 := run env { r2.sys with trace := r2.sys.trace ++ [Event.sleep_ms 8] }
            (others i 10)
          let r3 := type_text_threads env others (i + 1) w3 rest
          { result := r3.result, sys := r3.sys, writes := r1.writes ++ r2.writes ++ r3.writes }

end HidServer

/-! ## main.cpp and command_server.cpp: escapes of the TYPE command -/

/-- Function `escape_text` of main.cpp on the `char` values of the string: backslash (92),
line feed (10), carriage return (13) and tab (9) become a backslash followed by a backslash,
n (110), r (114) and t (116). -/
def escape_text : List Int → List Int
  | [] => []
  | ch :: rest =>
    (if ch = 92 then [92, 92]
     else if ch = 10 then [92, 110]
     else if ch = 13 then [92, 114]
     else if ch = 9 then [92, 116]
     else [ch]) ++ escape_text rest

/-- Function `decode_escape_sequences` of command_server.cpp: a backslash that is not the
last character consumes the next character. -/
def decode_escape_sequences : List Int → List Int
  | [] => []
  | [ch] => [ch]
  | ch :: next :: rest =>
    if ch = 92 then
      (if next = 110 then 10
       else if next = 114 then 13
       else if next = 116 then 9
       else if next = 92 then 92
       else next) :: decode_escape_sequences rest
    else ch :: decode_escape_sequences (next :: rest)

/-- Command line built by the client for `type`: the characters of `TYPE`, a space, and the
escaped text. -/
def type_command_line (text : List Int) : List Int :=
  [84, 89, 80, 69, 32] ++ escape_text text

/-- Field `"protocol"` of the STATUS reply of `CommandServer::handle_client`: true stands for
the string `boot`, false for `report`. -/
def status_protocol_is_boot (s : HidServer) : Bool := HidServer.current_protocol s == 0

/-! ## hid_report_map.h and hidReportMap -/

/-- Array `hid_report_descriptor` of hid_report_map.h, registered by `run_daemon`. -/
def hid_report_descriptor : List Nat :=
  [0x05, 0x01, 0x09, 0x06, 0xA1, 0x01, 0x05, 0x07, 0x19, 0xE0, 0x29, 0xE7, 0x15, 0x00,
   0x25, 0x01, 0x75, 0x01, 0x95, 0x08, 0x81, 0x02, 0x95, 0x01, 0x75, 0x08, 0x81, 0x01,
   0x95, 0x05, 0x75, 0x01, 0x05, 0x08, 0x19, 0x01, 0x29, 0x05, 0x91, 0x02, 0x95, 0x01,
   0x75, 0x03, 0x91, 0x01, 0x95, 0x06, 0x75, 0x08, 0x15, 0x00, 0x25, 0x65, 0x05, 0x07,
   0x19, 0x00, 0x29, 0x65, 0x81, 0x00, 0xC0]

namespace Ble

/-- Function `hidReportMap` of bluetooth_hid_server.cpp. -/
def hidReportMap : List Nat :=
  [0x05, 0x01, 0x09, 0x06, 0xA1, 0x01, 0x85, 0x01, 0x05, 0x07, 0x19, 0xE0, 0x29, 0xE7,
   0x15, 0x00, 0x25, 0x01, 0x75, 0x01, 0x95, 0x08, 0x81, 0x02, 0x95, 0x01, 0x75, 0x08,
   0x81, 0x01, 0x95, 0x06, 0x75, 0x08, 0x15, 0x00, 0x25, 0x65, 0x05, 0x07, 0x19, 0x00,
   0x29, 0x65, 0x81, 0x00, 0xC0,
   0x05, 0x01, 0x09, 0x02, 0xA1, 0x01, 0x85, 0x02, 0x09, 0x01, 0xA1, 0x00, 0x05, 0x09,
   0x19, 0x01, 0x29, 0x03, 0x15, 0x00, 0x25, 0x01, 0x95, 0x03, 0x75, 0x01, 0x81, 0x02,
   0x95, 0x01, 0x75, 0x05, 0x81, 0x01, 0x05, 0x01, 0x09, 0x30, 0x09, 0x31, 0x09, 0x38,
   0x15, 0x81, 0x25, 0x7F, 0x75, 0x08, 0x95, 0x03, 0x81, 0x06, 0xC0, 0xC0]

/-! ## hid_reports.cpp -/

/-- Record `HIDKeyboardStroke` of hid_reports.hpp. -/
structure HIDKeyboardStroke where
  usage : Nat := 0
  modifiers : Nat := 0
deriving DecidableEq, Repr

def kLeftShift : Nat := 0x02

/-- Entries of the static table of `lookupFromTable`, keyed by the `char` value. -/
def stroke_table : List (Int × HIDKeyboardStroke) :=
  [(49, ⟨0x1E, 0x00⟩), (50, ⟨0x1F, 0x00⟩), (51, ⟨0x20, 0x00⟩), (52, ⟨0x21, 0x00⟩),
   (53, ⟨0x22, 0x00⟩), (54, ⟨0x23, 0x00⟩), (55, ⟨0x24, 0x00⟩), (56, ⟨0x25, 0x00⟩),
   (57, ⟨0x26, 0x00⟩), (48, ⟨0x27, 0x00⟩),
   (45, ⟨0x2D, 0x00⟩), (61, ⟨0x2E, 0x00⟩), (91, ⟨0x2F, 0x00⟩), (93, ⟨0x30, 0x00⟩),
   (92, ⟨0x31, 0x00⟩), (59, ⟨0x33, 0x00⟩), (39, ⟨0x34, 0x00⟩), (96, ⟨0x35, 0x00⟩),
   (44, ⟨0x36, 0x00⟩), (46, ⟨0x37, 0x00⟩), (47, ⟨0x38, 0x00⟩),
   (33, ⟨0x1E, kLeftShift⟩), (64, ⟨0x1F, kLeftShift⟩), (35, ⟨0x20, kLeftShift⟩),
   (36, ⟨0x21, kLeftShift⟩), (37, ⟨0x22, kLeftShift⟩), (94, ⟨0x23, kLeftShift⟩),
   (38, ⟨0x24, kLeftShift⟩), (42, ⟨0x25, kLeftShift⟩), (40, ⟨0x26, kLeftShift⟩),
   (41, ⟨0x27, kLeftShift⟩), (95, ⟨0x2D, kLeftShift⟩), (43, ⟨0x2E, kLeftShift⟩),
   (123, ⟨0x2F, kLeftShift⟩), (125, ⟨0x30, kLeftShift⟩), (124, ⟨0x31, kLeftShift⟩),
   (58, ⟨0x33, kLeftShift⟩), (34, ⟨0x34, kLeftShift⟩), (126, ⟨0x35, kLeftShift⟩),
   (60, ⟨0x36, kLeftShift⟩), (62, ⟨0x37, kLeftShift⟩), (63, ⟨0x38, kLeftShift⟩),
   (32, ⟨0x2C, 0x00⟩), (9, ⟨0x2B, 0x00⟩), (10, ⟨0x28, 0x00⟩), (13, ⟨0x28, 0x00⟩),
   (8, ⟨0x2A, 0x00⟩)]

/-- Function `lookupFromTable`: the entry of the table with key `ch`, if any. -/
def lookupFromTable (ch : Int) : Option HIDKeyboardStroke :=
  (stroke_table.find? (fun e => decide (e.1 = ch))).map Prod.snd

/-- Function `lookupKeyboardStroke`. -/
def lookupKeyboardStroke (ch : Int) : Option HIDKeyboardStroke :=
  if 97 ≤ ch ∧ ch ≤ 122 then some ⟨to_uint8 (0x04 + (ch - 97)), 0x00⟩
  else if 65 ≤ ch ∧ ch ≤ 90 then some ⟨to_uint8 (0x04 + (ch - 65)), kLeftShift⟩
  else
    match lookupFromTable ch with
    | some stroke => some stroke
    | none => none

/-- Function `makeKeyboardReport`. -/
def makeKeyboardReport (modifiers keycode : Nat) : List Nat :=
  [0x01, modifiers, 0x00, keycode, 0, 0, 0, 0, 0]

/-- Function `makeKeyboardReleaseReport`. -/
def makeKeyboardReleaseReport : List Nat := [0x01, 0x00, 0x00, 0x00, 0x00, 0x00, 0x00, 0x00, 0x00]

/-- Function `makeMouseReport`; the parameters `dx`, `dy`, `wheel` are `int8_t` values. -/
def makeMouseReport (buttons : Nat) (dx dy : Int) (wheel : Int := 0) : List Nat :=
  [0x02, buttons, to_uint8 dx, to_uint8 dy, to_uint8 wheel]

/-! ## hid_config.hpp and bluetooth_hid_server.cpp -/

/-- Record `HIDSafetyConfig`; the fields are `uint32_t` values. -/
structure HIDSafetyConfig where
  keypressDelayMs : Nat := 20
  mouseMoveDelayMs : Nat := 5
  mouseStepLimit : Nat := 50
deriving DecidableEq, Repr

/-- The parts of record `HIDConfig` read by the input methods. -/
structure HIDConfig where
  keyboard_enabled : Bool := true
  mouse_enabled : Bool := true
  safety : HIDSafetyConfig := {}
deriving DecidableEq, Repr

/-- The GATT characteristics on which input reports are published. -/
inductive Characteristic where
  | keyboardInput
  | bootKeyboardInput
  | mouseInput
  | bootMouseInput
deriving DecidableEq, Repr

/-- Observable actions of the BLE server, in program order. -/
inductive BleEvent where
  | notifyValue (c : Characteristic) (value : List Nat)
  | sleep_ms (ms : Nat)
  | cerr_unsupported (ch : Int)
deriving DecidableEq, Repr

/-- The members of `BluetoothHIDServer::Impl` used by the input methods, with the trace of
the actions performed so far. -/
structure BleServer where
  config : HIDConfig := {}
  lastPointerX : Int := 0
  lastPointerY : Int := 0
  trace : List BleEvent := []
deriving DecidableEq, Repr

/-- How a call ends: it returns with a new state, throws, runs into undefined behaviour of
the language or library, or is still looping when the step budget of the model is used up. -/
inductive Outcome where
  | finished (s : BleServer)
  | thrown
  | undefined_behaviour
  | out_of_fuel
deriving DecidableEq, Repr

/-- The values published on characteristic `c`, in order. -/
def notified (c : Characteristic) : List BleEvent → List (List Nat)
  | [] => []
  | BleEvent.notifyValue d value :: t =>
    if d = c then value :: notified c t else notified c t
  | _ :: t => notified c t

/-- Loop of `sendText` over the `char` values of the text. -/
def sendText_loop : BleServer → List Int → BleServer
  | s, [] => s
  | s, ch :: rest =>
    if ch = 13 then sendText_loop s rest
    else
      match lookupKeyboardStroke ch with
      | none => sendText_loop { s with trace := s.trace ++ [BleEvent.cerr_unsupported ch] } rest
      | some stroke =>
        let report := makeKeyboardReport stroke.modifiers stroke.usage
        sendText_loop
          { s with
            trace := s.trace ++
              [BleEvent.notifyValue Characteristic.keyboardInput report,
               BleEvent.notifyValue Characteristic.bootKeyboardInput (report.drop 1),
               BleEvent.sleep_ms s.config.safety.keypressDelayMs,
               BleEvent.notifyValue Characteristic.keyboardInput makeKeyboardReleaseReport,
               BleEvent.notifyValue Characteristic.bootKeyboardInput
                 (makeKeyboardReleaseReport.drop 1),
               BleEvent.sleep_ms s.config.safety.keypressDelayMs] } rest

/-- Method `sendText`. -/
def sendText (s : BleServer) (text : List Int) : Outcome :=
  if !s.config.keyboard_enabled then Outcome.thrown
  else Outcome.finished (sendText_loop s text)

/-- Conversion of a `uint32_t` value to `int`, as done for the first argument of
`std::min<int>`. -/
def to_int32 (n : Nat) : Int := ((n : Int) + 2147483648) % 4294967296 - 2147483648

/-- Whether an integer is representable as `int`. -/
def in_int (z : Int) : Bool := decide (-2147483648 ≤ z) && decide (z ≤ 2147483647)

/-- Function `std::clamp`; the call is undefined (`none`) when `hi < lo`. -/
def clamp (v lo hi : Int) : Option Int :=
  if hi < lo then none
  else some (if v < lo then lo else if hi < v then hi else v)

/-- The `while` loop of `movePointerInternal`; the first argument bounds the number of
passes the model follows. -/
def movePointer_loop (maxStep : Int) : Nat → BleServer → Int → Int → Outcome
  | 0, s, dx, dy => if dx ≠ 0 ∨ dy ≠ 0 then Outcome.out_of_fuel else Outcome.finished s
  | fuel + 1, s, dx, dy =>
    if dx ≠ 0 ∨ dy ≠ 0 then
      match clamp dx (-maxStep) maxStep, clamp dy (-maxStep) maxStep with
      | some stepX, some stepY =>
        let report := makeMouseReport 0x00 (to_int8 stepX) (to_int8 stepY)
        movePointer_loop maxStep fuel
          { s with
            trace := s.trace ++
              [BleEvent.notifyValue Characteristic.mouseInput report,
               BleEvent.notifyValue Characteristic.bootMouseInput
                 [report.getD 1 0, report.getD 2 0, report.getD 3 0],
               BleEvent.sleep_ms s.config.safety.mouseMoveDelayMs],
            lastPointerX := s.lastPointerX + stepX,
            lastPointerY := s.lastPointerY + stepY }
          (dx - stepX) (dy - stepY)
      | _, _ => Outcome.undefined_behaviour
    else Outcome.finished s

/-- Method `movePointerInternal`.  The two subtractions are undefined when their result is
not an `int`; inside the loop every value lies between the tracked position and the target,
so no other operation can overflow. -/
def movePointerInternal (fuel : Nat) (s : BleServer) (targetX targetY : Int) : Outcome :=
  let maxStep : Int := min (to_int32 s.config.safety.mouseStepLimit) 127
  let dx := targetX - s.lastPointerX
  let dy := targetY - s.lastPointerY
  if in_int dx && in_int dy then movePointer_loop maxStep fuel s dx dy
  else Outcome.undefined_behaviour

/-- Lines 137 to 141 of `loadHIDConfig`: the step limit read from the `safety` node, with
zero replaced by one. -/
def load_mouse_step_limit (parsed : Nat) : Nat := if parsed = 0 then 1 else parsed

end Ble

namespace HidServer

/-! ## Auxiliary lemmas -/

theorem sent_append (a b : List Event) : sent (a ++ b) = sent a ++ sent b := by
  induction a with
  | nil => rfl
  | cons e t ih => cases e <;> simp [sent, ih]

theorem send_interrupt_packet_ok (env : Nat → Int) (w : Sys) (data : List Nat)
    (hc : w.srv.connected = true) (h : 0 ≤ env w.sends) :
    send_interrupt_packet env w data =
      (true, { w with
        trace := w.trace ++ [Event.send w.srv.interrupt_client_fd data],
        sends := w.sends + 1 }) := by
  simp [send_interrupt_packet, ensure_connection_locked, hc, not_lt.mpr h]

theorem sent_send_interrupt_packet (env : Nat → Int) (w : Sys) (data : List Nat)
    (hc : w.srv.connected = true) :
    sent (send_interrupt_packet env w data).2.trace =
      sent w.trace ++ [(w.srv.interrupt_client_fd, data)] := by
  by_cases h : env w.sends < 0
  · simp only [send_interrupt_packet, ensure_connection_locked, hc, reset_connection_locked,
      close_client]
    split_ifs <;> simp_all [sent_append, sent]
  · simp [send_interrupt_packet, ensure_connection_locked, hc, h, sent_append, sent]

theorem send_keyboard_report_eq (env : Nat → Int) (w : Sys) (r : KeyboardReport) :
    send_keyboard_report env w r =
      send_interrupt_packet env w
        (if w.srv.protocol_mode ≠ 0 then
          [0x01, r.modifiers, r.reserved,
           r.keys 0, r.keys 1, r.keys 2, r.keys 3, r.keys 4, r.keys 5]
        else
          [r.modifiers, r.reserved,
           r.keys 0, r.keys 1, r.keys 2, r.keys 3, r.keys 4, r.keys 5]) := by
  by_cases h : w.srv.protocol_mode = 0 <;>
    simp [send_keyboard_report, kKeyboardReportId, h]

theorem send_mouse_report_eq (env : Nat → Int) (w : Sys) (r : MouseReport) :
    send_mouse_report env w r =
      send_interrupt_packet env w
        (if w.srv.protocol_mode ≠ 0 then
          [0x02, r.buttons, to_uint8 r.dx, to_uint8 r.dy, to_uint8 r.wheel]
        else
          [r.buttons, to_uint8 r.dx, to_uint8 r.dy]) := by
  by_cases h : w.srv.protocol_mode = 0 <;>
    simp [send_mouse_report, kMouseReportId, h]

theorem to_uint8_to_int8_clamp (z : Int) :
    to_uint8 (to_int8 (if (if z > 127 then 127 else z) < -127 then -127
      else (if z > 127 then 127 else z))) = ((max (-127) (min 127 z)) % 256).toNat := by
  have hc : (if (if z > 127 then 127 else z) < -127 then -127
      else (if z > 127 then 127 else z)) = max (-127) (min 127 z) := by
    split_ifs <;> omega
  rw [hc]
  have h1 : -127 ≤ max (-127) (min 127 z) := le_max_left _ _
  have h2 : max (-127) (min 127 z) ≤ 127 := max_le (by norm_num) (min_le_left _ _)
  generalize max (-127) (min 127 z) = c at h1 h2
  have : to_int8 c = c := by unfold to_int8; omega
  rw [this, to_uint8]

/-! ## Report framing -/

/-- Claim C2: `send_keyboard_report` hands to the interrupt channel the nine bytes
`[0x01, modifiers, reserved, keys[0..5]]` when `protocol_mode` is non-zero and the eight
bytes `[modifiers, reserved, keys[0..5]]` when it is zero; the boot frame is the report
frame without its first byte, and on a connected server that frame is the one `send`
issued by the call. -/
theorem send_keyboard_report_bytes (env : Nat → Int) (w : Sys) (r : KeyboardReport)
    (hconn : w.srv.connected = true) :
    ∃ report_frame boot_frame : List Nat,
      report_frame = [0x01, r.modifiers, r.reserved,
        r.keys 0, r.keys 1, r.keys 2, r.keys 3, r.keys 4, r.keys 5] ∧
      boot_frame = [r.modifiers, r.reserved,
        r.keys 0, r.keys 1, r.keys 2, r.keys 3, r.keys 4, r.keys 5] ∧
      report_frame.length = 9 ∧ boot_frame.length = 8 ∧ boot_frame = report_frame.tail ∧
      send_keyboard_report env w r =
        send_interrupt_packet env w
          (if w.srv.protocol_mode ≠ 0 then report_frame else boot_frame) ∧
      sent (send_keyboard_report env w r).2.trace =
        sent w.trace ++
          [(w.srv.interrupt_client_fd,
            if w.srv.protocol_mode ≠ 0 then report_frame else boot_frame)] := by
  refine ⟨_, _, rfl, rfl, rfl, rfl, rfl, send_keyboard_report_eq env w r, ?_⟩
  rw [send_keyboard_report_eq, sent_send_interrupt_packet env w _ hconn]

/-- Claim C2, instance: a report with modifiers 0x02 and keys `[0x0B, 0, 0, 0, 0, 0]` on the
connected server in report mode. -/
theorem send_keyboard_report_bytes_witness :
    connected_fresh.srv.connected = true ∧
    sent (send_keyboard_report (env_all_ok 9) connected_fresh
      { modifiers := 2, keys := fun i => if i = 0 then 0x0B else 0 }).2.trace =
      [(6, [0x01, 0x02, 0x00, 0x0B, 0, 0, 0, 0, 0])] ∧
    sent (send_keyboard_report (env_all_ok 8)
      { connected_fresh with srv := { connected_fresh.srv with protocol_mode := 0 } }
      { modifiers := 2, keys := fun i => if i = 0 then 0x0B else 0 }).2.trace =
      [(6, [0x02, 0x00, 0x0B, 0, 0, 0, 0, 0])] := by
  refine ⟨rfl, ?_, ?_⟩
  · obtain ⟨a, b, ha, hb, -, -, -, -, h⟩ :=
      send_keyboard_report_bytes (env_all_ok 9) connected_fresh
        { modifiers := 2, keys := fun i => if i = 0 then 0x0B else 0 } rfl
    rw [h, ha]; rfl
  · obtain ⟨a, b, ha, hb, -, -, -, -, h⟩ :=
      send_keyboard_report_bytes (env_all_ok 8)
        { connected_fresh with srv := { connected_fresh.srv with protocol_mode := 0 } }
        { modifiers := 2, keys := fun i => if i = 0 then 0x0B else 0 } rfl
    rw [h, hb]; rfl

/-- Claim C3: `send_mouse_report` hands to the interrupt channel the five bytes
`[0x02, buttons, dx, dy, wheel]` (signed fields as bytes modulo 256) when `protocol_mode`
is non-zero and the three bytes `[buttons, dx, dy]` when it is zero, and on a connected
server that frame is the one `send` issued by the call. -/
theorem send_mouse_report_bytes (env : Nat → Int) (w : Sys) (r : MouseReport)
    (hconn : w.srv.connected = true) :
    ∃ report_frame boot_frame : List Nat,
      report_frame = [0x02, r.buttons, (r.dx % 256).toNat, (r.dy % 256).toNat,
        (r.wheel % 256).toNat] ∧
      boot_frame = [r.buttons, (r.dx % 256).toNat, (r.dy % 256).toNat] ∧
      report_frame.length = 5 ∧ boot_frame.length = 3 ∧
      boot_frame = (report_frame.drop 1).take 3 ∧
      send_mouse_report env w r =
        send_interrupt_packet env w
          (if w.srv.protocol_mode ≠ 0 then report_frame else boot_frame) ∧
      sent (send_mouse_report env w r).2.trace =
        sent w.trace ++
          [(w.srv.interrupt_client_fd,
            if w.srv.protocol_mode ≠ 0 then report_frame else boot_frame)] := by
  refine ⟨_, _, rfl, rfl, rfl, rfl, rfl, send_mouse_report_eq env w r, ?_⟩
  rw [send_mouse_report_eq, sent_send_interrupt_packet env w _ hconn]
  rfl

/-- Claim C3, instance: buttons 1, dx = 5, dy = -1, wheel = -128 on the connected server,
in report mode and in boot mode. -/
theorem send_mouse_report_bytes_witness :
    connected_fresh.srv.connected = true ∧
    sent (send_mouse_report (env_all_ok 5) connected_fresh
      { buttons := 1, dx := 5, dy := -1, wheel := -128 }).2.trace =
      [(6, [0x02, 0x01, 0x05, 0xFF, 0x80])] ∧
    sent (send_mouse_report (env_all_ok 3)
      { connected_fresh with srv := { connected_fresh.srv with protocol_mode := 0 } }
      { buttons := 1, dx := 5, dy := -1, wheel := -128 }).2.trace =
      [(6, [0x01, 0x05, 0xFF])] := by
  refine ⟨rfl, ?_, ?_⟩
  · obtain ⟨a, b, ha, hb, -, -, -, -, h⟩ :=
      send_mouse_report_bytes (env_all_ok 5) connected_fresh
        { buttons := 1, dx := 5, dy := -1, wheel := -128 } rfl
    rw [h, ha]; rfl
  · obtain ⟨a, b, ha, hb, -, -, -, -, h⟩ :=
      send_mouse_report_bytes (env_all_ok 3)
        { connected_fresh with srv := { connected_fresh.srv with protocol_mode := 0 } }
        { buttons := 1, dx := 5, dy := -1, wheel := -128 } rfl
    rw [h, hb]; rfl

/-! ## Pointer input -/

/-- Claim C4: on a connected server in report mode whose next two interrupt writes succeed,
`move_mouse dx dy wheel` returns true and performs exactly two sends on the interrupt peer:
the motion frame `[0x02, 0x00, b cx, b cy, b cw]`, with each input clamped to `[-127, 127]`
and `b` the byte modulo 256, followed by the zero frame `[0x02, 0, 0, 0, 0]`. -/
theorem move_mouse_frames (env : Nat → Int) (w : Sys) (dx dy wheel : Int)
    (hconn : w.srv.connected = true) (hmode : w.srv.protocol_mode ≠ 0)
    (h1 : 0 ≤ env w.sends) (h2 : 0 ≤ env (w.sends + 1)) :
    move_mouse env w dx dy wheel =
      (true, { w with
        trace := w.trace ++
          [Event.send w.srv.interrupt_client_fd
            [0x02, 0x00, ((max (-127) (min 127 dx)) % 256).toNat,
              ((max (-127) (min 127 dy)) % 256).toNat,
              ((max (-127) (min 127 wheel)) % 256).toNat],
           Event.send w.srv.interrupt_client_fd [0x02, 0, 0, 0, 0]],
        sends := w.sends + 2 }) := by
  have hz : to_uint8 0 = 0 := rfl
  simp only [move_mouse, send_mouse_report_eq, to_uint8_to_int8_clamp]
  rw [send_interrupt_packet_ok env w _ hconn h1]
  simp only [Bool.not_true, Bool.false_eq_true, if_false]
  rw [send_interrupt_packet_ok]
  · simp [hmode, hz]
  · exact hconn
  · exact h2

/-- Claim C4, scenario S3: `move_mouse(200, -300, 0)` writes `[02,00,7F,81,00]` and then
`[02,00,00,00,00]`. -/
theorem move_mouse_frames_witness :
    connected_fresh.srv.connected = true ∧ connected_fresh.srv.protocol_mode ≠ 0 ∧
    0 ≤ env_all_ok 5 connected_fresh.sends ∧ 0 ≤ env_all_ok 5 (connected_fresh.sends + 1) ∧
    move_mouse (env_all_ok 5) connected_fresh 200 (-300) 0 =
      (true, { connected_fresh with
        trace := [Event.send 6 [0x02, 0x00, 0x7F, 0x81, 0x00],
                  Event.send 6 [0x02, 0x00, 0x00, 0x00, 0x00]],
        sends := 2 }) :=
  ⟨rfl, by decide, by decide, by decide,
    move_mouse_frames (env_all_ok 5) connected_fresh 200 (-300) 0 rfl (by decide)
      (by decide) (by decide)⟩

/-- Claim C5: on a connected server in report mode whose next two interrupt writes succeed,
`click m` returns true and performs, in this order, the send of the press frame
`[0x02, m, 0, 0, 0]`, the 20 ms sleep, and the send of the release frame
`[0x02, 0, 0, 0, 0]`, and nothing else. -/
theorem click_frames (env : Nat → Int) (w : Sys) (m : Nat)
    (hconn : w.srv.connected = true) (hmode : w.srv.protocol_mode ≠ 0)
    (h1 : 0 ≤ env w.sends) (h2 : 0 ≤ env (w.sends + 1)) :
    click env w m =
      (true, { w with
        trace := w.trace ++
          [Event.send w.srv.interrupt_client_fd [0x02, m, 0, 0, 0],
           Event.sleep_ms 20,
           Event.send w.srv.interrupt_client_fd [0x02, 0, 0, 0, 0]],
        sends := w.sends + 2 }) := by
  have hz : to_uint8 0 = 0 := rfl
  simp only [click, send_mouse_report_eq]
  rw [send_interrupt_packet_ok env w _ hconn h1]
  simp only [Bool.not_true, Bool.false_eq_true, if_false]
  rw [send_interrupt_packet_ok]
  · simp [hmode, hz]
  · exact hconn
  · exact h2

/-- Claim C5, scenario S4: `click(0x02)` writes `[02,02,00,00,00]`, sleeps 20 ms and then
writes `[02,00,00,00,00]`. -/
theorem click_frames_witness :
    connected_fresh.srv.connected = true ∧ connected_fresh.srv.protocol_mode ≠ 0 ∧
    0 ≤ env_all_ok 5 connected_fresh.sends ∧ 0 ≤ env_all_ok 5 (connected_fresh.sends + 1) ∧
    click (env_all_ok 5) connected_fresh 0x02 =
      (true, { connected_fresh with
        trace := [Event.send 6 [0x02, 0x02, 0x00, 0x00, 0x00],
                  Event.sleep_ms 20,
                  Event.send 6 [0x02, 0x00, 0x00, 0x00, 0x00]],
        sends := 2 }) :=
  ⟨rfl, by decide, by decide, by decide,
    click_frames (env_all_ok 5) connected_fresh 0x02 rfl (by decide) (by decide) (by decide)⟩

/-! ## Keyboard input -/

theorem type_text_ok (env : Nat → Int) (hok : ∀ n, 0 ≤ env n) (text : List Int) :
    ∀ w : Sys, w.srv.connected = true → w.srv.protocol_mode ≠ 0 →
      type_text env w text =
        (true, { w with
          trace := w.trace ++ text.flatMap (fun c =>
            match map_character c with
            | none => [Event.cerr (Diag.unsupported_character c)]
            | some k =>
              [Event.send w.srv.interrupt_client_fd
                 [0x01, if k.requires_shift then 0x02 else 0x00, 0x00, k.keycode, 0, 0, 0, 0, 0],
               Event.send w.srv.interrupt_client_fd [0x01, 0, 0, 0, 0, 0, 0, 0, 0],
               Event.sleep_ms 8]),
          sends := w.sends + 2 * text.countP (fun c => (map_character c).isSome) }) := by
  induction text with
  | nil => intro w _ _; simp [type_text]
  | cons ch rest ih =>
    intro w hconn hmode
    cases hk : map_character ch with
    | none =>
      rw [type_text]
      simp only [hk]
      rw [ih]
      · simp [hk, List.flatMap_cons]
      · exact hconn
      · exact hmode
    | some k =>
      rw [type_text]
      simp only [hk, send_keyboard_report_eq]
      rw [send_interrupt_packet_ok env w _ hconn (hok _)]
      simp only [Bool.not_true, Bool.false_eq_true, if_false]
      rw [send_interrupt_packet_ok]
      · simp only [Bool.not_true, Bool.false_eq_true, if_false]
        rw [ih]
        · simp [hk, hmode, List.flatMap_cons, kLeftShiftMask]
          omega
        · exact hconn
        · exact hmode
      · exact hconn
      · exact hok _

theorem sent_type_text_events (fd : Int) (text : List Int) :
    sent (text.flatMap (fun c =>
      match map_character c with
      | none => [Event.cerr (Diag.unsupported_character c)]
      | some k =>
        [Event.send fd
           [0x01, if k.requires_shift then 0x02 else 0x00, 0x00, k.keycode, 0, 0, 0, 0, 0],
         Event.send fd [0x01, 0, 0, 0, 0, 0, 0, 0, 0],
         Event.sleep_ms 8])) =
    text.flatMap (fun c =>
      match map_character c with
      | none => []
      | some k =>
        [(fd, [0x01, if k.requires_shift then 0x02 else 0x00, 0x00, k.keycode, 0, 0, 0, 0, 0]),
         (fd, [0x01, 0, 0, 0, 0, 0, 0, 0, 0])]) := by
  induction text with
  | nil => rfl
  | cons ch rest ih =>
    simp only [List.flatMap_cons, sent_append, ih]
    cases map_character ch <;> simp [sent]

theorem length_key_frames (fd : Int) (text : List Int) :
    (text.flatMap (fun c =>
      match map_character c with
      | none => []
      | some k =>
        [(fd, [0x01, if k.requires_shift then 0x02 else 0x00, 0x00, k.keycode, 0, 0, 0, 0, 0]),
         (fd, [0x01, 0, 0, 0, 0, 0, 0, 0, 0])])).length =
    2 * text.countP (fun c => (map_character c).isSome) := by
  induction text with
  | nil => rfl
  | cons ch rest ih =>
    simp only [List.flatMap_cons, List.length_append, ih, List.countP_cons]
    cases map_character ch
    · simp
    · simp; omega

/-- Claim C1: on a connected server in report mode where every interrupt write succeeds,
`type_text text` returns true and its sends on the interrupt peer are, in order and for each
character with a mapping `(usage, shift)`, the press frame
`[0x01, 0x02 if shift else 0x00, 0x00, usage, 0, 0, 0, 0, 0]` followed by the all-zero release
frame `[0x01, 0, 0, 0, 0, 0, 0, 0, 0]`; characters without a mapping add no frame, so exactly
`2 * k` frames are written, `k` being the number of characters that have a mapping. -/
theorem type_text_frames (env : Nat → Int) (w : Sys) (text : List Int)
    (hconn : w.srv.connected = true) (hmode : w.srv.protocol_mode ≠ 0)
    (hok : ∀ n, 0 ≤ env n) :
    (type_text env w text).1 = true ∧
    sent (type_text env w text).2.trace =
      sent w.trace ++ text.flatMap (fun c =>
        match map_character c with
        | none => []
        | some k =>
          [(w.srv.interrupt_client_fd,
             [0x01, if k.requires_shift then 0x02 else 0x00, 0x00, k.keycode, 0, 0, 0, 0, 0]),
           (w.srv.interrupt_client_fd, [0x01, 0, 0, 0, 0, 0, 0, 0, 0])]) ∧
    (sent (type_text env w text).2.trace).length =
      (sent w.trace).length + 2 * text.countP (fun c => (map_character c).isSome) := by
  rw [type_text_ok env hok text w hconn hmode]
  simp only [sent_append, sent_type_text_events, List.length_append, length_key_frames]
  exact ⟨trivial, trivial, trivial⟩

/-- Claim C1, scenarios S1 and S2: typing the characters H (72) and i (105) writes
`[01,02,00,0B,00,00,00,00,00]`, the zero frame, `[01,00,00,0C,00,00,00,00,00]`, the zero
frame; typing the exclamation mark (33) writes `[01,02,00,1E,00,00,00,00,00]` and the zero
frame; a byte without a mapping (200) in between adds nothing. -/
theorem type_text_frames_witness :
    connected_fresh.srv.connected = true ∧ connected_fresh.srv.protocol_mode ≠ 0 ∧
    (∀ n, 0 ≤ env_all_ok 9 n) ∧
    (type_text (env_all_ok 9) connected_fresh [72, 105]).1 = true ∧
    sent (type_text (env_all_ok 9) connected_fresh [72, 105]).2.trace =
      [(6, [0x01, 0x02, 0x00, 0x0B, 0, 0, 0, 0, 0]), (6, [0x01, 0, 0, 0, 0, 0, 0, 0, 0]),
       (6, [0x01, 0x00, 0x00, 0x0C, 0, 0, 0, 0, 0]), (6, [0x01, 0, 0, 0, 0, 0, 0, 0, 0])] ∧
    sent (type_text (env_all_ok 9) connected_fresh [200, 33]).2.trace =
      [(6, [0x01, 0x02, 0x00, 0x1E, 0, 0, 0, 0, 0]), (6, [0x01, 0, 0, 0, 0, 0, 0, 0, 0])] := by
  have hok : ∀ n, 0 ≤ env_all_ok 9 n := fun _ => by simp [env_all_ok]
  refine ⟨rfl, by decide, hok, ?_, ?_, ?_⟩
  · exact (type_text_frames (env_all_ok 9) connected_fresh [72, 105] rfl (by decide) hok).1
  · rw [(type_text_frames (env_all_ok 9) connected_fresh [72, 105] rfl (by decide) hok).2.1]
    decide
  · rw [(type_text_frames (env_all_ok 9) connected_fresh [200, 33] rfl (by decide) hok).2.1]
    decide

/-! ## Control channel -/

theorem handle_set_protocol_eq (w : Sys) (H : Nat) (payload : List Nat)
    (hH : H &&& 0xF0 = 0x70) :
    handle_control_message w (H :: payload) =
      { w with
        srv := { w.srv with protocol_mode := (H &&& 0x0F) &&& 0x01 },
        trace := w.trace ++ [Event.send w.srv.control_client_fd [0x00]] } := by
  simp [handle_control_message, hH, send_control, HID_MSG_TYPE_CONTROL,
    HID_MSG_TYPE_SET_PROTOCOL, HID_HANDSHAKE_SUCCESS]

theorem handle_get_protocol_eq (w : Sys) (H : Nat) (payload : List Nat)
    (hH : H &&& 0xF0 = 0x60) :
    handle_control_message w (H :: payload) =
      { w with
        trace := w.trace ++ [Event.send w.srv.control_client_fd [0xA3, w.srv.protocol_mode]] } := by
  simp [handle_control_message, hH, send_control, HID_MSG_TYPE_CONTROL,
    HID_MSG_TYPE_SET_PROTOCOL, HID_MSG_TYPE_GET_PROTOCOL, HID_MSG_TYPE_DATA]

/-- Claim C6: a control message whose header has type 0x70 (SET_PROTOCOL), with any param
`p = H & 0x0F` and any payload, is answered by the single byte 0x00 on the control peer and
leaves `current_protocol() = p & 0x01`; `connected`, `led_status` and both peer handles keep
their values. -/
theorem set_protocol_handled (w : Sys) (H : Nat) (payload : List Nat)
    (hH : H &&& 0xF0 = 0x70) :
    handle_control_message w (H :: payload) =
      { w with
        srv := { w.srv with protocol_mode := (H &&& 0x0F) &&& 0x01 },
        trace := w.trace ++ [Event.send w.srv.control_client_fd [0x00]] } ∧
    current_protocol (handle_control_message w (H :: payload)).srv = (H &&& 0x0F) &&& 0x01 ∧
    is_connected (handle_control_message w (H :: payload)).srv = is_connected w.srv ∧
    led_state (handle_control_message w (H :: payload)).srv = led_state w.srv ∧
    (handle_control_message w (H :: payload)).srv.control_client_fd =
      w.srv.control_client_fd ∧
    (handle_control_message w (H :: payload)).srv.interrupt_client_fd =
      w.srv.interrupt_client_fd := by
  rw [handle_set_protocol_eq w H payload hH]
  exact ⟨rfl, rfl, rfl, rfl, rfl, rfl⟩

/-- Claim C6, instances: headers 0x71 and 0x70 with a trailing payload byte. -/
theorem set_protocol_handled_witness :
    (0x71 &&& 0xF0 = 0x70) ∧
    current_protocol (handle_control_message connected_fresh [0x71, 0xEE]).srv = 1 ∧
    current_protocol (handle_control_message connected_fresh [0x70, 0xEE]).srv = 0 ∧
    sent (handle_control_message connected_fresh [0x70, 0xEE]).trace = [(5, [0x00])] := by
  refine ⟨by decide, ?_, ?_, ?_⟩
  · exact (set_protocol_handled connected_fresh 0x71 [0xEE] (by decide)).2.1
  · exact (set_protocol_handled connected_fresh 0x70 [0xEE] (by decide)).2.1
  · rw [(set_protocol_handled connected_fresh 0x70 [0xEE] (by decide)).1]
    decide

/-- Claim C7: a control message whose header has type 0x60 (GET_PROTOCOL) is answered by
exactly the two bytes `[0xA3, current_protocol()]` on the control peer, and every field of
the server keeps its value. -/
theorem get_protocol_handled (w : Sys) (H : Nat) (payload : List Nat)
    (hH : H &&& 0xF0 = 0x60) :
    handle_control_message w (H :: payload) =
      { w with
        trace := w.trace ++
          [Event.send w.srv.control_client_fd [0xA3, current_protocol w.srv]] } ∧
    (handle_control_message w (H :: payload)).srv = w.srv := by
  rw [handle_get_protocol_eq w H payload hH]
  exact ⟨rfl, rfl⟩

/-- Claim C7, instance: header 0x60 on the connected server in report mode. -/
theorem get_protocol_handled_witness :
    (0x60 &&& 0xF0 = 0x60) ∧
    handle_control_message connected_fresh [0x60] =
      { connected_fresh with trace := [Event.send 5 [0xA3, 0x01]] } :=
  ⟨by decide, (get_protocol_handled connected_fresh 0x60 [] (by decide)).1⟩

theorem handle_set_report_with_id_eq (w : Sys) (H b : Nat) (rest : List Nat)
    (hH : H &&& 0xF0 = 0x50) (hT : (H &&& 0x0F) &&& 0x03 = 0x02)
    (hF : (H &&& 0x0F) &&& 0x08 ≠ 0) :
    handle_control_message w (H :: 0x01 :: b :: rest) =
      { w with
        srv := { w.srv with led_status := b },
        trace := w.trace ++ [Event.send w.srv.control_client_fd [0x00]] } := by
  simp [handle_control_message, hH, hT, hF, send_control, HID_MSG_TYPE_CONTROL,
    HID_MSG_TYPE_SET_PROTOCOL, HID_MSG_TYPE_GET_PROTOCOL, HID_MSG_TYPE_SET_REPORT,
    HID_HANDSHAKE_SUCCESS, kKeyboardReportId]

theorem handle_set_report_without_id_eq (w : Sys) (H b : Nat) (rest : List Nat)
    (hH : H &&& 0xF0 = 0x50) (hT : (H &&& 0x0F) &&& 0x03 = 0x02)
    (hF : (H &&& 0x0F) &&& 0x08 = 0) :
    handle_control_message w (H :: b :: rest) =
      { w with
        srv := { w.srv with led_status := b },
        trace := w.trace ++ [Event.send w.srv.control_client_fd [0x00]] } := by
  simp [handle_control_message, hH, hT, hF, send_control, HID_MSG_TYPE_CONTROL,
    HID_MSG_TYPE_SET_PROTOCOL, HID_MSG_TYPE_GET_PROTOCOL, HID_MSG_TYPE_SET_REPORT,
    HID_HANDSHAKE_SUCCESS, kKeyboardReportId]

theorem handle_set_protocol_0x71_eq (w : Sys) :
    handle_control_message w [0x71] =
      { w with
        srv := { w.srv with protocol_mode := 1 },
        trace := w.trace ++ [Event.send w.srv.control_client_fd [0x00]] } :=
  handle_set_protocol_eq w 0x71 [] (by decide)

theorem handle_set_protocol_0x70_eq (w : Sys) :
    handle_control_message w [0x70] =
      { w with
        srv := { w.srv with protocol_mode := 0 },
        trace := w.trace ++ [Event.send w.srv.control_client_fd [0x00]] } :=
  handle_set_protocol_eq w 0x70 [] (by decide)

/-- Claim C8 as stated fails: on the connected server the message `[0x71]` is answered by
`[0x00]`, but the following `[0x60]` is not answered by `[0xA3, 0x00]`. -/
theorem s5_reply_not_boot_counterexample :
    connected_fresh.srv.connected = true ∧
    sent (handle_control_message connected_fresh [0x71]).trace = [(5, [0x00])] ∧
    sent (handle_control_message (handle_control_message connected_fresh [0x71]) [0x60]).trace ≠
      [(5, [0x00]), (5, [0xA3, 0x00])] := by
  decide

/-- Claim C8, amended: from a connected state the message `[0x71]` (SET_PROTOCOL with param
bit 0 set, which selects report mode) is answered by `[0x00]` and a following `[0x60]` is
answered by `[0xA3, 0x01]`; the boot round trip is the one started by `[0x70]`, answered by
`[0x00]`, after which `[0x60]` is answered by `[0xA3, 0x00]`. -/
theorem protocol_roundtrip_report (w : Sys) (hconn : w.srv.connected = true) :
    sent (handle_control_message w [0x71]).trace =
      sent w.trace ++ [(w.srv.control_client_fd, [0x00])] ∧
    sent (handle_control_message (handle_control_message w [0x71]) [0x60]).trace =
      sent w.trace ++ [(w.srv.control_client_fd, [0x00]), (w.srv.control_client_fd, [0xA3, 0x01])] ∧
    sent (handle_control_message w [0x70]).trace =
      sent w.trace ++ [(w.srv.control_client_fd, [0x00])] ∧
    sent (handle_control_message (handle_control_message w [0x70]) [0x60]).trace =
      sent w.trace ++ [(w.srv.control_client_fd, [0x00]), (w.srv.control_client_fd, [0xA3, 0x00])] ∧
    (handle_control_message (handle_control_message w [0x71]) [0x60]).srv.connected = true := by
  rw [handle_get_protocol_eq _ 0x60 [] (by decide), handle_get_protocol_eq _ 0x60 [] (by decide),
    handle_set_protocol_0x71_eq, handle_set_protocol_0x70_eq]
  simp [sent_append, sent, hconn]

/-- Claim C8, amended, on the connected server with control peer 5. -/
theorem protocol_roundtrip_report_witness :
    connected_fresh.srv.connected = true ∧
    sent (handle_control_message (handle_control_message connected_fresh [0x71]) [0x60]).trace =
      [(5, [0x00]), (5, [0xA3, 0x01])] ∧
    sent (handle_control_message (handle_control_message connected_fresh [0x70]) [0x60]).trace =
      [(5, [0x00]), (5, [0xA3, 0x00])] :=
  ⟨rfl, (protocol_roundtrip_report connected_fresh rfl).2.1,
    (protocol_roundtrip_report connected_fresh rfl).2.2.2.1⟩

/-- Claim C9: a SET_REPORT message (header type 0x50) with report type 0x02 that designates
the keyboard report, either with the has-report-ID flag set and payload `[0x01, b, ...]` or
with the flag clear and payload `[b, ...]`, is answered by the single byte 0x00 and leaves
`led_state() = b`; no other field changes. -/
theorem set_report_keyboard_led (w : Sys) (H b : Nat) (rest : List Nat)
    (hH : H &&& 0xF0 = 0x50) (hT : (H &&& 0x0F) &&& 0x03 = 0x02) :
    ((H &&& 0x0F) &&& 0x08 ≠ 0 →
      handle_control_message w (H :: 0x01 :: b :: rest) =
        { w with
          srv := { w.srv with led_status := b },
          trace := w.trace ++ [Event.send w.srv.control_client_fd [0x00]] } ∧
      led_state (handle_control_message w (H :: 0x01 :: b :: rest)).srv = b) ∧
    ((H &&& 0x0F) &&& 0x08 = 0 →
      handle_control_message w (H :: b :: rest) =
        { w with
          srv := { w.srv with led_status := b },
          trace := w.trace ++ [Event.send w.srv.control_client_fd [0x00]] } ∧
      led_state (handle_control_message w (H :: b :: rest)).srv = b) := by
  constructor
  · intro hF
    rw [handle_set_report_with_id_eq w H b rest hH hT hF]
    exact ⟨rfl, rfl⟩
  · intro hF
    rw [handle_set_report_without_id_eq w H b rest hH hT hF]
    exact ⟨rfl, rfl⟩

/-- Claim C9, instances: header 0x5A (flag set) with payload `[0x01, 0x07]` and header 0x52
(flag clear) with payload `[0x07]`. -/
theorem set_report_keyboard_led_witness :
    (0x5A &&& 0xF0 = 0x50) ∧ ((0x5A &&& 0x0F) &&& 0x03 = 0x02) ∧ ((0x5A &&& 0x0F) &&& 0x08 ≠ 0) ∧
    (0x52 &&& 0xF0 = 0x50) ∧ ((0x52 &&& 0x0F) &&& 0x03 = 0x02) ∧ ((0x52 &&& 0x0F) &&& 0x08 = 0) ∧
    led_state (handle_control_message connected_fresh [0x5A, 0x01, 0x07]).srv = 0x07 ∧
    led_state (handle_control_message connected_fresh [0x52, 0x07]).srv = 0x07 :=
  ⟨by decide, by decide, by decide, by decide, by decide, by decide,
    ((set_report_keyboard_led connected_fresh 0x5A 0x07 [] (by decide) (by decide)).1
      (by decide)).2,
    ((set_report_keyboard_led connected_fresh 0x52 0x07 [] (by decide) (by decide)).2
      (by decide)).2⟩

/-- Claim C10 as stated fails: on the freshly connected server, after the message
`[0x52, 0x01, 0x02]` the value of `led_state()` is not 0x02. -/
theorem s6_led_not_0x02_counterexample :
    connected_fresh.srv.connected = true ∧ connected_fresh.srv.led_status = 0 ∧
    led_state (handle_control_message connected_fresh [0x52, 0x01, 0x02]).srv ≠ 0x02 := by
  decide

/-- Claim C10, amended: from a freshly connected state (`led_status = 0`), after the message
`[0x52, 0x01, 0x02]` the value of `led_state()` is 0x01, because header 0x52 has the
has-report-ID flag (0x08) clear and the first payload byte is stored; with the flag set, the
message `[0x5A, 0x01, 0x02]` leaves `led_state() = 0x02`. -/
theorem led_capture_first_byte (w : Sys) (hconn : w.srv.connected = true)
    (_hled : w.srv.led_status = 0) :
    led_state (handle_control_message w [0x52, 0x01, 0x02]).srv = 0x01 ∧
    led_state (handle_control_message w [0x5A, 0x01, 0x02]).srv = 0x02 ∧
    (handle_control_message w [0x52, 0x01, 0x02]).srv.connected = true := by
  rw [handle_set_report_without_id_eq w 0x52 0x01 [0x02] (by decide) (by decide) (by decide),
    handle_set_report_with_id_eq w 0x5A 0x02 [] (by decide) (by decide) (by decide)]
  exact ⟨rfl, rfl, hconn⟩

/-- Claim C10, amended, on the freshly connected server. -/
theorem led_capture_first_byte_witness :
    connected_fresh.srv.connected = true ∧ connected_fresh.srv.led_status = 0 ∧
    led_state (handle_control_message connected_fresh [0x52, 0x01, 0x02]).srv = 0x01 ∧
    led_state (handle_control_message connected_fresh [0x5A, 0x01, 0x02]).srv = 0x02 :=
  ⟨rfl, rfl, (led_capture_first_byte connected_fresh rfl rfl).1,
    (led_capture_first_byte connected_fresh rfl rfl).2.1⟩

/-! ## Control channel: HID_CONTROL, handshakes and DATA -/

theorem handle_hid_control_unplug_eq (w : Sys) (H : Nat) (payload : List Nat)
    (hH : H &&& 0xF0 = 0x10) (hP : H &&& 0x0F = 0x05) :
    handle_control_message w (H :: payload) =
      reset_connection_locked (send_control w [0x00]) := by
  simp [handle_control_message, hH, hP, HID_MSG_TYPE_CONTROL, HID_CTRL_VIRTUAL_CABLE_UNPLUG,
    HID_HANDSHAKE_SUCCESS]

theorem handle_hid_control_other_eq (w : Sys) (H : Nat) (payload : List Nat)
    (hH : H &&& 0xF0 = 0x10) (hP : H &&& 0x0F ≠ 0x05) :
    handle_control_message w (H :: payload) =
      { w with trace := w.trace ++ [Event.send w.srv.control_client_fd [0x00]] } := by
  simp [handle_control_message, hH, hP, HID_MSG_TYPE_CONTROL, HID_CTRL_VIRTUAL_CABLE_UNPLUG,
    HID_HANDSHAKE_SUCCESS, send_control]

theorem close_client_fst_neg (fd : Int) : (close_client fd).1 < 0 := by
  unfold close_client
  split_ifs with h
  · simp
  · simpa using h

theorem close_client_fst_eq (fd : Int) (h : -1 ≤ fd) : (close_client fd).1 = -1 := by
  unfold close_client
  split_ifs with h0
  · rfl
  · show fd = -1
    omega

theorem close_client_neg (fd : Int) (h : fd < 0) : close_client fd = (fd, []) := by
  unfold close_client
  rw [if_neg (by omega)]

theorem sent_close_client (fd : Int) : sent (close_client fd).2 = [] := by
  unfold close_client
  split_ifs <;> rfl

theorem sent_reset_connection_locked (w : Sys) :
    sent (reset_connection_locked w).trace = sent w.trace := by
  simp [reset_connection_locked, sent_append, sent_close_client]

/-- Claim C11: a HID_CONTROL message (header type 0x10) with param 0x05, Virtual Cable
Unplug, first sends the single byte 0x00 on the control peer and then resets: afterwards
`is_connected()` is false, both peer handles are released, `current_protocol()` is 1 and
`led_state()` is 0; with any other param the reply is 0x00 and no field changes. -/
theorem hid_control_handled (w : Sys) (H : Nat) (payload : List Nat)
    (hH : H &&& 0xF0 = 0x10) :
    (H &&& 0x0F = 0x05 →
      (handle_control_message w (H :: payload)).trace =
        w.trace ++ [Event.send w.srv.control_client_fd [0x00]]
          ++ (close_client w.srv.control_client_fd).2
          ++ (close_client w.srv.interrupt_client_fd).2 ∧
      sent (handle_control_message w (H :: payload)).trace =
        sent w.trace ++ [(w.srv.control_client_fd, [0x00])] ∧
      is_connected (handle_control_message w (H :: payload)).srv = false ∧
      (handle_control_message w (H :: payload)).srv.control_client_fd < 0 ∧
      (handle_control_message w (H :: payload)).srv.interrupt_client_fd < 0 ∧
      (-1 ≤ w.srv.control_client_fd →
        (handle_control_message w (H :: payload)).srv.control_client_fd = -1) ∧
      (-1 ≤ w.srv.interrupt_client_fd →
        (handle_control_message w (H :: payload)).srv.interrupt_client_fd = -1) ∧
      current_protocol (handle_control_message w (H :: payload)).srv = 1 ∧
      led_state (handle_control_message w (H :: payload)).srv = 0) ∧
    (H &&& 0x0F ≠ 0x05 →
      handle_control_message w (H :: payload) =
        { w with trace := w.trace ++ [Event.send w.srv.control_client_fd [0x00]] }) := by
  constructor
  · intro hP
    rw [handle_hid_control_unplug_eq w H payload hH hP]
    refine ⟨rfl, ?_, rfl, close_client_fst_neg _, close_client_fst_neg _,
      fun h => close_client_fst_eq _ h, fun h => close_client_fst_eq _ h, rfl, rfl⟩
    rw [sent_reset_connection_locked]
    simp [send_control, sent_append, sent]
  · intro hP
    exact handle_hid_control_other_eq w H payload hH hP

/-- Claim C11, instances: header 0x15 on the connected server (peers 5 and 6) and header
0x13, a HID_CONTROL message with another param. -/
theorem hid_control_handled_witness :
    (0x15 &&& 0xF0 = 0x10) ∧ (0x15 &&& 0x0F = 0x05) ∧
    (0x13 &&& 0xF0 = 0x10) ∧ (0x13 &&& 0x0F ≠ 0x05) ∧
    (handle_control_message connected_fresh [0x15]).trace =
      [Event.send 5 [0x00], Event.close 5, Event.close 6] ∧
    is_connected (handle_control_message connected_fresh [0x15]).srv = false ∧
    (handle_control_message connected_fresh [0x15]).srv.control_client_fd = -1 ∧
    (handle_control_message connected_fresh [0x15]).srv.interrupt_client_fd = -1 ∧
    handle_control_message connected_fresh [0x13] =
      { connected_fresh with trace := [Event.send 5 [0x00]] } :=
  ⟨by decide, by decide, by decide, by decide,
    ((hid_control_handled connected_fresh 0x15 [] (by decide)).1 (by decide)).1,
    ((hid_control_handled connected_fresh 0x15 [] (by decide)).1 (by decide)).2.2.1,
    ((hid_control_handled connected_fresh 0x15 [] (by decide)).1 (by decide)).2.2.2.2.2.1
      (by decide),
    ((hid_control_handled connected_fresh 0x15 [] (by decide)).1 (by decide)).2.2.2.2.2.2.1
      (by decide),
    (hid_control_handled connected_fresh 0x13 [] (by decide)).2 (by decide)⟩

theorem handle_set_report_trace (w : Sys) (H : Nat) (payload : List Nat)
    (hH : H &&& 0xF0 = 0x50) :
    (handle_control_message w (H :: payload)).trace =
      w.trace ++ [Event.send w.srv.control_client_fd [0x00]] := by
  have e1 : ¬ ((0x50 : Nat) = 0x10) := by decide
  have e2 : ¬ ((0x50 : Nat) = 0x70) := by decide
  have e3 : ¬ ((0x50 : Nat) = 0x60) := by decide
  simp only [handle_control_message, hH, send_control, HID_MSG_TYPE_CONTROL,
    HID_MSG_TYPE_SET_PROTOCOL, HID_MSG_TYPE_GET_PROTOCOL, HID_MSG_TYPE_SET_REPORT,
    HID_HANDSHAKE_SUCCESS, e1, e2, e3, if_false, if_true]
  split_ifs <;> rfl

theorem handle_get_report_eq (w : Sys) (H : Nat) (payload : List Nat)
    (hH : H &&& 0xF0 = 0x40) :
    handle_control_message w (H :: payload) =
      { w with trace := w.trace ++ [Event.send w.srv.control_client_fd [0x03]] } := by
  simp [handle_control_message, hH, send_control, HID_MSG_TYPE_CONTROL,
    HID_MSG_TYPE_SET_PROTOCOL, HID_MSG_TYPE_GET_PROTOCOL, HID_MSG_TYPE_SET_REPORT,
    HID_MSG_TYPE_GET_REPORT, HID_HANDSHAKE_ERR_UNSUPPORTED]

theorem handle_handshake_eq (w : Sys) (H : Nat) (payload : List Nat)
    (hH : H &&& 0xF0 = 0x00) :
    handle_control_message w (H :: payload) = w := by
  simp [handle_control_message, hH, HID_MSG_TYPE_CONTROL,
    HID_MSG_TYPE_SET_PROTOCOL, HID_MSG_TYPE_GET_PROTOCOL, HID_MSG_TYPE_SET_REPORT,
    HID_MSG_TYPE_GET_REPORT, HID_MSG_TYPE_HANDSHAKE]

theorem handle_default_eq (w : Sys) (H : Nat) (payload : List Nat)
    (h1 : H &&& 0xF0 ≠ 0x10) (h7 : H &&& 0xF0 ≠ 0x70) (h6 : H &&& 0xF0 ≠ 0x60)
    (h5 : H &&& 0xF0 ≠ 0x50) (h4 : H &&& 0xF0 ≠ 0x40) (h0 : H &&& 0xF0 ≠ 0x00) :
    handle_control_message w (H :: payload) =
      { w with trace := w.trace ++ [Event.send w.srv.control_client_fd [0x00]] } := by
  simp [handle_control_message, h1, h7, h6, h5, h4, h0, send_control, HID_MSG_TYPE_CONTROL,
    HID_MSG_TYPE_SET_PROTOCOL, HID_MSG_TYPE_GET_PROTOCOL, HID_MSG_TYPE_SET_REPORT,
    HID_MSG_TYPE_GET_REPORT, HID_MSG_TYPE_HANDSHAKE, HID_HANDSHAKE_SUCCESS]

theorem sent_handle_reply (w : Sys) (H : Nat) (payload : List Nat)
    (h0 : H &&& 0xF0 ≠ 0x00) (h6 : H &&& 0xF0 ≠ 0x60) :
    sent (handle_control_message w (H :: payload)).trace =
      sent w.trace ++
        [(w.srv.control_client_fd, [if H &&& 0xF0 = 0x40 then 0x03 else 0x00])] := by
  by_cases h1 : H &&& 0xF0 = 0x10
  · by_cases hP : H &&& 0x0F = 0x05
    · rw [handle_hid_control_unplug_eq w H payload h1 hP, sent_reset_connection_locked]
      simp [send_control, sent_append, sent, h1]
    · rw [handle_hid_control_other_eq w H payload h1 hP]
      simp [sent_append, sent, h1]
  · by_cases h7 : H &&& 0xF0 = 0x70
    · rw [handle_set_protocol_eq w H payload h7]
      simp [sent_append, sent, h7]
    · by_cases h5 : H &&& 0xF0 = 0x50
      · rw [handle_set_report_trace w H payload h5]
        simp [sent_append, sent, h5]
      · by_cases h4 : H &&& 0xF0 = 0x40
        · rw [handle_get_report_eq w H payload h4]
          simp [sent_append, sent, h4]
        · rw [handle_default_eq w H payload h1 h7 h6 h5 h4 h0]
          simp [sent_append, sent, h4]

/-- Claim C12: every non-empty control message whose header type is neither HANDSHAKE
(0x00) nor GET_PROTOCOL (0x60) is answered by exactly one send on the control peer, of a
single byte: 0x03 when the type is GET_REPORT (0x40) and 0x00 otherwise, unrecognised types
included.  The exclusion of DATA (0xA0) made by the claim is not needed. -/
theorem handshake_reply_byte (w : Sys) (H : Nat) (payload : List Nat)
    (h0 : H &&& 0xF0 ≠ 0x00) (h6 : H &&& 0xF0 ≠ 0x60) :
    sent (handle_control_message w (H :: payload)).trace =
      sent w.trace ++
        [(w.srv.control_client_fd, [if H &&& 0xF0 = 0x40 then 0x03 else 0x00])] ∧
    (sent (handle_control_message w (H :: payload)).trace).length =
      (sent w.trace).length + 1 := by
  rw [sent_handle_reply w H payload h0 h6]
  simp

/-- Claim C12, instances: GET_REPORT (0x4A) is answered by 0x03, the unrecognised types
0x20 and 0xF0, SET_REPORT (0x52) and Virtual Cable Unplug (0x15) by 0x00. -/
theorem handshake_reply_byte_witness :
    (0x4A &&& 0xF0 ≠ 0x00) ∧ (0x4A &&& 0xF0 ≠ 0x60) ∧
    sent (handle_control_message connected_fresh [0x4A, 0x01]).trace = [(5, [0x03])] ∧
    sent (handle_control_message connected_fresh [0x20]).trace = [(5, [0x00])] ∧
    sent (handle_control_message connected_fresh [0xF0, 0x09]).trace = [(5, [0x00])] ∧
    sent (handle_control_message connected_fresh [0x52, 0x01]).trace = [(5, [0x00])] ∧
    sent (handle_control_message connected_fresh [0x15]).trace = [(5, [0x00])] :=
  ⟨by decide, by decide,
    (handshake_reply_byte connected_fresh 0x4A [0x01] (by decide) (by decide)).1,
    (handshake_reply_byte connected_fresh 0x20 [] (by decide) (by decide)).1,
    (handshake_reply_byte connected_fresh 0xF0 [0x09] (by decide) (by decide)).1,
    (handshake_reply_byte connected_fresh 0x52 [0x01] (by decide) (by decide)).1,
    (handshake_reply_byte connected_fresh 0x15 [] (by decide) (by decide)).1⟩

/-- Claim C13 as stated fails: on the connected server a DATA message (header 0xA0) is
answered by the byte 0x00 on the control peer, so the sends after it differ from the sends
before it. -/
theorem data_message_replied_counterexample :
    (0xA0 &&& 0xF0 = 0xA0) ∧
    sent (handle_control_message connected_fresh [0xA0]).trace = [(5, [0x00])] ∧
    sent (handle_control_message connected_fresh [0xA0]).trace ≠ sent connected_fresh.trace := by
  decide

/-- Claim C13, amended: a control message whose header type is DATA (0xA0) falls into the
default branch: for every param and payload the single byte 0x00 is sent on the control peer
and no field of the server changes; only HANDSHAKE (type 0x00) is handled without any reply
and without any change. -/
theorem data_message_default_reply (w : Sys) (H : Nat) (payload : List Nat) :
    (H &&& 0xF0 = 0xA0 →
      handle_control_message w (H :: payload) =
        { w with trace := w.trace ++ [Event.send w.srv.control_client_fd [0x00]] } ∧
      (handle_control_message w (H :: payload)).srv = w.srv ∧
      sent (handle_control_message w (H :: payload)).trace =
        sent w.trace ++ [(w.srv.control_client_fd, [0x00])]) ∧
    (H &&& 0xF0 = 0x00 → handle_control_message w (H :: payload) = w) := by
  constructor
  · intro hA
    rw [handle_default_eq w H payload (by omega) (by omega) (by omega) (by omega) (by omega)
      (by omega)]
    exact ⟨rfl, rfl, by simp [sent_append, sent]⟩
  · intro h0
    exact handle_handshake_eq w H payload h0

/-- Claim C13, amended, instances: headers 0xA1 (DATA) and 0x03 (HANDSHAKE) with a payload
byte on the connected server. -/
theorem data_message_default_reply_witness :
    (0xA1 &&& 0xF0 = 0xA0) ∧ (0x03 &&& 0xF0 = 0x00) ∧
    handle_control_message connected_fresh [0xA1, 0x07] =
      { connected_fresh with trace := [Event.send 5 [0x00]] } ∧
    handle_control_message connected_fresh [0x03, 0x07] = connected_fresh :=
  ⟨by decide, by decide,
    ((data_message_default_reply connected_fresh 0xA1 [0x07]).1 (by decide)).1,
    (data_message_default_reply connected_fresh 0x03 [0x07]).2 (by decide)⟩

/-! ## Reset and the interrupt emitter -/

theorem reset_connection_locked_idem (w : Sys) :
    reset_connection_locked (reset_connection_locked w) = reset_connection_locked w := by
  have hc := close_client_neg _ (close_client_fst_neg w.srv.control_client_fd)
  have hi := close_client_neg _ (close_client_fst_neg w.srv.interrupt_client_fd)
  simp [reset_connection_locked, hc, hi]

/-- Claim C17: `reset_connection_locked` yields the idle state: `connected = false`,
`protocol_mode = 1`, `led_status = 0` and both peer handles released (negative, and equal to
-1 whenever the handle was a descriptor or -1); the listening descriptors and the running
flag keep their values; resetting twice is the same as resetting once; `force_disconnect`
and the exit of the control loop are this reset. -/
theorem reset_is_idle (w : Sys) :
    (reset_connection_locked w).srv.connected = false ∧
    (reset_connection_locked w).srv.protocol_mode = 1 ∧
    (reset_connection_locked w).srv.led_status = 0 ∧
    (reset_connection_locked w).srv.control_client_fd < 0 ∧
    (reset_connection_locked w).srv.interrupt_client_fd < 0 ∧
    (-1 ≤ w.srv.control_client_fd → (reset_connection_locked w).srv.control_client_fd = -1) ∧
    (-1 ≤ w.srv.interrupt_client_fd →
      (reset_connection_locked w).srv.interrupt_client_fd = -1) ∧
    (reset_connection_locked w).srv.control_listen_fd = w.srv.control_listen_fd ∧
    (reset_connection_locked w).srv.interrupt_listen_fd = w.srv.interrupt_listen_fd ∧
    (reset_connection_locked w).srv.running = w.srv.running ∧
    reset_connection_locked (reset_connection_locked w) = reset_connection_locked w ∧
    force_disconnect w = reset_connection_locked w ∧
    (control_loop_iteration w []).2 = reset_connection_locked w :=
  ⟨rfl, rfl, rfl, close_client_fst_neg _, close_client_fst_neg _,
    fun h => close_client_fst_eq _ h, fun h => close_client_fst_eq _ h, rfl, rfl, rfl,
    reset_connection_locked_idem w, rfl, by simp [control_loop_iteration]⟩

/-- Claim C17, instance: resetting the connected server with peers 5 and 6 closes both and
gives the idle fields; a second reset changes nothing, not even the trace. -/
theorem reset_is_idle_witness :
    (-1 ≤ connected_fresh.srv.control_client_fd) ∧
    (-1 ≤ connected_fresh.srv.interrupt_client_fd) ∧
    (reset_connection_locked connected_fresh).srv.control_client_fd = -1 ∧
    (reset_connection_locked connected_fresh).srv.interrupt_client_fd = -1 ∧
    reset_connection_locked connected_fresh =
      { srv := { control_listen_fd := 3, interrupt_listen_fd := 4,
                 control_client_fd := -1, interrupt_client_fd := -1,
                 running := true, connected := false, protocol_mode := 1, led_status := 0 },
        trace := [Event.close 5, Event.close 6], sends := 0 } ∧
    reset_connection_locked (reset_connection_locked connected_fresh) =
      reset_connection_locked connected_fresh :=
  ⟨by decide, by decide,
    (reset_is_idle connected_fresh).2.2.2.2.2.1 (by decide),
    (reset_is_idle connected_fresh).2.2.2.2.2.2.1 (by decide),
    by decide,
    (reset_is_idle connected_fresh).2.2.2.2.2.2.2.2.2.2.1⟩

theorem send_interrupt_packet_fail (env : Nat → Int) (w : Sys) (data : List Nat)
    (hc : w.srv.connected = true) (h : env w.sends < 0) :
    send_interrupt_packet env w data =
      (false, reset_connection_locked
        { w with
          trace := w.trace ++ [Event.send w.srv.interrupt_client_fd data] ++
            [Event.cerr Diag.send_failed],
          sends := w.sends + 1 }) := by
  simp [send_interrupt_packet, ensure_connection_locked, hc, h]

theorem send_interrupt_packet_not_connected (env : Nat → Int) (w : Sys) (data : List Nat)
    (hc : w.srv.connected = false) :
    (send_interrupt_packet env w data).1 = false ∧
    (send_interrupt_packet env w data).2.srv = w.srv ∧
    (send_interrupt_packet env w data).2.sends = w.sends ∧
    sent (send_interrupt_packet env w data).2.trace = sent w.trace := by
  cases hr : w.srv.running <;>
    simp [send_interrupt_packet, ensure_connection_locked, hc, hr, sent_append, sent]

/-- Claim C18: from a connected state, when the transport write fails (`send` returns a
negative value) `send_interrupt_packet` returns false and leaves the reset idle state
(`connected = false`, both peers released, `protocol_mode = 1`, `led_status = 0`); when the
write succeeds it returns true and no field changes; from a state that is not connected it
returns false and no `send` is issued. -/
theorem send_interrupt_packet_outcome (env : Nat → Int) (w : Sys) (data : List Nat) :
    (w.srv.connected = true → env w.sends < 0 →
      (send_interrupt_packet env w data).1 = false ∧
      (send_interrupt_packet env w data).2.srv = (reset_connection_locked w).srv ∧
      (send_interrupt_packet env w data).2.srv.connected = false ∧
      (send_interrupt_packet env w data).2.srv.control_client_fd < 0 ∧
      (send_interrupt_packet env w data).2.srv.interrupt_client_fd < 0 ∧
      (0 ≤ w.srv.control_client_fd →
        (send_interrupt_packet env w data).2.srv.control_client_fd = -1) ∧
      (0 ≤ w.srv.interrupt_client_fd →
        (send_interrupt_packet env w data).2.srv.interrupt_client_fd = -1) ∧
      (send_interrupt_packet env w data).2.srv.protocol_mode = 1 ∧
      (send_interrupt_packet env w data).2.srv.led_status = 0 ∧
      sent (send_interrupt_packet env w data).2.trace =
        sent w.trace ++ [(w.srv.interrupt_client_fd, data)]) ∧
    (w.srv.connected = true → 0 ≤ env w.sends →
      (send_interrupt_packet env w data).1 = true ∧
      (send_interrupt_packet env w data).2.srv = w.srv ∧
      (send_interrupt_packet env w data).2.trace =
        w.trace ++ [Event.send w.srv.interrupt_client_fd data]) ∧
    (w.srv.connected = false →
      (send_interrupt_packet env w data).1 = false ∧
      (send_interrupt_packet env w data).2.srv = w.srv ∧
      sent (send_interrupt_packet env w data).2.trace = sent w.trace) := by
  refine ⟨fun hc h => ?_, fun hc h => ?_, fun hc => ?_⟩
  · rw [send_interrupt_packet_fail env w data hc h]
    refine ⟨rfl, rfl, rfl, close_client_fst_neg _, close_client_fst_neg _,
      fun h0 => close_client_fst_eq _ (le_trans (by decide) h0),
      fun h0 => close_client_fst_eq _ (le_trans (by decide) h0),
      rfl, rfl, ?_⟩
    rw [sent_reset_connection_locked]
    simp [sent_append, sent]
  · rw [send_interrupt_packet_ok env w data hc h]
    exact ⟨rfl, rfl, rfl⟩
  · have h := send_interrupt_packet_not_connected env w data hc
    exact ⟨h.1, h.2.1, h.2.2.2⟩

/-- Claim C18, instances: a failed write on the connected server, a successful one, and a
send attempted on the freshly constructed server. -/
theorem send_interrupt_packet_outcome_witness :
    connected_fresh.srv.connected = true ∧ env_all_ok (-1) connected_fresh.sends < 0 ∧
    0 ≤ env_all_ok 3 connected_fresh.sends ∧ sys_init.srv.connected = false ∧
    (send_interrupt_packet (env_all_ok (-1)) connected_fresh [2, 0, 0]).1 = false ∧
    (send_interrupt_packet (env_all_ok (-1)) connected_fresh [2, 0, 0]).2.srv.connected
      = false ∧
    (send_interrupt_packet (env_all_ok 3) connected_fresh [2, 0, 0]).1 = true ∧
    (send_interrupt_packet (env_all_ok 3) connected_fresh [2, 0, 0]).2.srv
      = connected_fresh.srv ∧
    (send_interrupt_packet (env_all_ok 3) sys_init [2, 0, 0]).1 = false ∧
    sent (send_interrupt_packet (env_all_ok 3) sys_init [2, 0, 0]).2.trace = [] :=
  ⟨rfl, by decide, by decide, rfl,
    ((send_interrupt_packet_outcome (env_all_ok (-1)) connected_fresh [2, 0, 0]).1 rfl
      (by decide)).1,
    ((send_interrupt_packet_outcome (env_all_ok (-1)) connected_fresh [2, 0, 0]).1 rfl
      (by decide)).2.2.1,
    ((send_interrupt_packet_outcome (env_all_ok 3) connected_fresh [2, 0, 0]).2.1 rfl
      (by decide)).1,
    ((send_interrupt_packet_outcome (env_all_ok 3) connected_fresh [2, 0, 0]).2.1 rfl
      (by decide)).2.1,
    ((send_interrupt_packet_outcome (env_all_ok 3) sys_init [2, 0, 0]).2.2 rfl).1,
    ((send_interrupt_packet_outcome (env_all_ok 3) sys_init [2, 0, 0]).2.2 rfl).2.2⟩

/-! ## Connection state machine -/

theorem handle_set_report_peers (w : Sys) (H : Nat) (payload : List Nat)
    (hH : H &&& 0xF0 = 0x50) :
    (handle_control_message w (H :: payload)).srv.connected = w.srv.connected ∧
    (handle_control_message w (H :: payload)).srv.control_client_fd =
      w.srv.control_client_fd ∧
    (handle_control_message w (H :: payload)).srv.interrupt_client_fd =
      w.srv.interrupt_client_fd := by
  have e1 : ¬ ((0x50 : Nat) = 0x10) := by decide
  have e2 : ¬ ((0x50 : Nat) = 0x70) := by decide
  have e3 : ¬ ((0x50 : Nat) = 0x60) := by decide
  simp only [handle_control_message, hH, send_control, HID_MSG_TYPE_CONTROL,
    HID_MSG_TYPE_SET_PROTOCOL, HID_MSG_TYPE_GET_PROTOCOL, HID_MSG_TYPE_SET_REPORT,
    HID_HANDSHAKE_SUCCESS, e1, e2, e3, if_false, if_true]
  split_ifs <;> exact ⟨rfl, rfl, rfl⟩

theorem handle_control_message_peers (w : Sys) (data : List Nat) :
    ((handle_control_message w data).srv.connected = w.srv.connected ∧
      (handle_control_message w data).srv.control_client_fd = w.srv.control_client_fd ∧
      (handle_control_message w data).srv.interrupt_client_fd = w.srv.interrupt_client_fd) ∨
    (handle_control_message w data).srv = (reset_connection_locked w).srv := by
  cases data with
  | nil => exact Or.inl ⟨rfl, rfl, rfl⟩
  | cons H payload =>
    by_cases h1 : H &&& 0xF0 = 0x10
    · by_cases hP : H &&& 0x0F = 0x05
      · right
        rw [handle_hid_control_unplug_eq w H payload h1 hP]
        rfl
      · left
        rw [handle_hid_control_other_eq w H payload h1 hP]
        exact ⟨rfl, rfl, rfl⟩
    · left
      by_cases h7 : H &&& 0xF0 = 0x70
      · rw [handle_set_protocol_eq w H payload h7]
        exact ⟨rfl, rfl, rfl⟩
      · by_cases h6 : H &&& 0xF0 = 0x60
        · rw [handle_get_protocol_eq w H payload h6]
          exact ⟨rfl, rfl, rfl⟩
        · by_cases h5 : H &&& 0xF0 = 0x50
          · exact handle_set_report_peers w H payload h5
          · by_cases h4 : H &&& 0xF0 = 0x40
            · rw [handle_get_report_eq w H payload h4]
              exact ⟨rfl, rfl, rfl⟩
            · by_cases h0 : H &&& 0xF0 = 0x00
              · rw [handle_handshake_eq w H payload h0]
                exact ⟨rfl, rfl, rfl⟩
              · rw [handle_default_eq w H payload h1 h7 h6 h5 h4 h0]
                exact ⟨rfl, rfl, rfl⟩

theorem reset_peers (w : Sys)
    (h : -1 ≤ w.srv.control_client_fd ∧ -1 ≤ w.srv.interrupt_client_fd) :
    (reset_connection_locked w).srv.connected = false ∧
    (reset_connection_locked w).srv.control_client_fd = -1 ∧
    (reset_connection_locked w).srv.interrupt_client_fd = -1 :=
  ⟨rfl, close_client_fst_eq _ h.1, close_client_fst_eq _ h.2⟩

theorem send_interrupt_packet_peers (env : Nat → Int) (w : Sys) (data : List Nat) :
    (send_interrupt_packet env w data).2.srv = w.srv ∨
    (send_interrupt_packet env w data).2.srv = (reset_connection_locked w).srv := by
  cases hc : w.srv.connected with
  | false => exact Or.inl (send_interrupt_packet_not_connected env w data hc).2.1
  | true =>
    by_cases h : env w.sends < 0
    · right
      rw [send_interrupt_packet_fail env w data hc h]
      rfl
    · left
      rw [send_interrupt_packet_ok env w data hc (not_lt.mp h)]

theorem stop_eq (w : Sys) :
    stop w = w ∨
    ∃ v : Sys, v.srv.control_client_fd = w.srv.control_client_fd ∧
      v.srv.interrupt_client_fd = w.srv.interrupt_client_fd ∧
      stop w = reset_connection_locked v := by
  unfold stop
  by_cases hs : (!w.srv.running && decide (w.srv.control_listen_fd < 0)
      && decide (w.srv.interrupt_listen_fd < 0)) = true
  · left
    rw [if_pos hs]
  · right
    rw [if_neg hs]
    dsimp only
    refine ⟨_, ?_, ?_, rfl⟩ <;> rfl

theorem step_peers (env : Nat → Int) (w : Sys) (a : Action)
    (h : (w.srv.connected = true →
        0 ≤ w.srv.control_client_fd ∧ 0 ≤ w.srv.interrupt_client_fd) ∧
      -1 ≤ w.srv.control_client_fd ∧ -1 ≤ w.srv.interrupt_client_fd) :
    ((step env w a).srv.connected = true →
        0 ≤ (step env w a).srv.control_client_fd ∧
        0 ≤ (step env w a).srv.interrupt_client_fd) ∧
      -1 ≤ (step env w a).srv.control_client_fd ∧
      -1 ≤ (step env w a).srv.interrupt_client_fd := by
  have hr := reset_peers w h.2
  have hreset : ∀ s : HidServer, s = (reset_connection_locked w).srv →
      (s.connected = true → 0 ≤ s.control_client_fd ∧ 0 ≤ s.interrupt_client_fd) ∧
      -1 ≤ s.control_client_fd ∧ -1 ≤ s.interrupt_client_fd := by
    intro s hs
    subst hs
    rw [hr.1, hr.2.1, hr.2.2]
    simp
  cases a with
  | start c i =>
    have e : (start w c i).srv.connected = w.srv.connected ∧
        (start w c i).srv.control_client_fd = w.srv.control_client_fd ∧
        (start w c i).srv.interrupt_client_fd = w.srv.interrupt_client_fd := by
      unfold start
      split_ifs
      · exact ⟨rfl, rfl, rfl⟩
      · cases c <;> cases i <;> exact ⟨rfl, rfl, rfl⟩
    simp only [step]
    rw [e.1, e.2.1, e.2.2]
    exact h
  | accept_control client =>
    simp only [step, accept_control]
    split_ifs with hc
    · refine ⟨fun hcon => ⟨hc, (h.1 hcon).2⟩, le_trans (by decide) hc, h.2.2⟩
    · exact h
  | accept_interrupt client =>
    simp only [step, accept_interrupt]
    split_ifs with hc h2
    · exact ⟨fun _ => ⟨h2, hc⟩, h.2.1, le_trans (by decide) hc⟩
    · exact ⟨fun hcon => ⟨(h.1 hcon).1, hc⟩, h.2.1, le_trans (by decide) hc⟩
    · exact h
  | control_message data =>
    simp only [step]
    rcases handle_control_message_peers w data with e | e
    · rw [e.1, e.2.1, e.2.2]
      exact h
    · exact hreset _ e
  | control_recv received =>
    simp only [step, control_loop_iteration]
    split_ifs
    · exact hreset _ rfl
    · exact hreset _ rfl
    · exact hreset _ rfl
    · rcases handle_control_message_peers w (received.take 128) with e | e
      · rw [e.1, e.2.1, e.2.2]
        exact h
      · exact hreset _ e
  | control_closed => exact hreset _ rfl
  | send_packet data =>
    simp only [step]
    rcases send_interrupt_packet_peers env w data with e | e
    · rw [e]
      exact h
    · exact hreset _ e
  | force_disconnect => exact hreset _ rfl
  | stop =>
    simp only [step]
    rcases stop_eq w with e | ⟨v, hc, hi, e⟩
    · rw [e]
      exact h
    · rw [e]
      have hv := reset_peers v (by rw [hc, hi]; exact h.2)
      rw [hv.1, hv.2.1, hv.2.2]
      simp

theorem run_append (env : Nat → Int) (w : Sys) (acts : List Action) (a : Action) :
    run env w (acts ++ [a]) = step env (run env w acts) a := by
  simp [run, List.foldl_append]

theorem run_peers (env : Nat → Int) (acts : List Action) :
    ((run env sys_init acts).srv.connected = true →
        0 ≤ (run env sys_init acts).srv.control_client_fd ∧
        0 ≤ (run env sys_init acts).srv.interrupt_client_fd) ∧
      -1 ≤ (run env sys_init acts).srv.control_client_fd ∧
      -1 ≤ (run env sys_init acts).srv.interrupt_client_fd := by
  induction acts using List.reverseRecOn with
  | nil =>
    show (sys_init.srv.connected = true →
        0 ≤ sys_init.srv.control_client_fd ∧ 0 ≤ sys_init.srv.interrupt_client_fd) ∧
      -1 ≤ sys_init.srv.control_client_fd ∧ -1 ≤ sys_init.srv.interrupt_client_fd
    decide
  | append_singleton acts a ih =>
    rw [run_append]
    exact step_peers env _ a ih

/-- Claim C14: in every state reached from the constructed server by start, accepts, control
messages, control-loop passes, peer closes, sends, `force_disconnect` and `stop`,
`connected = true` implies that both peer handles are attached (non-negative); and each
event that loses a peer (a control `recv` returning no data, the control loop exit, a
Virtual Cable Unplug message, a failed interrupt write) leaves `connected = false` and both
peer handles equal to -1. -/
theorem connected_needs_both_peers (env : Nat → Int) (acts : List Action) (w : Sys)
    (hw : w = run env sys_init acts) :
    (w.srv.connected = true →
      0 ≤ w.srv.control_client_fd ∧ 0 ≤ w.srv.interrupt_client_fd) ∧
    (∀ a : Action,
      (a = Action.control_recv [] ∨ a = Action.control_closed ∨
        (∃ H payload, H &&& 0xF0 = 0x10 ∧ H &&& 0x0F = 0x05 ∧
          a = Action.control_message (H :: payload)) ∨
        (∃ data, a = Action.send_packet data ∧ w.srv.connected = true ∧ env w.sends < 0)) →
      (step env w a).srv.connected = false ∧
      (step env w a).srv.control_client_fd = -1 ∧
      (step env w a).srv.interrupt_client_fd = -1) := by
  subst hw
  have hinv := run_peers env acts
  refine ⟨hinv.1, ?_⟩
  have hr := reset_peers (run env sys_init acts) hinv.2
  rintro a (rfl | rfl | ⟨H, payload, hH, hP, rfl⟩ | ⟨data, rfl, hc, hf⟩)
  · have e : step env (run env sys_init acts) (Action.control_recv []) =
        reset_connection_locked (run env sys_init acts) := by
      simp [step, control_loop_iteration]
    rw [e]
    exact hr
  · exact hr
  · have e : (step env (run env sys_init acts) (Action.control_message (H :: payload))).srv =
        (reset_connection_locked (run env sys_init acts)).srv := by
      simp only [step]
      rw [handle_hid_control_unplug_eq _ H payload hH hP]
      rfl
    rw [e]
    exact hr
  · have e : (step env (run env sys_init acts) (Action.send_packet data)).srv =
        (reset_connection_locked (run env sys_init acts)).srv := by
      simp only [step]
      rw [send_interrupt_packet_fail env _ data hc hf]
      rfl
    rw [e]
    exact hr

/-- Claim C14, instance: after start, a control accept (5) and an interrupt accept (6) the
server is connected with both peers attached; a failed write, an unplug message or a closed
control peer then leave it idle with both handles -1. -/
theorem connected_needs_both_peers_witness :
    (run (env_all_ok (-1)) sys_init
      [Action.start (some 3) (some 4), Action.accept_control 5,
       Action.accept_interrupt 6]).srv.connected = true ∧
    (0 ≤ (run (env_all_ok (-1)) sys_init
      [Action.start (some 3) (some 4), Action.accept_control 5,
       Action.accept_interrupt 6]).srv.control_client_fd ∧
     0 ≤ (run (env_all_ok (-1)) sys_init
      [Action.start (some 3) (some 4), Action.accept_control 5,
       Action.accept_interrupt 6]).srv.interrupt_client_fd) ∧
    (step (env_all_ok (-1)) (run (env_all_ok (-1)) sys_init
      [Action.start (some 3) (some 4), Action.accept_control 5,
       Action.accept_interrupt 6]) (Action.send_packet [2, 0, 0, 0, 0])).srv.connected
      = false ∧
    (step (env_all_ok (-1)) (run (env_all_ok (-1)) sys_init
      [Action.start (some 3) (some 4), Action.accept_control 5,
       Action.accept_interrupt 6]) (Action.control_message [0x15])).srv.control_client_fd
      = -1 ∧
    (step (env_all_ok (-1)) (run (env_all_ok (-1)) sys_init
      [Action.start (some 3) (some 4), Action.accept_control 5,
       Action.accept_interrupt 6]) (Action.control_recv [])).srv.interrupt_client_fd
      = -1 :=
  ⟨by decide,
    (connected_needs_both_peers (env_all_ok (-1))
      [Action.start (some 3) (some 4), Action.accept_control 5, Action.accept_interrupt 6]
      _ rfl).1 (by decide),
    ((connected_needs_both_peers (env_all_ok (-1))
      [Action.start (some 3) (some 4), Action.accept_control 5, Action.accept_interrupt 6]
      _ rfl).2 (Action.send_packet [2, 0, 0, 0, 0])
      (Or.inr (Or.inr (Or.inr ⟨_, rfl, by decide, by decide⟩)))).1,
    ((connected_needs_both_peers (env_all_ok (-1))
      [Action.start (some 3) (some 4), Action.accept_control 5, Action.accept_interrupt 6]
      _ rfl).2 (Action.control_message [0x15])
      (Or.inr (Or.inr (Or.inl ⟨0x15, [], by decide, by decide, rfl⟩)))).2.1,
    ((connected_needs_both_peers (env_all_ok (-1))
      [Action.start (some 3) (some 4), Action.accept_control 5, Action.accept_interrupt 6]
      _ rfl).2 (Action.control_recv []) (Or.inl rfl)).2.2⟩

theorem start_peers (w : Sys) (c i : Option Int) :
    (start w c i).srv.connected = w.srv.connected := by
  unfold start
  split_ifs
  · rfl
  · cases c <;> cases i <;> rfl

theorem step_connected_origin (env : Nat → Int) (w : Sys) (a : Action)
    (hold : w.srv.connected = false) (hnew : (step env w a).srv.connected = true) :
    ∃ client, a = Action.accept_interrupt client ∧ 0 ≤ client ∧
      0 ≤ w.srv.control_client_fd := by
  have hfalse : ∀ s : HidServer, s.connected = false → s.connected = true → False := by
    intro s h1 h2
    rw [h1] at h2
    exact Bool.noConfusion h2
  cases a with
  | start c i =>
    simp only [step] at hnew
    rw [start_peers] at hnew
    exact (hfalse _ hold hnew).elim
  | accept_control client =>
    simp only [step, accept_control] at hnew
    split_ifs at hnew <;> exact (hfalse _ hold hnew).elim
  | accept_interrupt client =>
    simp only [step, accept_interrupt] at hnew
    split_ifs at hnew with hc h2
    · exact ⟨client, rfl, hc, h2⟩
    · exact (hfalse _ hold hnew).elim
    · exact (hfalse _ hold hnew).elim
  | control_message data =>
    simp only [step] at hnew
    rcases handle_control_message_peers w data with e | e
    · rw [e.1] at hnew
      exact (hfalse _ hold hnew).elim
    · rw [e] at hnew
      exact (hfalse _ rfl hnew).elim
  | control_recv received =>
    simp only [step, control_loop_iteration] at hnew
    split_ifs at hnew
    · exact (hfalse _ rfl hnew).elim
    · exact (hfalse _ rfl hnew).elim
    · exact (hfalse _ rfl hnew).elim
    · rcases handle_control_message_peers w (received.take 128) with e | e
      · rw [e.1] at hnew
        exact (hfalse _ hold hnew).elim
      · rw [e] at hnew
        exact (hfalse _ rfl hnew).elim
  | control_closed => exact (hfalse _ rfl hnew).elim
  | send_packet data =>
    simp only [step] at hnew
    rcases send_interrupt_packet_peers env w data with e | e
    · rw [e] at hnew
      exact (hfalse _ hold hnew).elim
    · rw [e] at hnew
      exact (hfalse _ rfl hnew).elim
  | force_disconnect => exact (hfalse _ rfl hnew).elim
  | stop =>
    simp only [step] at hnew
    rcases stop_eq w with e | ⟨v, _, _, e⟩
    · rw [e] at hnew
      exact (hfalse _ hold hnew).elim
    · rw [e] at hnew
      exact (hfalse _ rfl hnew).elim

theorem accept_interrupt_attached (w : Sys) (client : Int) (hclient : 0 ≤ client)
    (hctl : 0 ≤ w.srv.control_client_fd) :
    (accept_interrupt w client).srv =
      { w.srv with interrupt_client_fd := client, connected := true, protocol_mode := 1 } := by
  simp [accept_interrupt, hclient, hctl]

/-- Claim C15 as stated fails: after start, a control accept (5) and the SET_REPORT output
message `[0x52, 0x07]` handled while only the control peer is attached, the interrupt accept
(6) enters Connected with `led_status = 0x07`, not 0. -/
theorem connect_led_not_reset_counterexample :
    (run (env_all_ok 1) sys_init
      [Action.start (some 3) (some 4), Action.accept_control 5,
       Action.control_recv [0x52, 0x07]]).srv.connected = false ∧
    (run (env_all_ok 1) sys_init
      [Action.start (some 3) (some 4), Action.accept_control 5,
       Action.control_recv [0x52, 0x07], Action.accept_interrupt 6]).srv.connected = true ∧
    (run (env_all_ok 1) sys_init
      [Action.start (some 3) (some 4), Action.accept_control 5,
       Action.control_recv [0x52, 0x07], Action.accept_interrupt 6]).srv.protocol_mode = 1 ∧
    (run (env_all_ok 1) sys_init
      [Action.start (some 3) (some 4), Action.accept_control 5,
       Action.control_recv [0x52, 0x07], Action.accept_interrupt 6]).srv.led_status ≠ 0 := by
  decide

/-- Claim C15, amended: every transition into Connected is an interrupt accept that finds a
control peer attached; it leaves `protocol_mode = 1` and does not touch `led_status`, which
keeps the value it had before the accept (0 after construction or a reset, otherwise the
byte stored by the last SET_REPORT keyboard output report). -/
theorem connect_sets_protocol_keeps_led (env : Nat → Int) (w : Sys) :
    (∀ client : Int, 0 ≤ client → 0 ≤ w.srv.control_client_fd →
      (accept_interrupt w client).srv.connected = true ∧
      (accept_interrupt w client).srv.protocol_mode = 1 ∧
      (accept_interrupt w client).srv.led_status = w.srv.led_status) ∧
    (∀ a : Action, w.srv.connected = false → (step env w a).srv.connected = true →
      (∃ client, a = Action.accept_interrupt client ∧ 0 ≤ client ∧
        0 ≤ w.srv.control_client_fd) ∧
      (step env w a).srv.protocol_mode = 1 ∧
      (step env w a).srv.led_status = w.srv.led_status) := by
  constructor
  · intro client hclient hctl
    rw [accept_interrupt_attached w client hclient hctl]
    exact ⟨rfl, rfl, rfl⟩
  · intro a hold hnew
    obtain ⟨client, rfl, hclient, hctl⟩ := step_connected_origin env w a hold hnew
    refine ⟨⟨client, rfl, hclient, hctl⟩, ?_⟩
    simp only [step]
    rw [accept_interrupt_attached w client hclient hctl]
    exact ⟨rfl, rfl⟩

/-- Claim C15, amended, instances: with only the control peer attached, a SET_PROTOCOL boot
message (0x70) followed by the interrupt accept enters Connected with `protocol_mode = 1`;
a SET_REPORT message `[0x52, 0x07]` followed by the interrupt accept enters Connected with
`led_status = 0x07`. -/
theorem connect_sets_protocol_keeps_led_witness :
    (run (env_all_ok 1) sys_init
      [Action.start (some 3) (some 4), Action.accept_control 5,
       Action.control_recv [0x70]]).srv.protocol_mode = 0 ∧
    (accept_interrupt (run (env_all_ok 1) sys_init
      [Action.start (some 3) (some 4), Action.accept_control 5,
       Action.control_recv [0x70]]) 6).srv.protocol_mode = 1 ∧
    (accept_interrupt (run (env_all_ok 1) sys_init
      [Action.start (some 3) (some 4), Action.accept_control 5,
       Action.control_recv [0x52, 0x07]]) 6).srv.led_status = 0x07 ∧
    (step (env_all_ok 1) (run (env_all_ok 1) sys_init
      [Action.start (some 3) (some 4), Action.accept_control 5,
       Action.control_recv [0x52, 0x07]]) (Action.accept_interrupt 6)).srv.protocol_mode
      = 1 :=
  ⟨by decide,
    ((connect_sets_protocol_keeps_led (env_all_ok 1) _).1 6 (by decide) (by decide)).2.1,
    ((connect_sets_protocol_keeps_led (env_all_ok 1) (run (env_all_ok 1) sys_init
      [Action.start (some 3) (some 4), Action.accept_control 5,
       Action.control_recv [0x52, 0x07]])).1 6 (by decide) (by decide)).2.2,
    ((connect_sets_protocol_keeps_led (env_all_ok 1) _).2 (Action.accept_interrupt 6)
      (by decide) (by decide)).2.1⟩

/-- Claim C16 as stated fails: after start, an interrupt accept (6) followed by a control
accept (5), both peers are attached but `is_connected()` is false. -/
theorem interrupt_first_not_connected_counterexample :
    0 ≤ (run (env_all_ok 1) sys_init
      [Action.start (some 3) (some 4), Action.accept_interrupt 6,
       Action.accept_control 5]).srv.control_client_fd ∧
    0 ≤ (run (env_all_ok 1) sys_init
      [Action.start (some 3) (some 4), Action.accept_interrupt 6,
       Action.accept_control 5]).srv.interrupt_client_fd ∧
    is_connected (run (env_all_ok 1) sys_init
      [Action.start (some 3) (some 4), Action.accept_interrupt 6,
       Action.accept_control 5]).srv = false := by
  decide

/-- Claim C16, amended: starting from Idle, a control accept followed by an interrupt accept
leaves both peers attached and `is_connected()` true; an interrupt accept followed by a
control accept leaves both peers attached but `is_connected()` false, because `connected` is
set only by an interrupt accept that finds a control peer attached; in every reachable state
Connected implies that both peers are attached, and the converse does not hold. -/
theorem attach_order (w : Sys) (a b : Int) (ha : 0 ≤ a) (hb : 0 ≤ b)
    (hidle : w.srv.connected = false) (hc : w.srv.control_client_fd < 0)
    (_hi : w.srv.interrupt_client_fd < 0) :
    ((accept_interrupt (accept_control w a) b).srv.control_client_fd = a ∧
      (accept_interrupt (accept_control w a) b).srv.interrupt_client_fd = b ∧
      is_connected (accept_interrupt (accept_control w a) b).srv = true) ∧
    ((accept_control (accept_interrupt w b) a).srv.control_client_fd = a ∧
      (accept_control (accept_interrupt w b) a).srv.interrupt_client_fd = b ∧
      is_connected (accept_control (accept_interrupt w b) a).srv = false) ∧
    (∀ (env : Nat → Int) (acts : List Action),
      is_connected (run env sys_init acts).srv = true →
      0 ≤ (run env sys_init acts).srv.control_client_fd ∧
      0 ≤ (run env sys_init acts).srv.interrupt_client_fd) := by
  refine ⟨?_, ?_, fun env acts => (run_peers env acts).1⟩
  · simp [accept_interrupt, accept_control, ha, hb, is_connected]
  · have hc2 : ¬ (0 ≤ w.srv.control_client_fd) := not_le.mpr hc
    simp [accept_interrupt, accept_control, ha, hb, hc2, is_connected, hidle]

/-- Claim C16, amended, on the freshly constructed server with peers 5 and 6. -/
theorem attach_order_witness :
    sys_init.srv.connected = false ∧ sys_init.srv.control_client_fd < 0 ∧
    sys_init.srv.interrupt_client_fd < 0 ∧
    is_connected (accept_interrupt (accept_control sys_init 5) 6).srv = true ∧
    is_connected (accept_control (accept_interrupt sys_init 6) 5).srv = false ∧
    (accept_control (accept_interrupt sys_init 6) 5).srv.control_client_fd = 5 ∧
    (accept_control (accept_interrupt sys_init 6) 5).srv.interrupt_client_fd = 6 :=
  ⟨rfl, by decide, by decide,
    (attach_order sys_init 5 6 (by decide) (by decide) rfl (by decide) (by decide)).1.2.2,
    (attach_order sys_init 5 6 (by decide) (by decide) rfl (by decide) (by decide)).2.1.2.2,
    (attach_order sys_init 5 6 (by decide) (by decide) rfl (by decide) (by decide)).2.1.1,
    (attach_order sys_init 5 6 (by decide) (by decide) rfl (by decide) (by decide)).2.1.2.1⟩

/-! ## Keyboard input: transport failures -/

theorem sent_prefix_send_interrupt_packet (env : Nat → Int) (w : Sys) (data : List Nat) :
    sent w.trace <+: sent (send_interrupt_packet env w data).2.trace := by
  cases hc : w.srv.connected with
  | false =>
    rw [(send_interrupt_packet_not_connected env w data hc).2.2.2]
  | true =>
    rw [sent_send_interrupt_packet env w data hc]
    exact List.prefix_append _ _

theorem sent_prefix_send_keyboard_report (env : Nat → Int) (w : Sys) (r : KeyboardReport) :
    sent w.trace <+: sent (send_keyboard_report env w r).2.trace := by
  rw [send_keyboard_report_eq]
  exact sent_prefix_send_interrupt_packet env w _

theorem sent_prefix_type_text_body (env : Nat → Int) (w : Sys) (r1 r2 : KeyboardReport)
    (rest : List Int)
    (ih : ∀ v : Sys, sent v.trace <+: sent (type_text env v rest).2.trace) :
    sent w.trace <+:
      sent (if (!(send_keyboard_report env w r1).1) = true then
          (false, (send_keyboard_report env w r1).2)
        else if (!(send_keyboard_report env (send_keyboard_report env w r1).2 r2).1) = true then
          (false, (send_keyboard_report env (send_keyboard_report env w r1).2 r2).2)
        else
          type_text env
            { (send_keyboard_report env (send_keyboard_report env w r1).2 r2).2 with
              trace := (send_keyboard_report env (send_keyboard_report env w r1).2 r2).2.trace
                ++ [Event.sleep_ms 8] } rest).2.trace := by
  have p1 := sent_prefix_send_keyboard_report env w r1
  have p2 := sent_prefix_send_keyboard_report env (send_keyboard_report env w r1).2 r2
  cases h1 : (send_keyboard_report env w r1).1
  · simpa using p1
  · cases h2 : (send_keyboard_report env (send_keyboard_report env w r1).2 r2).1
    · simpa [h1] using p1.trans p2
    · simp only [h1, h2, Bool.not_true, Bool.false_eq_true, if_false]
      refine (p1.trans p2).trans (List.IsPrefix.trans ?_ (ih _))
      simp [sent_append, sent]

theorem sent_prefix_type_text (env : Nat → Int) (text : List Int) :
    ∀ w : Sys, sent w.trace <+: sent (type_text env w text).2.trace := by
  induction text with
  | nil => intro w; exact List.prefix_refl _
  | cons ch rest ih =>
    intro w
    rw [type_text]
    cases hk : map_character ch with
    | none =>
      simp only []
      refine List.IsPrefix.trans ?_ (ih _)
      simp [sent_append, sent]
    | some k =>
      simp only []
      exact sent_prefix_type_text_body env w _ _ rest ih

theorem type_text_unmapped (env : Nat → Int) (text : List Int)
    (h : ∀ c ∈ text, map_character c = none) :
    ∀ w : Sys, (type_text env w text).1 = true := by
  induction text with
  | nil => intro w; rfl
  | cons ch rest ih =>
    intro w
    rw [type_text]
    simp only [h ch (List.mem_cons_self _ _)]
    exact ih (fun c hc => h c (List.mem_cons_of_mem _ hc)) _

theorem type_text_cons_none (env : Nat → Int) (w : Sys) (ch : Int) (rest : List Int)
    (hk : map_character ch = none) :
    type_text env w (ch :: rest) =
      type_text env
        { w with trace := w.trace ++ [Event.cerr (Diag.unsupported_character ch)] } rest := by
  rw [type_text]
  simp only [hk]

theorem type_text_cons_some (w : Sys) (ch : Int) (rest : List Int) (k : KeyInfo)
    (hk : map_character ch = some k) (hconn : w.srv.connected = true) :
    ∃ F1 F2 : List Nat, ∀ env : Nat → Int,
      (env w.sends < 0 →
        type_text env w (ch :: rest) =
          (false, reset_connection_locked
            { w with
              trace := w.trace ++ [Event.send w.srv.interrupt_client_fd F1] ++
                [Event.cerr Diag.send_failed],
              sends := w.sends + 1 })) ∧
      (0 ≤ env w.sends → env (w.sends + 1) < 0 →
        type_text env w (ch :: rest) =
          (false, reset_connection_locked
            { w with
              trace := w.trace ++ [Event.send w.srv.interrupt_client_fd F1] ++
                [Event.send w.srv.interrupt_client_fd F2] ++ [Event.cerr Diag.send_failed],
              sends := w.sends + 1 + 1 })) ∧
      (0 ≤ env w.sends → 0 ≤ env (w.sends + 1) →
        type_text env w (ch :: rest) =
          type_text env
            { w with
              trace := w.trace ++ [Event.send w.srv.interrupt_client_fd F1] ++
                [Event.send w.srv.interrupt_client_fd F2] ++ [Event.sleep_ms 8],
              sends := w.sends + 1 + 1 } rest) := by
  refine ⟨(if w.srv.protocol_mode ≠ 0 then
        [0x01, if k.requires_shift then 0x02 else 0x00, 0x00, k.keycode, 0, 0, 0, 0, 0]
      else [if k.requires_shift then 0x02 else 0x00, 0x00, k.keycode, 0, 0, 0, 0, 0]),
    (if w.srv.protocol_mode ≠ 0 then [0x01, 0, 0, 0, 0, 0, 0, 0, 0]
      else [0, 0, 0, 0, 0, 0, 0, 0]),
    fun env => ⟨fun h1 => ?_, fun h1 h2 => ?_, fun h1 h2 => ?_⟩⟩
  · rw [type_text]
    simp only [hk, send_keyboard_report_eq]
    rw [send_interrupt_packet_fail env w _ hconn h1]
    rfl
  · rw [type_text]
    simp only [hk, send_keyboard_report_eq]
    rw [send_interrupt_packet_ok env w _ hconn h1]
    simp only [Bool.not_true, Bool.false_eq_true, if_false]
    rw [send_interrupt_packet_fail]
    · rfl
    · exact hconn
    · exact h2
  · rw [type_text]
    simp only [hk, send_keyboard_report_eq]
    rw [send_interrupt_packet_ok env w _ hconn h1]
    simp only [Bool.not_true, Bool.false_eq_true, if_false]
    rw [send_interrupt_packet_ok]
    · rfl
    · exact hconn
    · exact h2

theorem reset_connection_locked_sends (w : Sys) :
    (reset_connection_locked w).sends = w.sends := rfl

theorem type_text_connected (env : Nat → Int) (text : List Int) :
    ∀ w : Sys, w.srv.connected = true →
      sent (type_text env w text).2.trace <+:
        sent (type_text (env_all_ok 0) w text).2.trace ∧
      w.sends ≤ (type_text env w text).2.sends ∧
      ((type_text env w text).1 = true →
        ∀ i, w.sends ≤ i → i < (type_text env w text).2.sends → 0 ≤ env i) ∧
      ((type_text env w text).1 = false →
        ∃ n, (type_text env w text).2.sends = n + 1 ∧ w.sends ≤ n ∧ env n < 0 ∧
          ∀ i, w.sends ≤ i → i < n → 0 ≤ env i) ∧
      (sent (type_text env w text).2.trace).length =
        (sent w.trace).length + ((type_text env w text).2.sends - w.sends) := by
  induction text with
  | nil =>
    intro w _
    refine ⟨List.prefix_refl _, le_refl _, ?_, ?_, ?_⟩
    · intro _ i h1 h2
      exact absurd h2 (not_lt.mpr h1)
    · intro h
      exact Bool.noConfusion h
    · simp [type_text]
  | cons ch rest ih =>
    intro w hconn
    cases hk : map_character ch with
    | none =>
      rw [type_text_cons_none env w ch rest hk, type_text_cons_none _ w ch rest hk]
      have h := ih { w with trace := w.trace ++ [Event.cerr (Diag.unsupported_character ch)] }
        hconn
      have e : sent (w.trace ++ [Event.cerr (Diag.unsupported_character ch)]) = sent w.trace := by
        simp [sent_append, sent]
      simp only [e] at h
      exact h
    | some k =>
      obtain ⟨F1, F2, hF⟩ := type_text_cons_some w ch rest k hk hconn
      have hok := (hF (env_all_ok 0)).2.2 (le_refl _) (le_refl _)
      have hpre := sent_prefix_type_text (env_all_ok 0) rest
        { w with
          trace := w.trace ++ [Event.send w.srv.interrupt_client_fd F1] ++
            [Event.send w.srv.interrupt_client_fd F2] ++ [Event.sleep_ms 8],
          sends := w.sends + 1 + 1 }
      have e2 : sent (w.trace ++ [Event.send w.srv.interrupt_client_fd F1] ++
            [Event.send w.srv.interrupt_client_fd F2] ++ [Event.sleep_ms 8]) =
          sent w.trace ++ [(w.srv.interrupt_client_fd, F1), (w.srv.interrupt_client_fd, F2)] := by
        simp [sent_append, sent]
      simp only [e2] at hpre
      rw [hok]
      by_cases h1 : env w.sends < 0
      · rw [(hF env).1 h1, sent_reset_connection_locked]
        refine ⟨?_, ?_, ?_, ?_, ?_⟩
        · refine List.IsPrefix.trans ?_ hpre
          simp [sent_append, sent]
        · exact Nat.le_succ _
        · intro h
          exact Bool.noConfusion h
        · intro _
          exact ⟨w.sends, rfl, le_refl _, h1, fun i h3 h4 => absurd h4 (not_lt.mpr h3)⟩
        · simp [sent_append, sent, reset_connection_locked_sends]
      · have h1p : 0 ≤ env w.sends := not_lt.mp h1
        by_cases h2 : env (w.sends + 1) < 0
        · rw [(hF env).2.1 h1p h2, sent_reset_connection_locked]
          refine ⟨?_, ?_, ?_, ?_, ?_⟩
          · refine List.IsPrefix.trans ?_ hpre
            simp [sent_append, sent]
          · show w.sends ≤ w.sends + 1 + 1
            omega
          · intro h
            exact Bool.noConfusion h
          · intro _
            refine ⟨w.sends + 1, rfl, Nat.le_succ _, h2, fun i h3 h4 => ?_⟩
            have : i = w.sends := by omega
            rw [this]
            exact h1p
          · simp only [sent_append, sent, reset_connection_locked_sends, List.length_append,
              List.length_cons, List.length_nil, List.append_nil]
            omega
        · have h2p : 0 ≤ env (w.sends + 1) := not_lt.mp h2
          rw [(hF env).2.2 h1p h2p]
          have h := ih
            { w with
              trace := w.trace ++ [Event.send w.srv.interrupt_client_fd F1] ++
                [Event.send w.srv.interrupt_client_fd F2] ++ [Event.sleep_ms 8],
              sends := w.sends + 1 + 1 } hconn
          simp only [e2] at h
          obtain ⟨hA, hB, hC, hD, hE⟩ := h
          refine ⟨hA, by omega, ?_, ?_, ?_⟩
          · intro ht i h3 h4
            by_cases hi0 : i = w.sends
            · rw [hi0]
              exact h1p
            · by_cases hi1 : i = w.sends + 1
              · rw [hi1]
                exact h2p
              · exact hC ht i (by omega) h4
          · intro hf
            obtain ⟨n, hn, hle, hneg, hall⟩ := hD hf
            refine ⟨n, hn, by omega, hneg, fun i h3 h4 => ?_⟩
            by_cases hi0 : i = w.sends
            · rw [hi0]
              exact h1p
            · by_cases hi1 : i = w.sends + 1
              · rw [hi1]
                exact h2p
              · exact hall i (by omega) h4
          · rw [hE]
            simp only [List.length_append, List.length_cons, List.length_nil]
            omega

theorem send_interrupt_packet_threads_cases (env : Nat → Int)
    (o2 o3 o4 : List Action) (w : Sys) (data : List Nat) :
    ((send_interrupt_packet_threads env o2 o3 o4 w data).result = true ∧
      ∃ v, (send_interrupt_packet_threads env o2 o3 o4 w data).writes = [(data, v)] ∧ 0 ≤ v) ∨
    ((send_interrupt_packet_threads env o2 o3 o4 w data).result = false ∧
      (send_interrupt_packet_threads env o2 o3 o4 w data).writes = []) ∨
    ((send_interrupt_packet_threads env o2 o3 o4 w data).result = false ∧
      ∃ v, (send_interrupt_packet_threads env o2 o3 o4 w data).writes = [(data, v)] ∧ v < 0) := by
  unfold send_interrupt_packet_threads
  cases he : (ensure_connection_locked_waiting env o2 w).1
  · right
    left
    simp [he]
  · by_cases hw : env (run env (ensure_connection_locked_waiting env o2 w).2 o3).sends < 0
    · right
      right
      simp only [he, Bool.not_true, Bool.false_eq_true, if_false, hw, if_true]
      exact ⟨trivial, _, rfl, hw⟩
    · left
      simp only [he, Bool.not_true, Bool.false_eq_true, if_false, hw]
      exact ⟨trivial, _, rfl, not_lt.mp hw⟩

theorem send_keyboard_report_threads_eq (env : Nat → Int) (others : Nat → List Action)
    (w : Sys) (r : KeyboardReport) :
    send_keyboard_report_threads env others w r =
      send_interrupt_packet_threads env (others 2) (others 3) (others 4)
        (run env (run env w (others 0)) (others 1))
        (if (run env w (others 0)).srv.protocol_mode ≠ 0 then
          [0x01, r.modifiers, r.reserved,
           r.keys 0, r.keys 1, r.keys 2, r.keys 3, r.keys 4, r.keys 5]
        else
          [r.modifiers, r.reserved,
           r.keys 0, r.keys 1, r.keys 2, r.keys 3, r.keys 4, r.keys 5]) := by
  by_cases h : (run env w (others 0)).srv.protocol_mode = 0 <;>
    simp [send_keyboard_report_threads, kKeyboardReportId, h]

theorem send_keyboard_report_threads_cases (env : Nat → Int) (others : Nat → List Action)
    (w : Sys) (report : KeyboardReport) :
    ∃ d : List Nat,
      (d = [0x01, report.modifiers, report.reserved,
            report.keys 0, report.keys 1, report.keys 2, report.keys 3, report.keys 4,
            report.keys 5] ∨
       d = List.drop 1 [0x01, report.modifiers, report.reserved,
            report.keys 0, report.keys 1, report.keys 2, report.keys 3, report.keys 4,
            report.keys 5]) ∧
      (((send_keyboard_report_threads env others w report).result = true ∧
        ∃ v, (send_keyboard_report_threads env others w report).writes = [(d, v)] ∧ 0 ≤ v) ∨
      ((send_keyboard_report_threads env others w report).result = false ∧
        (send_keyboard_report_threads env others w report).writes = []) ∨
      ((send_keyboard_report_threads env others w report).result = false ∧
        ∃ v, (send_keyboard_report_threads env others w report).writes = [(d, v)] ∧ v < 0)) := by
  rw [send_keyboard_report_threads_eq]
  by_cases h : (run env w (others 0)).srv.protocol_mode = 0
  · refine ⟨_, Or.inr rfl, ?_⟩
    have := send_interrupt_packet_threads_cases env (others 2) (others 3) (others 4)
      (run env (run env w (others 0)) (others 1))
      [report.modifiers, report.reserved,
       report.keys 0, report.keys 1, report.keys 2, report.keys 3, report.keys 4,
       report.keys 5]
    simpa [h] using this
  · refine ⟨_, Or.inl rfl, ?_⟩
    have := send_interrupt_packet_threads_cases env (others 2) (others 3) (others 4)
      (run env (run env w (others 0)) (others 1))
      [0x01, report.modifiers, report.reserved,
       report.keys 0, report.keys 1, report.keys 2, report.keys 3, report.keys 4,
       report.keys 5]
    simpa [h] using this

theorem length_press_release_frames (text : List Int) :
    (text.flatMap (fun c =>
      match map_character c with
      | none => []
      | some k =>
        [[0x01, if k.requires_shift then 0x02 else 0x00, 0x00, k.keycode, 0, 0, 0, 0, 0],
         [0x01, 0, 0, 0, 0, 0, 0, 0, 0]])).length =
    2 * text.countP (fun c => (map_character c).isSome) := by
  induction text with
  | nil => rfl
  | cons ch rest ih =>
    simp only [List.flatMap_cons, List.length_append, ih, List.countP_cons]
    cases map_character ch
    · simp
    · simp; omega

theorem writes_two_then (d1 d2 F1 F2 : List Nat) (v1 v2 : Int)
    (ws : List (List Nat × Int)) (res : Bool) (F : List (List Nat))
    (hf1 : d1 = F1 ∨ d1 = List.drop 1 F1) (hf2 : d2 = F2 ∨ d2 = List.drop 1 F2)
    (hv1 : 0 ≤ v1) (hv2 : 0 ≤ v2)
    (h : ws.length ≤ F.length ∧
      List.Forall₂ (fun f g => f = g ∨ f = List.drop 1 g) (ws.map Prod.fst)
        (F.take ws.length) ∧
      (∀ p ∈ ws.dropLast, 0 ≤ p.2) ∧
      (res = true ↔ ws.length = F.length ∧ ∀ p ∈ ws, 0 ≤ p.2)) :
    ((d1, v1) :: (d2, v2) :: ws).length ≤ (F1 :: F2 :: F).length ∧
    List.Forall₂ (fun f g => f = g ∨ f = List.drop 1 g)
      (((d1, v1) :: (d2, v2) :: ws).map Prod.fst)
      ((F1 :: F2 :: F).take ((d1, v1) :: (d2, v2) :: ws).length) ∧
    (∀ p ∈ ((d1, v1) :: (d2, v2) :: ws).dropLast, 0 ≤ p.2) ∧
    (res = true ↔ ((d1, v1) :: (d2, v2) :: ws).length = (F1 :: F2 :: F).length ∧
      ∀ p ∈ (d1, v1) :: (d2, v2) :: ws, 0 ≤ p.2) := by
  obtain ⟨ih1, ih2, ih3, ih4⟩ := h
  refine ⟨?_, ?_, ?_, ?_⟩
  · simp only [List.length_cons]
    omega
  · simp only [List.length_cons, List.map_cons, List.take_succ_cons]
    exact List.Forall₂.cons hf1 (List.Forall₂.cons hf2 ih2)
  · intro p hp
    rw [List.dropLast_cons₂] at hp
    rcases List.mem_cons.mp hp with e | hp2
    · rw [e]
      exact hv1
    · cases ws with
      | nil => simp at hp2
      | cons q t =>
        rw [List.dropLast_cons₂] at hp2
        rcases List.mem_cons.mp hp2 with e | hp3
        · rw [e]
          exact hv2
        · exact ih3 p hp3
  · rw [ih4]
    simp only [List.length_cons, List.mem_cons, forall_eq_or_imp]
    constructor
    · rintro ⟨hl, hall⟩
      exact ⟨by omega, hv1, hv2, hall⟩
    · rintro ⟨hl, _, _, hall⟩
      exact ⟨by omega, hall⟩

theorem type_text_threads_writes (env : Nat → Int) (others : Nat → Nat → List Action)
    (text : List Int) :
    ∀ (i : Nat) (w : Sys),
      (type_text_threads env others i w text).writes.length ≤
        (text.flatMap (fun c =>
          match map_character c with
          | none => []
          | some k =>
            [[0x01, if k.requires_shift then 0x02 else 0x00, 0x00, k.keycode, 0, 0, 0, 0, 0],
             [0x01, 0, 0, 0, 0, 0, 0, 0, 0]])).length ∧
      List.Forall₂ (fun f g => f = g ∨ f = List.drop 1 g)
        ((type_text_threads env others i w text).writes.map Prod.fst)
        ((text.flatMap (fun c =>
          match map_character c with
          | none => []
          | some k =>
            [[0x01, if k.requires_shift then 0x02 else 0x00, 0x00, k.keycode, 0, 0, 0, 0, 0],
             [0x01, 0, 0, 0, 0, 0, 0, 0, 0]])).take
          (type_text_threads env others i w text).writes.length) ∧
      (∀ p ∈ (type_text_threads env others i w text).writes.dropLast, 0 ≤ p.2) ∧
      ((type_text_threads env others i w text).result = true ↔
        (type_text_threads env others i w text).writes.length =
          (text.flatMap (fun c =>
            match map_character c with
            | none => []
            | some k =>
              [[0x01, if k.requires_shift then 0x02 else 0x00, 0x00, k.keycode,
                0, 0, 0, 0, 0],
               [0x01, 0, 0, 0, 0, 0, 0, 0, 0]])).length ∧
        ∀ p ∈ (type_text_threads env others i w text).writes, 0 ≤ p.2) := by
  induction text with
  | nil =>
    intro i w
    simp [type_text_threads]
  | cons ch rest ih =>
    intro i w
    cases hk : map_character ch with
    | none =>
      rw [type_text_threads]
      simp only [hk, List.flatMap_cons, List.nil_append]
      exact ih _ _
    | some key =>
      rw [type_text_threads]
      simp only [hk, List.flatMap_cons]
      obtain ⟨d1, hd1, h1⟩ := send_keyboard_report_threads_cases env (fun j => others i j) w
        { modifiers := if key.requires_shift then kLeftShiftMask else 0,
          keys := fun i => if i = 0 then key.keycode else 0 }
      rcases h1 with ⟨hr1, v1, hw1, hv1⟩ | ⟨hr1, hw1⟩ | ⟨hr1, v1, hw1, hv1⟩
      · obtain ⟨d2, hd2, h2⟩ := send_keyboard_report_threads_cases env
          (fun j => others i (5 + j))
          (send_keyboard_report_threads env (fun j => others i j) w
            { modifiers := if key.requires_shift then kLeftShiftMask else 0,
              keys := fun i => if i = 0 then key.keycode else 0 }).sys {}
        have hf1 : d1 = [0x01, if key.requires_shift then 0x02 else 0x00, 0x00, key.keycode,
              0, 0, 0, 0, 0] ∨
            d1 = List.drop 1 [0x01, if key.requires_shift then 0x02 else 0x00, 0x00,
              key.keycode, 0, 0, 0, 0, 0] := by
          rcases hd1 with e | e
          · left
            rw [e]
            simp [kLeftShiftMask]
          · right
            rw [e]
            simp [kLeftShiftMask]
        have hf2 : d2 = [0x01, 0, 0, 0, 0, 0, 0, 0, 0] ∨
            d2 = List.drop 1 [0x01, 0, 0, 0, 0, 0, 0, 0, 0] := hd2
        simp only [hr1, Bool.not_true, Bool.false_eq_true, if_false, hw1]
        rcases h2 with ⟨hr2, v2, hw2, hv2⟩ | ⟨hr2, hw2⟩ | ⟨hr2, v2, hw2, hv2⟩
        · simp only [hr2, Bool.not_true, Bool.false_eq_true, if_false, hw2, List.cons_append,
            List.nil_append]
          exact writes_two_then d1 d2 _ _ v1 v2 _ _ _ hf1 hf2 hv1 hv2 (ih _ _)
        · simp only [hr2, Bool.not_false, if_true, hw2, List.append_nil]
          refine ⟨by simp, ?_, by simp, ?_⟩
          · simp only [List.map_cons, List.map_nil, List.length_singleton, List.cons_append,
              List.take_succ_cons, List.take_zero]
            exact List.Forall₂.cons hf1 List.Forall₂.nil
          · simp
        · simp only [hr2, Bool.not_false, if_true, hw2]
          refine ⟨by simp, ?_, ?_, ?_⟩
          · simp only [List.cons_append, List.nil_append, List.map_cons, List.map_nil,
              List.length_cons, List.length_nil, List.take_succ_cons, List.take_zero]
            exact List.Forall₂.cons hf1 (List.Forall₂.cons hf2 List.Forall₂.nil)
          · intro p hp
            simp at hp
            rw [hp]
            exact hv1
          · simp
            intro _ _
            exact hv2
      · simp [hr1, hw1]
      · simp only [hr1, Bool.not_false, if_true, hw1]
        refine ⟨by simp, ?_, by simp, ?_⟩
        · simp only [List.map_cons, List.map_nil, List.length_singleton, List.cons_append,
            List.take_succ_cons, List.take_zero]
          refine List.Forall₂.cons ?_ List.Forall₂.nil
          rcases hd1 with e | e
          · left
            rw [e]
            simp [kLeftShiftMask]
          · right
            rw [e]
            simp [kLeftShiftMask]
        · simp


theorem type_text_threads_unmapped (env : Nat → Int) (others : Nat → Nat → List Action)
    (text : List Int) (h : ∀ c ∈ text, map_character c = none) :
    ∀ (i : Nat) (w : Sys),
      (type_text_threads env others i w text).result = true ∧
      (type_text_threads env others i w text).writes = [] := by
  induction text with
  | nil =>
    intro i w
    exact ⟨rfl, rfl⟩
  | cons ch rest ih =>
    intro i w
    have hk : map_character ch = none := h ch (List.mem_cons_self _ _)
    rw [type_text_threads]
    simp only [hk]
    exact ih (fun c hc => h c (List.mem_cons_of_mem _ hc)) _ _

theorem ensure_connection_locked_waiting_alone (env : Nat → Int) (w : Sys) :
    ensure_connection_locked_waiting env [] w = ensure_connection_locked w := by
  unfold ensure_connection_locked_waiting ensure_connection_locked
  cases hc : w.srv.connected <;> cases hr : w.srv.running <;> simp [run, hc, hr]

theorem send_interrupt_packet_threads_alone (env : Nat → Int) (w : Sys) (data : List Nat) :
    (send_interrupt_packet_threads env [] [] [] w data).result =
      (send_interrupt_packet env w data).1 ∧
    (send_interrupt_packet_threads env [] [] [] w data).sys =
      (send_interrupt_packet env w data).2 := by
  unfold send_interrupt_packet_threads send_interrupt_packet
  rw [ensure_connection_locked_waiting_alone]
  cases he : (ensure_connection_locked w).1
  · simp [he]
  · by_cases hw : env (ensure_connection_locked w).2.sends < 0
    · simp [he, hw, run]
    · simp [he, hw, run]

theorem send_keyboard_report_threads_alone (env : Nat → Int) (w : Sys)
    (r : KeyboardReport) :
    (send_keyboard_report_threads env (fun _ => []) w r).result =
      (send_keyboard_report env w r).1 ∧
    (send_keyboard_report_threads env (fun _ => []) w r).sys =
      (send_keyboard_report env w r).2 := by
  rw [send_keyboard_report_threads_eq, send_keyboard_report_eq]
  exact send_interrupt_packet_threads_alone env w _

theorem type_text_threads_alone (env : Nat → Int) (text : List Int) :
    ∀ (i : Nat) (w : Sys),
      (type_text_threads env (fun _ _ => []) i w text).result = (type_text env w text).1 ∧
      (type_text_threads env (fun _ _ => []) i w text).sys = (type_text env w text).2 := by
  induction text with
  | nil =>
    intro i w
    exact ⟨rfl, rfl⟩
  | cons ch rest ih =>
    intro i w
    cases hk : map_character ch with
    | none =>
      rw [type_text_threads, type_text]
      simp only [hk]
      exact ih _ _
    | some key =>
      rw [type_text_threads, type_text]
      simp only [hk]
      have h1 := send_keyboard_report_threads_alone env w
        { modifiers := if key.requires_shift then kLeftShiftMask else 0,
          keys := fun i => if i = 0 then key.keycode else 0 }
      generalize send_keyboard_report_threads env (fun _ => []) w
        { modifiers := if key.requires_shift then kLeftShiftMask else 0,
          keys := fun i => if i = 0 then key.keycode else 0 } = r1 at h1 ⊢
      generalize send_keyboard_report env w
        { modifiers := if key.requires_shift then kLeftShiftMask else 0,
          keys := fun i => if i = 0 then key.keycode else 0 } = q1 at h1 ⊢
      obtain ⟨a1, a2⟩ := h1
      cases hq1 : q1.1
      · rw [hq1] at a1
        simp only [a1, Bool.not_false, if_true]
        exact ⟨trivial, a2⟩
      · rw [hq1] at a1
        simp only [a1, Bool.not_true, Bool.false_eq_true, if_false, a2]
        have h2 := send_keyboard_report_threads_alone env q1.2 {}
        generalize send_keyboard_report_threads env (fun _ => []) q1.2 {} = r2 at h2 ⊢
        generalize send_keyboard_report env q1.2 {} = q2 at h2 ⊢
        obtain ⟨b1, b2⟩ := h2
        cases hq2 : q2.1
        · rw [hq2] at b1
          simp only [b1, Bool.not_false, if_true]
          exact ⟨trivial, b2⟩
        · rw [hq2] at b1
          simp only [b1, Bool.not_true, Bool.false_eq_true, if_false, b2]
          exact ih _ _

theorem reset_connection_locked_trace (w : Sys) :
    w.trace <+: (reset_connection_locked w).trace :=
  (List.prefix_append _ _).trans (List.prefix_append _ _)

theorem handle_control_message_trace (w : Sys) (data : List Nat) :
    w.trace <+: (handle_control_message w data).trace := by
  cases data with
  | nil => exact List.prefix_refl _
  | cons H payload =>
    by_cases h1 : H &&& 0xF0 = 0x10
    · by_cases hP : H &&& 0x0F = 0x05
      · rw [handle_hid_control_unplug_eq w H payload h1 hP]
        exact (List.prefix_append _ _).trans
          (reset_connection_locked_trace (send_control w [0x00]))
      · rw [handle_hid_control_other_eq w H payload h1 hP]
        exact List.prefix_append _ _
    · by_cases h7 : H &&& 0xF0 = 0x70
      · rw [handle_set_protocol_eq w H payload h7]
        exact List.prefix_append _ _
      · by_cases h6 : H &&& 0xF0 = 0x60
        · rw [handle_get_protocol_eq w H payload h6]
          exact List.prefix_append _ _
        · by_cases h5 : H &&& 0xF0 = 0x50
          · rw [handle_set_report_trace w H payload h5]
            exact List.prefix_append _ _
          · by_cases h4 : H &&& 0xF0 = 0x40
            · rw [handle_get_report_eq w H payload h4]
              exact List.prefix_append _ _
            · by_cases h0 : H &&& 0xF0 = 0x00
              · rw [handle_handshake_eq w H payload h0]
              · rw [handle_default_eq w H payload h1 h7 h6 h5 h4 h0]
                exact List.prefix_append _ _

theorem send_interrupt_packet_trace (env : Nat → Int) (w : Sys) (data : List Nat) :
    w.trace <+: (send_interrupt_packet env w data).2.trace := by
  by_cases hc : w.srv.connected = true
  · by_cases he : env w.sends < 0
    · rw [send_interrupt_packet_fail env w data hc he]
      refine List.IsPrefix.trans ?_ (reset_connection_locked_trace _)
      exact (List.prefix_append _ _).trans (List.prefix_append _ _)
    · rw [send_interrupt_packet_ok env w data hc (not_lt.mp he)]
      exact List.prefix_append _ _
  · have hc2 : w.srv.connected = false := by
      cases h : w.srv.connected
      · rfl
      · exact absurd h hc
    simp only [send_interrupt_packet, ensure_connection_locked, hc2]
    cases w.srv.running
    · exact List.prefix_refl _
    · exact List.prefix_append _ _

theorem step_trace (env : Nat → Int) (w : Sys) (a : Action) :
    w.trace <+: (step env w a).trace := by
  cases a with
  | start c i =>
    simp only [step, start]
    split_ifs
    · exact List.prefix_refl _
    · cases c <;> cases i <;> exact List.prefix_refl _
  | accept_control client =>
    simp only [step, accept_control]
    split_ifs
    · exact List.prefix_append _ _
    · exact List.prefix_refl _
  | accept_interrupt client =>
    simp only [step, accept_interrupt]
    split_ifs
    · exact List.prefix_append _ _
    · exact List.prefix_append _ _
    · exact List.prefix_refl _
  | control_message data => exact handle_control_message_trace w data
  | control_recv received =>
    simp only [step, control_loop_iteration]
    split_ifs
    · exact reset_connection_locked_trace w
    · exact reset_connection_locked_trace w
    · exact reset_connection_locked_trace w
    · exact handle_control_message_trace w _
  | control_closed => exact reset_connection_locked_trace w
  | send_packet data => exact send_interrupt_packet_trace env w data
  | force_disconnect => exact reset_connection_locked_trace w
  | stop =>
    simp only [step, stop]
    split_ifs
    all_goals first
      | exact List.prefix_refl _
      | (refine List.IsPrefix.trans ?_ (reset_connection_locked_trace _)
         exact (List.prefix_append _ _).trans (List.prefix_append _ _))

theorem run_trace (env : Nat → Int) (acts : List Action) :
    ∀ w : Sys, w.trace <+: (run env w acts).trace := by
  induction acts with
  | nil => exact fun w => List.prefix_refl _
  | cons a rest ih =>
    intro w
    exact (step_trace env w a).trans (ih (step env w a))

theorem writes_in_trace_extended (a b : List Event) (h : a <+: b) :
    ∃ t, b = a ++ t ∧ List.Sublist ([] : List (List Nat)) ((sent t).map Prod.snd) := by
  obtain ⟨t, ht⟩ := h
  exact ⟨t, ht.symm, List.nil_sublist _⟩

theorem writes_in_trace_append (a b c : List Event) (ws1 ws2 : List (List Nat))
    (h1 : ∃ t, b = a ++ t ∧ List.Sublist ws1 ((sent t).map Prod.snd))
    (h2 : ∃ t, c = b ++ t ∧ List.Sublist ws2 ((sent t).map Prod.snd)) :
    ∃ t, c = a ++ t ∧ List.Sublist (ws1 ++ ws2) ((sent t).map Prod.snd) := by
  obtain ⟨t1, e1, s1⟩ := h1
  obtain ⟨t2, e2, s2⟩ := h2
  refine ⟨t1 ++ t2, by rw [e2, e1, List.append_assoc], ?_⟩
  rw [sent_append, List.map_append]
  exact List.Sublist.append s1 s2

theorem ensure_connection_locked_waiting_trace (env : Nat → Int) (o : List Action)
    (w : Sys) : w.trace <+: (ensure_connection_locked_waiting env o w).2.trace := by
  unfold ensure_connection_locked_waiting
  simp only []
  split_ifs
  · exact (run_trace env o w).trans (List.prefix_append _ _)
  · exact run_trace env o w
  · exact List.prefix_refl _
  · exact List.prefix_refl _

theorem send_interrupt_packet_threads_trace (env : Nat → Int)
    (o2 o3 o4 : List Action) (w : Sys) (data : List Nat) :
    ∃ t, (send_interrupt_packet_threads env o2 o3 o4 w data).sys.trace = w.trace ++ t ∧
      List.Sublist ((send_interrupt_packet_threads env o2 o3 o4 w data).writes.map Prod.fst)
        ((sent t).map Prod.snd) := by
  have hA := (ensure_connection_locked_waiting_trace env o2 w).trans
    (run_trace env o3 (ensure_connection_locked_waiting env o2 w).2)
  have hS : ∃ t, (run env (ensure_connection_locked_waiting env o2 w).2 o3).trace ++
        [Event.send (ensure_connection_locked_waiting env o2 w).2.srv.interrupt_client_fd data] =
      (run env (ensure_connection_locked_waiting env o2 w).2 o3).trace ++ t ∧
      List.Sublist [data] ((sent t).map Prod.snd) :=
    ⟨_, rfl, by simp [sent]⟩
  unfold send_interrupt_packet_threads
  cases he : (ensure_connection_locked_waiting env o2 w).1
  · simp only [he, Bool.not_false, if_true, List.map_nil]
    exact writes_in_trace_extended _ _ (ensure_connection_locked_waiting_trace env o2 w)
  · by_cases hw : env (run env (ensure_connection_locked_waiting env o2 w).2 o3).sends < 0
    · simp only [he, Bool.not_true, Bool.false_eq_true, if_false, hw, if_true, List.map_cons,
        List.map_nil]
      have h3 := writes_in_trace_append _ _ _ [] [data]
        (writes_in_trace_extended _ _ hA) hS
      refine writes_in_trace_append _ _ _ [data] [] h3 (writes_in_trace_extended _ _ ?_)
      refine List.IsPrefix.trans ?_ (reset_connection_locked_trace _)
      refine List.IsPrefix.trans ?_ (run_trace env o4 _)
      exact List.prefix_append _ _
    · simp only [he, Bool.not_true, Bool.false_eq_true, if_false, hw, List.map_cons,
        List.map_nil]
      exact writes_in_trace_append _ _ _ [] [data] (writes_in_trace_extended _ _ hA) hS

theorem send_keyboard_report_threads_trace (env : Nat → Int) (others : Nat → List Action)
    (w : Sys) (r : KeyboardReport) :
    ∃ t, (send_keyboard_report_threads env others w r).sys.trace = w.trace ++ t ∧
      List.Sublist ((send_keyboard_report_threads env others w r).writes.map Prod.fst)
        ((sent t).map Prod.snd) := by
  rw [send_keyboard_report_threads_eq]
  have h := writes_in_trace_append _ _ _ [] _
    (writes_in_trace_extended _ _
      ((run_trace env (others 0) w).trans (run_trace env (others 1) _)))
    (send_interrupt_packet_threads_trace env (others 2) (others 3) (others 4)
      (run env (run env w (others 0)) (others 1))
      (if (run env w (others 0)).srv.protocol_mode ≠ 0 then
        [0x01, r.modifiers, r.reserved,
         r.keys 0, r.keys 1, r.keys 2, r.keys 3, r.keys 4, r.keys 5]
      else
        [r.modifiers, r.reserved,
         r.keys 0, r.keys 1, r.keys 2, r.keys 3, r.keys 4, r.keys 5]))
  simpa using h

theorem type_text_threads_trace (env : Nat → Int) (others : Nat → Nat → List Action)
    (text : List Int) :
    ∀ (i : Nat) (w : Sys),
      ∃ t, (type_text_threads env others i w text).sys.trace = w.trace ++ t ∧
        List.Sublist ((type_text_threads env others i w text).writes.map Prod.fst)
          ((sent t).map Prod.snd) := by
  induction text with
  | nil =>
    intro i w
    exact ⟨[], (List.append_nil _).symm, List.nil_sublist _⟩
  | cons ch rest ih =>
    intro i w
    cases hk : map_character ch with
    | none =>
      rw [type_text_threads]
      simp only [hk]
      have h := writes_in_trace_append w.trace _ _ [] _
        (writes_in_trace_extended _ _
          ((List.prefix_append w.trace [Event.cerr (Diag.unsupported_character ch)]).trans
            (run_trace env (others i 0)
              { w with trace := w.trace ++ [Event.cerr (Diag.unsupported_character ch)] })))
        (ih (i + 1)
          (run env
            { w with trace := w.trace ++ [Event.cerr (Diag.unsupported_character ch)] }
            (others i 0)))
      simpa using h
    | some key =>
      rw [type_text_threads]
      simp only [hk]
      have h1 := send_keyboard_report_threads_trace env (fun j => others i j) w
        { modifiers := if key.requires_shift then kLeftShiftMask else 0,
          keys := fun i => if i = 0 then key.keycode else 0 }
      generalize send_keyboard_report_threads env (fun j => others i j) w
        { modifiers := if key.requires_shift then kLeftShiftMask else 0,
          keys := fun i => if i = 0 then key.keycode else 0 } = r1 at h1 ⊢
      cases hr1 : r1.result
      · simp only [Bool.not_false, if_true]
        exact h1
      · simp only [Bool.not_true, Bool.false_eq_true, if_false]
        have h2 := send_keyboard_report_threads_trace env (fun j => others i (5 + j)) r1.sys {}
        generalize send_keyboard_report_threads env (fun j => others i (5 + j)) r1.sys {} = r2
          at h2 ⊢
        have h12 := writes_in_trace_append _ _ _ _ _ h1 h2
        cases hr2 : r2.result
        · simp only [Bool.not_false, if_true, List.map_append]
          exact h12
        · simp only [Bool.not_true, Bool.false_eq_true, if_false, List.map_append]
          have h3 := ih (i + 1)
            (run env { r2.sys with trace := r2.sys.trace ++ [Event.sleep_ms 8] } (others i 10))
          have hs := writes_in_trace_extended _ _
            ((List.prefix_append r2.sys.trace [Event.sleep_ms 8]).trans
              (run_trace env (others i 10)
                { r2.sys with trace := r2.sys.trace ++ [Event.sleep_ms 8] }))
          have h23 := writes_in_trace_append _ _ _ _ _ hs h3
          have h := writes_in_trace_append _ _ _ _ _ h12 h23
          simpa using h

theorem mem_dropLast_or_getLast {α : Type} (l : List α) (p : α) (h : p ∈ l) :
    p ∈ l.dropLast ∨ l.getLast? = some p := by
  have hne : l ≠ [] := List.ne_nil_of_mem h
  rw [← List.dropLast_append_getLast hne] at h
  rcases List.mem_append.mp h with h1 | h1
  · exact Or.inl h1
  · right
    rw [List.mem_singleton] at h1
    rw [h1, List.getLast?_eq_getLast _ hne]

/-- Claim C19 as stated fails: on the freshly constructed server, which is not connected,
`type_text` of the single character a (97) returns false although it issues no write at all,
so it is not true that it returns true exactly when every write it issued succeeded. -/
theorem type_text_not_connected_counterexample :
    sys_init.srv.connected = false ∧
    (type_text (env_all_ok 1) sys_init [97]).1 = false ∧
    (type_text (env_all_ok 1) sys_init [97]).2.sends = sys_init.sends ∧
    sent (type_text (env_all_ok 1) sys_init [97]).2.trace = [] ∧
    ¬ ((type_text (env_all_ok 1) sys_init [97]).1 = true ↔
        ∀ i, sys_init.sends ≤ i → i < (type_text (env_all_ok 1) sys_init [97]).2.sends →
          0 ≤ env_all_ok 1 i) := by
  refine ⟨rfl, by decide, by decide, by decide, fun h => ?_⟩
  have ht := h.2 (fun i _ _ => by simp [env_all_ok])
  revert ht
  decide

theorem ensure_connection_locked_waiting_result (env : Nat → Int) (o : List Action)
    (w : Sys) :
    (ensure_connection_locked_waiting env o w).1 =
      (ensure_connection_locked_waiting env o w).2.srv.connected := by
  unfold ensure_connection_locked_waiting
  simp only []
  split_ifs with h1 h2 h3
  · simp only [Bool.not_eq_true', Bool.or_eq_false_iff] at h3
    exact h3.2.symm
  · rfl
  · rfl
  · rfl

theorem send_interrupt_packet_threads_refused (env : Nat → Int)
    (o2 o3 o4 : List Action) (w : Sys) (data : List Nat) :
    (send_interrupt_packet_threads env o2 o3 o4 w data).writes = [] ↔
      (ensure_connection_locked_waiting env o2 w).2.srv.connected = false := by
  rw [← ensure_connection_locked_waiting_result]
  unfold send_interrupt_packet_threads
  cases he : (ensure_connection_locked_waiting env o2 w).1
  · simp [he]
  · by_cases hw : env (run env (ensure_connection_locked_waiting env o2 w).2 o3).sends < 0
    · simp [he, hw]
    · simp [he, hw]

/-- Claim C19, amended: for every text, every state at the call and every interleaving of the
other threads with the critical sections of `type_text`, the interrupt writes issued by the
call are at most `2 * k`, `k` being the number of mappable characters; they are, in order, the
first press and release frames of the text, each in the 9-byte form or, without the report
ID, in the 8-byte form, and they are `send` events of the trace.  Every write but the last
succeeded, so a failed write is the last one and the call returns false.  The call returns
true exactly when all `2 * k` writes were issued and succeeded; when it returns false, either
the last write failed or fewer than `2 * k` writes were issued and all of them succeeded: a
send issues no write exactly when the server is not connected at the end of the wait of
`ensure_connection_locked`.  A text without a mappable character gives true without a write,
and when no other thread runs the call is the `type_text` of the sequential model. -/
theorem type_text_outcome_among_threads (env : Nat → Int) (others : Nat → Nat → List Action)
    (i : Nat) (w : Sys) (text : List Int) (r : Call)
    (hr : r = type_text_threads env others i w text) :
    (r.result = true ↔
      r.writes.length = 2 * text.countP (fun c => (map_character c).isSome) ∧
      ∀ p ∈ r.writes, 0 ≤ p.2) ∧
    r.writes.length ≤ 2 * text.countP (fun c => (map_character c).isSome) ∧
    (∀ p ∈ r.writes.dropLast, 0 ≤ p.2) ∧
    ((∃ p ∈ r.writes, p.2 < 0) → r.result = false) ∧
    (r.result = false →
      (∃ p, r.writes.getLast? = some p ∧ p.2 < 0) ∨
      (r.writes.length < 2 * text.countP (fun c => (map_character c).isSome) ∧
        ∀ p ∈ r.writes, 0 ≤ p.2)) ∧
    List.Forall₂ (fun f g => f = g ∨ f = List.drop 1 g)
      (r.writes.map Prod.fst)
      ((text.flatMap (fun c =>
        match map_character c with
        | none => []
        | some k =>
          [[0x01, if k.requires_shift then 0x02 else 0x00, 0x00, k.keycode, 0, 0, 0, 0, 0],
           [0x01, 0, 0, 0, 0, 0, 0, 0, 0]])).take r.writes.length) ∧
    (∃ t, r.sys.trace = w.trace ++ t ∧
      List.Sublist (r.writes.map Prod.fst) ((sent t).map Prod.snd)) ∧
    ((∀ c ∈ text, map_character c = none) → r.result = true ∧ r.writes = []) ∧
    ((type_text_threads env (fun _ _ => []) i w text).result = (type_text env w text).1 ∧
      (type_text_threads env (fun _ _ => []) i w text).sys = (type_text env w text).2) ∧
    (∀ (o2 o3 o4 : List Action) (v : Sys) (data : List Nat),
      (send_interrupt_packet_threads env o2 o3 o4 v data).writes = [] ↔
        (ensure_connection_locked_waiting env o2 v).2.srv.connected = false) := by
  subst hr
  obtain ⟨h1, h2, h3, h4⟩ := type_text_threads_writes env others text i w
  rw [length_press_release_frames] at h1 h4
  have hd : (∃ p ∈ (type_text_threads env others i w text).writes, p.2 < 0) →
      (type_text_threads env others i w text).result = false := by
    rintro ⟨p, hp, hneg⟩
    cases hres : (type_text_threads env others i w text).result
    · rfl
    · have := (h4.mp hres).2 p hp
      omega
  refine ⟨h4, h1, h3, hd, ?_, h2, type_text_threads_trace env others text i w,
    fun h => type_text_threads_unmapped env others text h i w,
    type_text_threads_alone env text i w,
    fun o2 o3 o4 v data => send_interrupt_packet_threads_refused env o2 o3 o4 v data⟩
  intro hres
  by_cases hall : ∀ p ∈ (type_text_threads env others i w text).writes, 0 ≤ p.2
  · right
    refine ⟨?_, hall⟩
    rcases Nat.lt_or_ge (type_text_threads env others i w text).writes.length
      (2 * text.countP (fun c => (map_character c).isSome)) with hlt | hge
    · exact hlt
    · have := h4.mpr ⟨le_antisymm h1 hge, hall⟩
      rw [hres] at this
      exact Bool.noConfusion this
  · left
    push_neg at hall
    obtain ⟨p, hp, hneg⟩ := hall
    rcases mem_dropLast_or_getLast _ p hp with hdl | hl
    · have := h3 p hdl
      omega
    · exact ⟨p, hl, hneg⟩

/-- Claim C19, amended, instances.  On the connected server, typing a and b while the control
loop ends and resets the connection during the pause after a: the call returns false
although both writes it issued succeeded.  On a started server without a host, typing a
while the host attaches both channels during the wait of the first send: the call returns
true after two writes. -/
theorem type_text_outcome_among_threads_witness :
    connected_fresh.srv.connected = true ∧
    (type_text_threads (env_all_ok 1)
      (fun i j => if i = 0 ∧ j = 10 then [Action.control_closed] else [])
      0 connected_fresh [97, 98]).result = false ∧
    (type_text_threads (env_all_ok 1)
      (fun i j => if i = 0 ∧ j = 10 then [Action.control_closed] else [])
      0 connected_fresh [97, 98]).writes =
      [([0x01, 0, 0, 0x04, 0, 0, 0, 0, 0], 1), ([0x01, 0, 0, 0, 0, 0, 0, 0, 0], 1)] ∧
    ((∃ p, (type_text_threads (env_all_ok 1)
        (fun i j => if i = 0 ∧ j = 10 then [Action.control_closed] else [])
        0 connected_fresh [97, 98]).writes.getLast? = some p ∧ p.2 < 0) ∨
      ((type_text_threads (env_all_ok 1)
        (fun i j => if i = 0 ∧ j = 10 then [Action.control_closed] else [])
        0 connected_fresh [97, 98]).writes.length <
          2 * [97, 98].countP (fun c => (map_character c).isSome) ∧
        ∀ p ∈ (type_text_threads (env_all_ok 1)
          (fun i j => if i = 0 ∧ j = 10 then [Action.control_closed] else [])
          0 connected_fresh [97, 98]).writes, 0 ≤ p.2)) ∧
    (run (env_all_ok 1) sys_init [Action.start (some 3) (some 4)]).srv.connected = false ∧
    (type_text_threads (env_all_ok 1)
      (fun i j => if i = 0 ∧ j = 2 then [Action.accept_control 5, Action.accept_interrupt 6]
        else [])
      0 (run (env_all_ok 1) sys_init [Action.start (some 3) (some 4)]) [97]).result = true ∧
    (type_text_threads (env_all_ok 1)
      (fun i j => if i = 0 ∧ j = 2 then [Action.accept_control 5, Action.accept_interrupt 6]
        else [])
      0 (run (env_all_ok 1) sys_init [Action.start (some 3) (some 4)]) [97]).writes =
      [([0x01, 0, 0, 0x04, 0, 0, 0, 0, 0], 1), ([0x01, 0, 0, 0, 0, 0, 0, 0, 0], 1)] :=
  ⟨rfl, by decide, by decide,
    (type_text_outcome_among_threads (env_all_ok 1)
      (fun i j => if i = 0 ∧ j = 10 then [Action.control_closed] else [])
      0 connected_fresh [97, 98] _ rfl).2.2.2.2.1 (by decide),
    by decide, by decide, by decide⟩

end HidServer

/-! ## Character table -/

theorem map_character_lower (c : Int) (h : 97 ≤ c ∧ c ≤ 122) :
    map_character c = some ⟨(0x04 + (c - 97)).toNat, false⟩ := by
  have e : to_uint8 (4 + (c - 97)) = (4 + (c - 97)).toNat := by
    unfold to_uint8
    omega
  simp [map_character, h.1, h.2, e]

theorem map_character_upper (c : Int) (h : 65 ≤ c ∧ c ≤ 90) :
    map_character c = some ⟨(0x04 + (c - 65)).toNat, true⟩ := by
  have e : to_uint8 (4 + (c - 65)) = (4 + (c - 65)).toNat := by
    unfold to_uint8
    omega
  have h1 : ¬ (97 ≤ c ∧ c ≤ 122) := by omega
  simp [map_character, h1, h.1, h.2, e]

theorem map_character_digit (c : Int) (h : 49 ≤ c ∧ c ≤ 57) :
    map_character c = some ⟨(0x1E + (c - 49)).toNat, false⟩ := by
  have e : to_uint8 (30 + (c - 49)) = (30 + (c - 49)).toNat := by
    unfold to_uint8
    omega
  have h1 : ¬ (97 ≤ c ∧ c ≤ 122) := by omega
  have h2 : ¬ (65 ≤ c ∧ c ≤ 90) := by omega
  simp [map_character, h1, h2, h.1, h.2, e]

/-- Claim C20: `map_character` is defined on every ASCII letter and digit: a lower-case
letter `c` gives usage `0x04 + (c - 97)` without shift, an upper-case letter gives
`0x04 + (c - 65)` with shift, a digit from 1 to 9 gives `0x1E + (c - 49)` without shift (the
usages 0x1E to 0x26), the digit 0 gives 0x27 without shift, and the i-th character of the
shifted row (codes 33, 64, 35, 36, 37, 94, 38, 42, 40, 41) gives the usage of the i-th
character of the digit row 1234567890 with shift. -/
theorem map_character_letters_digits (c : Int) :
    (97 ≤ c ∧ c ≤ 122 → map_character c = some ⟨(0x04 + (c - 97)).toNat, false⟩) ∧
    (65 ≤ c ∧ c ≤ 90 → map_character c = some ⟨(0x04 + (c - 65)).toNat, true⟩) ∧
    (49 ≤ c ∧ c ≤ 57 →
      map_character c = some ⟨(0x1E + (c - 49)).toNat, false⟩ ∧
      0x1E ≤ (0x1E + (c - 49)).toNat ∧ (0x1E + (c - 49)).toNat ≤ 0x26) ∧
    map_character 48 = some ⟨0x27, false⟩ ∧
    (∀ p ∈ List.zip [33, 64, 35, 36, 37, 94, 38, 42, 40, 41]
        [49, 50, 51, 52, 53, 54, 55, 56, 57, 48],
      (map_character p.2).map KeyInfo.requires_shift = some false ∧
      (map_character p.1).map KeyInfo.requires_shift = some true ∧
      (map_character p.1).map KeyInfo.keycode = (map_character p.2).map KeyInfo.keycode) := by
  refine ⟨map_character_lower c, map_character_upper c,
    fun h => ⟨map_character_digit c h, by omega, by omega⟩, by decide, by decide⟩

/-- Claim C20, instances: the letters a, z, A, Z and the digits 1, 9, 0, and the shifted
character at sign (64) above the digit 2. -/
theorem map_character_letters_digits_witness :
    map_character 97 = some ⟨0x04, false⟩ ∧ map_character 122 = some ⟨0x1D, false⟩ ∧
    map_character 65 = some ⟨0x04, true⟩ ∧ map_character 90 = some ⟨0x1D, true⟩ ∧
    map_character 49 = some ⟨0x1E, false⟩ ∧ map_character 57 = some ⟨0x26, false⟩ ∧
    map_character 48 = some ⟨0x27, false⟩ ∧
    (map_character 64).map KeyInfo.keycode = (map_character 50).map KeyInfo.keycode :=
  ⟨(map_character_letters_digits 97).1 (by decide),
    (map_character_letters_digits 122).1 (by decide),
    (map_character_letters_digits 65).2.1 (by decide),
    (map_character_letters_digits 90).2.1 (by decide),
    ((map_character_letters_digits 49).2.2.1 (by decide)).1,
    ((map_character_letters_digits 57).2.2.1 (by decide)).1,
    (map_character_letters_digits 0).2.2.2.1,
    ((map_character_letters_digits 0).2.2.2.2 (64, 50) (by decide)).2.2⟩

theorem map_character_outside (c : Int) (h : c < 8 ∨ 126 < c) : map_character c = none := by
  unfold map_character
  repeat rw [if_neg (by omega)]

theorem map_character_unlisted (c : Int)
    (h1 : ¬ (97 ≤ c ∧ c ≤ 122)) (h2 : ¬ (65 ≤ c ∧ c ≤ 90)) (h3 : ¬ (48 ≤ c ∧ c ≤ 57))
    (h4 : c ∉ [33, 64, 35, 36, 37, 94, 38, 42, 40, 41])
    (h5 : c ∉ [9, 32, 10, 13, 8, 27])
    (h6 : c ∉ [45, 61, 91, 93, 92, 59, 39, 96, 44, 46, 47])
    (h7 : c ∉ [95, 43, 123, 125, 124, 58, 34, 126, 60, 62, 63]) :
    map_character c = none := by
  simp only [List.mem_cons, List.mem_singleton, List.not_mem_nil, or_false, not_or] at h4 h5 h6 h7
  unfold map_character
  repeat rw [if_neg (by omega)]

/-- Claim C21: `map_character` maps tab (9) to 0x2B, space (32) to 0x2C, line feed (10) and
carriage return (13) to 0x28, backspace (8) to 0x2A and escape (27) to 0x29, all without
shift; each of the eleven punctuation keys (minus, equals, brackets, backslash, semicolon,
apostrophe, grave accent, comma, full stop, slash) maps to the usages 0x2D, 0x2E, 0x2F, 0x30,
0x31, 0x33, 0x34, 0x35, 0x36, 0x37, 0x38 without shift and its shifted form maps to the same
usage with shift; every character value that is not one of these, a letter, a digit or one
of the shifted digits has no mapping. -/
theorem map_character_controls_punctuation (c : Int) :
    map_character 9 = some ⟨0x2B, false⟩ ∧ map_character 32 = some ⟨0x2C, false⟩ ∧
    map_character 10 = some ⟨0x28, false⟩ ∧ map_character 13 = some ⟨0x28, false⟩ ∧
    map_character 8 = some ⟨0x2A, false⟩ ∧ map_character 27 = some ⟨0x29, false⟩ ∧
    (∀ p ∈ List.zip
        (List.zip [45, 61, 91, 93, 92, 59, 39, 96, 44, 46, 47]
          [95, 43, 123, 125, 124, 58, 34, 126, 60, 62, 63])
        [0x2D, 0x2E, 0x2F, 0x30, 0x31, 0x33, 0x34, 0x35, 0x36, 0x37, 0x38],
      map_character p.1.1 = some ⟨p.2, false⟩ ∧ map_character p.1.2 = some ⟨p.2, true⟩) ∧
    (¬ (97 ≤ c ∧ c ≤ 122) → ¬ (65 ≤ c ∧ c ≤ 90) → ¬ (48 ≤ c ∧ c ≤ 57) →
      c ∉ [33, 64, 35, 36, 37, 94, 38, 42, 40, 41] →
      c ∉ [9, 32, 10, 13, 8, 27] →
      c ∉ [45, 61, 91, 93, 92, 59, 39, 96, 44, 46, 47] →
      c ∉ [95, 43, 123, 125, 124, 58, 34, 126, 60, 62, 63] →
      map_character c = none) :=
  ⟨by decide, by decide, by decide, by decide, by decide, by decide, by decide,
    map_character_unlisted c⟩

/-- Claim C21, instances: the bytes 0x7F, 0x00, 0xE9 (233, or -23 as a signed `char`) and the
vertical tab (11) have no mapping; the backslash pair maps to usage 0x31. -/
theorem map_character_controls_punctuation_witness :
    map_character 127 = none ∧ map_character 0 = none ∧ map_character 233 = none ∧
    map_character (-23) = none ∧ map_character 11 = none ∧
    map_character 92 = some ⟨0x31, false⟩ ∧ map_character 124 = some ⟨0x31, true⟩ :=
  ⟨(map_character_controls_punctuation 127).2.2.2.2.2.2.2 (by decide) (by decide) (by decide)
      (by decide) (by decide) (by decide) (by decide),
    (map_character_controls_punctuation 0).2.2.2.2.2.2.2 (by decide) (by decide) (by decide)
      (by decide) (by decide) (by decide) (by decide),
    (map_character_controls_punctuation 233).2.2.2.2.2.2.2 (by decide) (by decide) (by decide)
      (by decide) (by decide) (by decide) (by decide),
    (map_character_controls_punctuation (-23)).2.2.2.2.2.2.2 (by decide) (by decide)
      (by decide) (by decide) (by decide) (by decide) (by decide),
    (map_character_controls_punctuation 11).2.2.2.2.2.2.2 (by decide) (by decide) (by decide)
      (by decide) (by decide) (by decide) (by decide),
    ((map_character_controls_punctuation 0).2.2.2.2.2.2.1 ((92, 124), 0x31) (by decide)).1,
    ((map_character_controls_punctuation 0).2.2.2.2.2.2.1 ((92, 124), 0x31) (by decide)).2⟩

namespace Ble

/-! ## Character table of the BLE variant -/

theorem lookupKeyboardStroke_outside (c : Int) (h : c < 8 ∨ 126 < c) :
    lookupKeyboardStroke c = none := by
  have ht : lookupFromTable c = none := by
    simp only [lookupFromTable, Option.map_eq_none', List.find?_eq_none, stroke_table,
      List.mem_cons, List.mem_singleton, List.not_mem_nil, or_false, forall_eq_or_imp,
      forall_eq, decide_eq_true_eq]
    omega
  unfold lookupKeyboardStroke
  rw [if_neg (by omega), if_neg (by omega), ht]

theorem lookupKeyboardStroke_eq_map_character (c : Int) (h : c ≠ 27) :
    lookupKeyboardStroke c =
      (map_character c).map
        (fun k => ⟨k.keycode, if k.requires_shift then 0x02 else 0x00⟩) := by
  by_cases ho : c < 8 ∨ 126 < c
  · rw [lookupKeyboardStroke_outside c ho, map_character_outside c ho]
    rfl
  · have h1 : 8 ≤ c := by omega
    have h2 : c ≤ 126 := by omega
    interval_cases c <;> first | exact absurd rfl h | rfl

/-- Claim C22 as stated fails: the escape character (27) has a mapping in the classic table,
usage 0x29 without shift, and none in the BLE table. -/
theorem escape_only_in_classic_table_counterexample :
    map_character 27 = some ⟨0x29, false⟩ ∧ lookupKeyboardStroke 27 = none ∧
    (lookupKeyboardStroke 27).isSome ≠ (map_character 27).isSome := by
  decide

/-- Claim C22, amended: for every character other than escape (27), `lookupKeyboardStroke`
of the BLE variant is defined exactly when `map_character` of the classic variant is, and
then both give the same usage code and the BLE modifiers are 0x02 when `requires_shift` is
true and 0x00 otherwise; escape is mapped by the classic table only. -/
theorem tables_agree_except_escape (c : Int) (h : c ≠ 27) :
    lookupKeyboardStroke c =
      (map_character c).map
        (fun k => ⟨k.keycode, if k.requires_shift then 0x02 else 0x00⟩) ∧
    ((lookupKeyboardStroke c).isSome = (map_character c).isSome) ∧
    (∀ k stroke, map_character c = some k → lookupKeyboardStroke c = some stroke →
      stroke.usage = k.keycode ∧
      stroke.modifiers = if k.requires_shift then 0x02 else 0x00) := by
  have e := lookupKeyboardStroke_eq_map_character c h
  refine ⟨e, ?_, ?_⟩
  · rw [e]
    cases map_character c <;> rfl
  · intro k stroke hk hs
    rw [e, hk] at hs
    cases hs
    exact ⟨rfl, rfl⟩

/-- Claim C22, amended, instances: the letters H and i, the exclamation mark, the carriage
return and an unmapped byte. -/
theorem tables_agree_except_escape_witness :
    lookupKeyboardStroke 72 = some ⟨0x0B, 0x02⟩ ∧ map_character 72 = some ⟨0x0B, true⟩ ∧
    lookupKeyboardStroke 105 = some ⟨0x0C, 0x00⟩ ∧
    lookupKeyboardStroke 33 = some ⟨0x1E, 0x02⟩ ∧
    lookupKeyboardStroke 13 = some ⟨0x28, 0x00⟩ ∧
    (lookupKeyboardStroke 200).isSome = (map_character 200).isSome :=
  ⟨(tables_agree_except_escape 72 (by decide)).1, by decide,
    (tables_agree_except_escape 105 (by decide)).1,
    (tables_agree_except_escape 33 (by decide)).1,
    (tables_agree_except_escape 13 (by decide)).1,
    (tables_agree_except_escape 200 (by decide)).2.1⟩

/-! ## Pointer walk of the BLE variant -/

theorem ceil_div_step (a k : Nat) (hk : 1 ≤ k) (ha : 1 ≤ a) :
    (a + k - 1) / k = (a - min a k + k - 1) / k + 1 := by
  have e : a + k - 1 = (a - 1) + k := by omega
  rw [e, Nat.add_div_right _ (by omega)]
  by_cases h : a ≤ k
  · have e1 : a - min a k + k - 1 = k - 1 := by omega
    rw [e1, Nat.div_eq_of_lt (by omega), Nat.div_eq_of_lt (by omega)]
  · have e1 : a - min a k + k - 1 = a - 1 := by omega
    rw [e1]

theorem ceil_div_zero (a k : Nat) (hk : 1 ≤ k) (h : (a + k - 1) / k = 0) : a = 0 := by
  by_contra ha
  rw [ceil_div_step a k hk (by omega)] at h
  exact Nat.succ_ne_zero _ h

theorem clamp_symmetric (v : Int) (k : Nat) :
    clamp v (-(k : Int)) k =
      some (if v < -(k : Int) then -(k : Int) else if (k : Int) < v then (k : Int) else v) := by
  unfold clamp
  rw [if_neg (by omega)]

theorem to_uint8_to_int8_small (z : Int) (h1 : -127 ≤ z) (h2 : z ≤ 127) :
    to_uint8 (to_int8 z) = (z % 256).toNat := by
  have : to_int8 z = z := by unfold to_int8; omega
  rw [this, to_uint8]

theorem movePointer_loop_rest (m : Int) (s : BleServer) (fuel : Nat) :
    movePointer_loop m fuel s 0 0 = Outcome.finished s := by
  cases fuel <;> simp [movePointer_loop]

theorem movePointer_loop_finishes (k : Nat) (hk : 1 ≤ k) (hk2 : k ≤ 127) :
    ∀ (fuel : Nat) (s : BleServer) (dx dy : Int),
      (max dx.natAbs dy.natAbs + k - 1) / k ≤ fuel →
      ∃ steps : List (Int × Int),
        movePointer_loop k fuel s dx dy =
          Outcome.finished
            { s with
              trace := s.trace ++ steps.flatMap (fun st =>
                [BleEvent.notifyValue Characteristic.mouseInput
                   [0x02, 0x00, (st.1 % 256).toNat, (st.2 % 256).toNat, 0],
                 BleEvent.notifyValue Characteristic.bootMouseInput
                   [0x00, (st.1 % 256).toNat, (st.2 % 256).toNat],
                 BleEvent.sleep_ms s.config.safety.mouseMoveDelayMs]),
              lastPointerX := s.lastPointerX + dx,
              lastPointerY := s.lastPointerY + dy } ∧
        steps.length = (max dx.natAbs dy.natAbs + k - 1) / k ∧
        (steps.map Prod.fst).sum = dx ∧ (steps.map Prod.snd).sum = dy ∧
        ∀ st ∈ steps, -(k : Int) ≤ st.1 ∧ st.1 ≤ k ∧ -(k : Int) ≤ st.2 ∧ st.2 ≤ k := by
  have hstop : ∀ (fuel : Nat) (s : BleServer) (dx dy : Int), dx = 0 → dy = 0 →
      ∃ steps : List (Int × Int),
        movePointer_loop k fuel s dx dy =
          Outcome.finished
            { s with
              trace := s.trace ++ steps.flatMap (fun st =>
                [BleEvent.notifyValue Characteristic.mouseInput
                   [0x02, 0x00, (st.1 % 256).toNat, (st.2 % 256).toNat, 0],
                 BleEvent.notifyValue Characteristic.bootMouseInput
                   [0x00, (st.1 % 256).toNat, (st.2 % 256).toNat],
                 BleEvent.sleep_ms s.config.safety.mouseMoveDelayMs]),
              lastPointerX := s.lastPointerX + dx,
              lastPointerY := s.lastPointerY + dy } ∧
        steps.length = (max dx.natAbs dy.natAbs + k - 1) / k ∧
        (steps.map Prod.fst).sum = dx ∧ (steps.map Prod.snd).sum = dy ∧
        ∀ st ∈ steps, -(k : Int) ≤ st.1 ∧ st.1 ≤ k ∧ -(k : Int) ≤ st.2 ∧ st.2 ≤ k := by
    intro fuel s dx dy hx hy
    subst hx
    subst hy
    refine ⟨[], ?_, ?_, rfl, rfl, fun st h => absurd h (List.not_mem_nil _)⟩
    · rw [movePointer_loop_rest]
      simp
    · show 0 = (max (0 : Int).natAbs (0 : Int).natAbs + k - 1) / k
      have e : max (0 : Int).natAbs (0 : Int).natAbs + k - 1 = k - 1 := by simp
      rw [e, Nat.div_eq_of_lt (by omega)]
  intro fuel
  induction fuel with
  | zero =>
    intro s dx dy hN
    have h0 := ceil_div_zero _ k hk (Nat.le_zero.mp hN)
    exact hstop 0 s dx dy (by omega) (by omega)
  | succ fuel ih =>
    intro s dx dy hN
    by_cases hz : dx = 0 ∧ dy = 0
    · exact hstop (fuel + 1) s dx dy hz.1 hz.2
    · have hnz : dx ≠ 0 ∨ dy ≠ 0 := by omega
      have ha : 1 ≤ max dx.natAbs dy.natAbs := by omega
      have hstep := ceil_div_step (max dx.natAbs dy.natAbs) k hk ha
      obtain ⟨sx, hsx⟩ : ∃ sx : Int,
          sx = if dx < -(k : Int) then -(k : Int) else if (k : Int) < dx then (k : Int) else dx :=
        ⟨_, rfl⟩
      obtain ⟨sy, hsy⟩ : ∃ sy : Int,
          sy = if dy < -(k : Int) then -(k : Int) else if (k : Int) < dy then (k : Int) else dy :=
        ⟨_, rfl⟩
      have bx : -(k : Int) ≤ sx ∧ sx ≤ k := by rw [hsx]; split_ifs <;> omega
      have by1 : -(k : Int) ≤ sy ∧ sy ≤ k := by rw [hsy]; split_ifs <;> omega
      have hrem : max (dx - sx).natAbs (dy - sy).natAbs =
          max dx.natAbs dy.natAbs - min (max dx.natAbs dy.natAbs) k := by
        rw [hsx, hsy]
        split_ifs <;> omega
      have hN2 : (max (dx - sx).natAbs (dy - sy).natAbs + k - 1) / k ≤ fuel := by
        rw [hrem]
        omega
      obtain ⟨steps, hrun, hlen, hsumx, hsumy, hbound⟩ :=
        ih { s with
            trace := s.trace ++
              [BleEvent.notifyValue Characteristic.mouseInput
                 [0x02, 0x00, (sx % 256).toNat, (sy % 256).toNat, 0],
               BleEvent.notifyValue Characteristic.bootMouseInput
                 [0x00, (sx % 256).toNat, (sy % 256).toNat],
               BleEvent.sleep_ms s.config.safety.mouseMoveDelayMs],
            lastPointerX := s.lastPointerX + sx,
            lastPointerY := s.lastPointerY + sy } (dx - sx) (dy - sy) hN2
      refine ⟨(sx, sy) :: steps, ?_, ?_, ?_, ?_, ?_⟩
      · rw [movePointer_loop, if_pos hnz, clamp_symmetric, clamp_symmetric, ← hsx, ← hsy]
        have ex := to_uint8_to_int8_small sx (by omega) (by omega)
        have ey := to_uint8_to_int8_small sy (by omega) (by omega)
        have ez : to_uint8 0 = 0 := rfl
        simp only [makeMouseReport, ex, ey, ez, List.getD_cons_succ, List.getD_cons_zero]
        rw [hrun]
        simp [List.flatMap_cons, add_assoc]
      · rw [List.length_cons, hlen, hrem, hstep]
      · simp only [List.map_cons, List.sum_cons, hsumx]
        omega
      · simp only [List.map_cons, List.sum_cons, hsumy]
        omega
      · intro st hst
        rcases List.mem_cons.mp hst with rfl | hst
        · exact ⟨bx.1, bx.2, by1.1, by1.2⟩
        · exact hbound st hst

theorem to_int32_small (n : Nat) (h : n ≤ 2147483647) : to_int32 n = n := by
  unfold to_int32
  omega

/-- Claim C23: for every tracked position, every target whose deltas fit in `int` and every
`mouse_step_limit` L with `1 ≤ L ≤ 2^31 - 1`, `movePointerInternal` returns after exactly
`ceil (max |dx| |dy| / min L 127)` passes of its loop (any budget of at least that many
passes suffices); each pass publishes one mouse report, the per-axis sums of the step deltas
are the deltas to the target, every step lies within `min L 127`, and on return the tracked
position is the target; when the target is the tracked position nothing is published. -/
theorem pointer_walk_reaches_target (s : BleServer) (x y : Int) (fuel : Nat)
    (hL1 : 1 ≤ s.config.safety.mouseStepLimit)
    (hL2 : s.config.safety.mouseStepLimit ≤ 2147483647)
    (hx : in_int (x - s.lastPointerX) = true) (hy : in_int (y - s.lastPointerY) = true)
    (hfuel : (max (x - s.lastPointerX).natAbs (y - s.lastPointerY).natAbs
        + min s.config.safety.mouseStepLimit 127 - 1)
      / min s.config.safety.mouseStepLimit 127 ≤ fuel) :
    (∃ steps : List (Int × Int),
      movePointerInternal fuel s x y =
        Outcome.finished
          { s with
            trace := s.trace ++ steps.flatMap (fun st =>
              [BleEvent.notifyValue Characteristic.mouseInput
                 [0x02, 0x00, (st.1 % 256).toNat, (st.2 % 256).toNat, 0],
               BleEvent.notifyValue Characteristic.bootMouseInput
                 [0x00, (st.1 % 256).toNat, (st.2 % 256).toNat],
               BleEvent.sleep_ms s.config.safety.mouseMoveDelayMs]),
            lastPointerX := x,
            lastPointerY := y } ∧
      steps.length =
        (max (x - s.lastPointerX).natAbs (y - s.lastPointerY).natAbs
          + min s.config.safety.mouseStepLimit 127 - 1)
        / min s.config.safety.mouseStepLimit 127 ∧
      (steps.map Prod.fst).sum = x - s.lastPointerX ∧
      (steps.map Prod.snd).sum = y - s.lastPointerY ∧
      ∀ st ∈ steps,
        st.1.natAbs ≤ min s.config.safety.mouseStepLimit 127 ∧
        st.2.natAbs ≤ min s.config.safety.mouseStepLimit 127) ∧
    (x = s.lastPointerX → y = s.lastPointerY → movePointerInternal fuel s x y =
      Outcome.finished s) := by
  have hk1 : 1 ≤ min s.config.safety.mouseStepLimit 127 := by omega
  have hk2 : min s.config.safety.mouseStepLimit 127 ≤ 127 := by omega
  have hmax : min (to_int32 s.config.safety.mouseStepLimit) 127 =
      ((min s.config.safety.mouseStepLimit 127 : Nat) : Int) := by
    rw [to_int32_small _ hL2]
    omega
  have hunfold : movePointerInternal fuel s x y =
      movePointer_loop ((min s.config.safety.mouseStepLimit 127 : Nat) : Int) fuel s
        (x - s.lastPointerX) (y - s.lastPointerY) := by
    simp only [movePointerInternal, hx, hy, hmax, Bool.and_self, if_true]
  constructor
  · obtain ⟨steps, hrun, hlen, hsx, hsy, hb⟩ :=
      movePointer_loop_finishes _ hk1 hk2 fuel s (x - s.lastPointerX) (y - s.lastPointerY)
        hfuel
    refine ⟨steps, ?_, hlen, hsx, hsy, fun st hst => ?_⟩
    · rw [hunfold, hrun]
      simp
    · have := hb st hst
      omega
  · intro ex ey
    rw [hunfold, ex, ey, sub_self, sub_self, movePointer_loop_rest]

/-- Claim C23, instance: with the default limit 50, moving from (0, 0) to (120, -7) takes
three passes and publishes the mouse reports with steps (50, -7), (50, 0), (20, 0); moving
to the tracked position publishes nothing. -/
theorem pointer_walk_reaches_target_witness :
    (1 ≤ ({} : BleServer).config.safety.mouseStepLimit) ∧
    (({} : BleServer).config.safety.mouseStepLimit ≤ 2147483647) ∧
    in_int (120 - ({} : BleServer).lastPointerX) = true ∧
    in_int (-7 - ({} : BleServer).lastPointerY) = true ∧
    (∃ steps : List (Int × Int),
      movePointerInternal 3 {} 120 (-7) =
        Outcome.finished
          { ({} : BleServer) with
            trace := ({} : BleServer).trace ++ steps.flatMap (fun st =>
              [BleEvent.notifyValue Characteristic.mouseInput
                 [0x02, 0x00, (st.1 % 256).toNat, (st.2 % 256).toNat, 0],
               BleEvent.notifyValue Characteristic.bootMouseInput
                 [0x00, (st.1 % 256).toNat, (st.2 % 256).toNat],
               BleEvent.sleep_ms ({} : BleServer).config.safety.mouseMoveDelayMs]),
            lastPointerX := 120,
            lastPointerY := -7 } ∧
      steps.length =
        (max (120 - ({} : BleServer).lastPointerX).natAbs
            (-7 - ({} : BleServer).lastPointerY).natAbs
          + min ({} : BleServer).config.safety.mouseStepLimit 127 - 1)
        / min ({} : BleServer).config.safety.mouseStepLimit 127 ∧
      (steps.map Prod.fst).sum = 120 - ({} : BleServer).lastPointerX ∧
      (steps.map Prod.snd).sum = -7 - ({} : BleServer).lastPointerY ∧
      ∀ st ∈ steps,
        st.1.natAbs ≤ min ({} : BleServer).config.safety.mouseStepLimit 127 ∧
        st.2.natAbs ≤ min ({} : BleServer).config.safety.mouseStepLimit 127) ∧
    notified Characteristic.mouseInput
      (match movePointerInternal 3 {} 120 (-7) with
        | Outcome.finished t => t.trace
        | _ => []) =
      [[0x02, 0x00, 50, 0xF9, 0], [0x02, 0x00, 50, 0, 0], [0x02, 0x00, 20, 0, 0]] ∧
    movePointerInternal 0 {} 0 0 = Outcome.finished {} :=
  ⟨by decide, by decide, by decide, by decide,
    (pointer_walk_reaches_target {} 120 (-7) 3 (by decide) (by decide) (by decide)
      (by decide) (by decide)).1,
    by decide,
    (pointer_walk_reaches_target {} 0 0 0 (by decide) (by decide) (by decide)
      (by decide) (by decide)).2 rfl rfl⟩

/-- Claim C24, the failing input: with `mouse_step_limit = 2147483649` the conversion to
`int` made by `std::min<int>` gives -2147483647, so `maxStep` is negative and the first pass
of the loop calls `std::clamp` with `hi < lo`, which is undefined; no bounded step is
produced.  For limits up to `2^31 - 1` the bound holds, and zero is replaced by one when the
configuration is loaded. -/
theorem pointer_walk_large_limit_undefined :
    load_mouse_step_limit 2147483649 = 2147483649 ∧
    to_int32 2147483649 = -2147483647 ∧
    min (to_int32 2147483649) 127 = -2147483647 ∧
    clamp 5 (-(min (to_int32 2147483649) 127)) (min (to_int32 2147483649) 127) = none ∧
    (∀ fuel : Nat,
      movePointerInternal (fuel + 1)
        { config := { safety := { mouseStepLimit := 2147483649 } } } 5 0 =
        Outcome.undefined_behaviour) := by
  refine ⟨by decide, by decide, by decide, by decide, fun fuel => ?_⟩
  rfl

/-! ## Keyboard input of the BLE variant -/

theorem notified_append (c : Characteristic) (a b : List BleEvent) :
    notified c (a ++ b) = notified c a ++ notified c b := by
  induction a with
  | nil => rfl
  | cons e t ih =>
    cases e with
    | notifyValue d value =>
      by_cases h : d = c <;> simp [notified, h, ih]
    | sleep_ms ms => simp [notified, ih]
    | cerr_unsupported ch => simp [notified, ih]

theorem sendText_loop_keyboard (text : List Int) :
    ∀ s : BleServer,
      notified Characteristic.keyboardInput (sendText_loop s text).trace =
        notified Characteristic.keyboardInput s.trace ++ text.flatMap (fun c =>
          if c = 13 then []
          else
            match lookupKeyboardStroke c with
            | none => []
            | some stroke =>
              [[0x01, stroke.modifiers, 0x00, stroke.usage, 0, 0, 0, 0, 0],
               [0x01, 0, 0, 0, 0, 0, 0, 0, 0]]) := by
  induction text with
  | nil => intro s; simp [sendText_loop]
  | cons ch rest ih =>
    intro s
    rw [sendText_loop]
    by_cases hcr : ch = 13
    · simp only [hcr, if_true, List.flatMap_cons, List.nil_append]
      exact ih s
    · simp only [hcr, if_false, List.flatMap_cons]
      cases hk : lookupKeyboardStroke ch with
      | none =>
        simp only []
        rw [ih]
        simp [notified_append, notified]
      | some stroke =>
        simp only []
        rw [ih]
        simp [notified_append, notified, makeKeyboardReport, makeKeyboardReleaseReport]

theorem length_sendText_frames (text : List Int) :
    (text.flatMap (fun c =>
      if c = 13 then []
      else
        match lookupKeyboardStroke c with
        | none => []
        | some stroke =>
          [[0x01, stroke.modifiers, 0x00, stroke.usage, 0, 0, 0, 0, 0],
           [0x01, 0, 0, 0, 0, 0, 0, 0, (0 : Nat)]])).length =
    2 * text.countP (fun c => decide (c ≠ 13) && (lookupKeyboardStroke c).isSome) := by
  induction text with
  | nil => rfl
  | cons ch rest ih =>
    simp only [List.flatMap_cons, List.length_append, ih, List.countP_cons]
    by_cases hcr : ch = 13
    · simp [hcr]
    · cases hk : lookupKeyboardStroke ch
      · simp [hcr]
      · simp [hcr]
        omega

/-- Claim C25 as stated fails: the carriage return (13) has a mapping in the BLE table,
usage 0x28, but `sendText` of a text made of it publishes nothing on the keyboard input
report characteristic. -/
theorem sendText_skips_carriage_return_counterexample :
    ({} : BleServer).config.keyboard_enabled = true ∧
    lookupKeyboardStroke 13 = some ⟨0x28, 0x00⟩ ∧
    sendText {} [13] = Outcome.finished {} ∧
    notified Characteristic.keyboardInput
      (match sendText {} [13] with
        | Outcome.finished t => t.trace
        | _ => []) = [] := by
  decide

/-- Claim C25, amended: with the keyboard enabled, `sendText` returns and publishes on the
keyboard input report characteristic exactly `2 * k` values, where `k` is the number of
characters other than the carriage return (13) that have a mapping in `lookupKeyboardStroke`;
for each of them it publishes the press report `[0x01, modifiers, 0x00, usage, 0, 0, 0, 0, 0]`
followed by the release report `[0x01, 0, 0, 0, 0, 0, 0, 0, 0]`; a carriage return is skipped. -/
theorem sendText_reports (s : BleServer) (text : List Int)
    (hen : s.config.keyboard_enabled = true) :
    ∃ t : BleServer,
      sendText s text = Outcome.finished t ∧
      notified Characteristic.keyboardInput t.trace =
        notified Characteristic.keyboardInput s.trace ++ text.flatMap (fun c =>
          if c = 13 then []
          else
            match lookupKeyboardStroke c with
            | none => []
            | some stroke =>
              [[0x01, stroke.modifiers, 0x00, stroke.usage, 0, 0, 0, 0, 0],
               [0x01, 0, 0, 0, 0, 0, 0, 0, 0]]) ∧
      (notified Characteristic.keyboardInput t.trace).length =
        (notified Characteristic.keyboardInput s.trace).length +
          2 * text.countP (fun c => decide (c ≠ 13) && (lookupKeyboardStroke c).isSome) := by
  refine ⟨sendText_loop s text, by simp [sendText, hen], sendText_loop_keyboard text s, ?_⟩
  rw [sendText_loop_keyboard, List.length_append, length_sendText_frames]

/-- Claim C25, amended, instance: the text H, carriage return, escape, line feed publishes
the press and release reports of H (0x0B with left shift) and of the line feed (0x28). -/
theorem sendText_reports_witness :
    ({} : BleServer).config.keyboard_enabled = true ∧
    (∃ t : BleServer,
      sendText {} [72, 13, 27, 10] = Outcome.finished t ∧
      notified Characteristic.keyboardInput t.trace =
        [[0x01, 0x02, 0x00, 0x0B, 0, 0, 0, 0, 0], [0x01, 0, 0, 0, 0, 0, 0, 0, 0],
         [0x01, 0x00, 0x00, 0x28, 0, 0, 0, 0, 0], [0x01, 0, 0, 0, 0, 0, 0, 0, 0]]) := by
  refine ⟨rfl, ?_⟩
  obtain ⟨t, h1, h2, _⟩ := sendText_reports {} [72, 13, 27, 10] rfl
  exact ⟨t, h1, by rw [h2]; decide⟩

end Ble

/-! ## Report descriptors -/

/-- Claim C26, the failing input: `hid_report_descriptor`, the array registered in the SDP
record of the classic variant, has 63 bytes and is a single Usage Keyboard application
collection: the Collection byte 0xA1 and the End Collection byte 0xC0 occur once each, the
Report ID byte 0x85 and the Usage Mouse item `[0x09, 0x02]` never.  It holds the 5-bit LED
output field.  `hidReportMap` of the BLE variant has 101 bytes, declares the keyboard with
Report ID 1 and the mouse with Report ID 2 and has no Output item; the two sequences are not
equal. -/
theorem classic_descriptor_keyboard_only :
    hid_report_descriptor.length = 63 ∧
    [0x05, 0x01, 0x09, 0x06, 0xA1, 0x01] <+: hid_report_descriptor ∧
    hid_report_descriptor.count 0xA1 = 1 ∧
    hid_report_descriptor.count 0xC0 = 1 ∧
    0x85 ∉ hid_report_descriptor ∧
    (∀ n, n < hid_report_descriptor.length →
      (hid_report_descriptor.drop n).take 2 ≠ [0x09, 0x02]) ∧
    [0x95, 0x05, 0x75, 0x01, 0x05, 0x08, 0x19, 0x01, 0x29, 0x05, 0x91, 0x02]
      <:+: hid_report_descriptor ∧
    Ble.hidReportMap.length = 101 ∧
    [0x09, 0x06, 0xA1, 0x01, 0x85, 0x01] <:+: Ble.hidReportMap ∧
    [0x09, 0x02, 0xA1, 0x01, 0x85, 0x02] <:+: Ble.hidReportMap ∧
    (∀ b ∈ [0x90, 0x91, 0x92, 0x93], b ∉ Ble.hidReportMap) ∧
    hid_report_descriptor ≠ Ble.hidReportMap :=
  ⟨by decide,
    ⟨hid_report_descriptor.drop 6, by decide⟩,
    by decide,
    by decide,
    by decide,
    by decide,
    ⟨hid_report_descriptor.take 28, hid_report_descriptor.drop 40, by decide⟩,
    by decide,
    ⟨Ble.hidReportMap.take 2, Ble.hidReportMap.drop 8, by decide⟩,
    ⟨Ble.hidReportMap.take 49, Ble.hidReportMap.drop 55, by decide⟩,
    by decide,
    by decide⟩

/-! ## Escapes of the TYPE command -/

theorem decode_cons_plain (c : Int) (t : List Int) (h : c ≠ 92) :
    decode_escape_sequences (c :: t) = c :: decode_escape_sequences t := by
  cases t with
  | nil => rfl
  | cons next rest => rw [decode_escape_sequences, if_neg h]

theorem decode_escape_text (s : List Int) : decode_escape_sequences (escape_text s) = s := by
  induction s with
  | nil => rfl
  | cons c rest ih =>
    rw [escape_text]
    by_cases h1 : c = 92
    · subst h1
      simp [decode_escape_sequences, ih]
    · by_cases h2 : c = 10
      · subst h2
        simp [decode_escape_sequences, ih]
      · by_cases h3 : c = 13
        · subst h3
          simp [decode_escape_sequences, ih]
        · by_cases h4 : c = 9
          · subst h4
            simp [decode_escape_sequences, ih]
          · simp only [h1, h2, h3, h4, if_false, List.singleton_append]
            rw [decode_cons_plain c _ h1, ih]

theorem escape_text_no_raw (s : List Int) (c : Int) (hc : c = 10 ∨ c = 13 ∨ c = 9) :
    c ∉ escape_text s := by
  induction s with
  | nil => simp [escape_text]
  | cons d rest ih =>
    rw [escape_text]
    intro hmem
    rcases List.mem_append.mp hmem with h | h
    · split_ifs at h <;> simp at h <;> omega
    · exact ih h

/-- Claim C29: for every string, decoding the escaped text gives the string back, and the
escaped text contains no raw line feed (10), carriage return (13) or tab (9), so the command
line `TYPE`, space, escaped text contains no line feed before the terminator that
`send_command` appends. -/
theorem escape_round_trip (s : List Int) :
    decode_escape_sequences (escape_text s) = s ∧
    10 ∉ escape_text s ∧ 13 ∉ escape_text s ∧ 9 ∉ escape_text s ∧
    10 ∉ type_command_line s ∧ 13 ∉ type_command_line s := by
  refine ⟨decode_escape_text s, escape_text_no_raw s 10 (by omega),
    escape_text_no_raw s 13 (by omega), escape_text_no_raw s 9 (by omega), ?_, ?_⟩
  · intro h
    rcases List.mem_append.mp h with h | h
    · revert h
      decide
    · exact escape_text_no_raw s 10 (by omega) h
  · intro h
    rcases List.mem_append.mp h with h | h
    · revert h
      decide
    · exact escape_text_no_raw s 13 (by omega) h

namespace HidServer

/-! ## SET_REPORT messages that store nothing -/

theorem handle_set_report_no_payload_eq (w : Sys) (H : Nat) (hH : H &&& 0xF0 = 0x50) :
    handle_control_message w [H] =
      { w with trace := w.trace ++ [Event.send w.srv.control_client_fd [0x00]] } := by
  simp [handle_control_message, hH, send_control, HID_MSG_TYPE_CONTROL,
    HID_MSG_TYPE_SET_PROTOCOL, HID_MSG_TYPE_GET_PROTOCOL, HID_MSG_TYPE_SET_REPORT,
    HID_HANDSHAKE_SUCCESS]

theorem handle_set_report_only_id_eq (w : Sys) (H id : Nat) (hH : H &&& 0xF0 = 0x50)
    (hF : (H &&& 0x0F) &&& 0x08 ≠ 0) :
    handle_control_message w [H, id] =
      { w with trace := w.trace ++ [Event.send w.srv.control_client_fd [0x00]] } := by
  simp [handle_control_message, hH, hF, send_control, HID_MSG_TYPE_CONTROL,
    HID_MSG_TYPE_SET_PROTOCOL, HID_MSG_TYPE_GET_PROTOCOL, HID_MSG_TYPE_SET_REPORT,
    HID_HANDSHAKE_SUCCESS]

theorem handle_set_report_other_type_eq (w : Sys) (H : Nat) (payload : List Nat)
    (hH : H &&& 0xF0 = 0x50) (hT : (H &&& 0x0F) &&& 0x03 ≠ 0x02) :
    handle_control_message w (H :: payload) =
      { w with trace := w.trace ++ [Event.send w.srv.control_client_fd [0x00]] } := by
  simp [handle_control_message, hH, hT, send_control, HID_MSG_TYPE_CONTROL,
    HID_MSG_TYPE_SET_PROTOCOL, HID_MSG_TYPE_GET_PROTOCOL, HID_MSG_TYPE_SET_REPORT,
    HID_HANDSHAKE_SUCCESS]

theorem handle_set_report_other_id_eq (w : Sys) (H id : Nat) (rest : List Nat)
    (hH : H &&& 0xF0 = 0x50) (hF : (H &&& 0x0F) &&& 0x08 ≠ 0) (hid : id ≠ 0x01) :
    handle_control_message w (H :: id :: rest) =
      { w with trace := w.trace ++ [Event.send w.srv.control_client_fd [0x00]] } := by
  simp [handle_control_message, hH, hF, hid, send_control, HID_MSG_TYPE_CONTROL,
    HID_MSG_TYPE_SET_PROTOCOL, HID_MSG_TYPE_GET_PROTOCOL, HID_MSG_TYPE_SET_REPORT,
    HID_HANDSHAKE_SUCCESS, kKeyboardReportId]

/-- Claim C27: a SET_REPORT message (header type 0x50) leaves every field of the server
unchanged and is answered by the single byte 0x00 when it has no payload byte, when the
has-report-ID flag is set and only the ID byte follows, when the report type is not 0x02, or
when the flag is set and the ID byte is not 0x01. -/
theorem set_report_without_effect (w : Sys) (H : Nat) (payload : List Nat)
    (hH : H &&& 0xF0 = 0x50)
    (hcase : payload = [] ∨
      ((H &&& 0x0F) &&& 0x08 ≠ 0 ∧ payload.length = 1) ∨
      (H &&& 0x0F) &&& 0x03 ≠ 0x02 ∨
      ((H &&& 0x0F) &&& 0x08 ≠ 0 ∧ ∃ id rest, payload = id :: rest ∧ id ≠ 0x01)) :
    handle_control_message w (H :: payload) =
      { w with trace := w.trace ++ [Event.send w.srv.control_client_fd [0x00]] } ∧
    (handle_control_message w (H :: payload)).srv = w.srv ∧
    led_state (handle_control_message w (H :: payload)).srv = led_state w.srv ∧
    current_protocol (handle_control_message w (H :: payload)).srv = current_protocol w.srv ∧
    is_connected (handle_control_message w (H :: payload)).srv = is_connected w.srv ∧
    sent (handle_control_message w (H :: payload)).trace =
      sent w.trace ++ [(w.srv.control_client_fd, [0x00])] := by
  have e : handle_control_message w (H :: payload) =
      { w with trace := w.trace ++ [Event.send w.srv.control_client_fd [0x00]] } := by
    rcases hcase with h | ⟨hF, hlen⟩ | hT | ⟨hF, id, rest, hp, hid⟩
    · rw [h]
      exact handle_set_report_no_payload_eq w H hH
    · obtain ⟨id, hp⟩ := List.length_eq_one.mp hlen
      rw [hp]
      exact handle_set_report_only_id_eq w H id hH hF
    · exact handle_set_report_other_type_eq w H payload hH hT
    · rw [hp]
      exact handle_set_report_other_id_eq w H id rest hH hF hid
  rw [e]
  exact ⟨rfl, rfl, rfl, rfl, rfl, by simp [sent_append, sent]⟩

/-- Claim C27, instances on a connected server whose LED byte is 5: header 0x52 alone,
header 0x5A with only the ID byte, a feature report (type 0x03), and an output report for
report ID 2. -/
theorem set_report_without_effect_witness :
    (0x52 &&& 0xF0 = 0x50) ∧ (0x5A &&& 0xF0 = 0x50) ∧ (0x53 &&& 0xF0 = 0x50) ∧
    ((0x5A &&& 0x0F) &&& 0x08 ≠ 0) ∧ ((0x53 &&& 0x0F) &&& 0x03 ≠ 0x02) ∧
    led_state (handle_control_message
      { connected_fresh with srv := { connected_fresh.srv with led_status := 5 } }
      [0x52]).srv = 5 ∧
    led_state (handle_control_message
      { connected_fresh with srv := { connected_fresh.srv with led_status := 5 } }
      [0x5A, 0x01]).srv = 5 ∧
    led_state (handle_control_message
      { connected_fresh with srv := { connected_fresh.srv with led_status := 5 } }
      [0x53, 0x07]).srv = 5 ∧
    led_state (handle_control_message
      { connected_fresh with srv := { connected_fresh.srv with led_status := 5 } }
      [0x5A, 0x02, 0x07]).srv = 5 ∧
    sent (handle_control_message
      { connected_fresh with srv := { connected_fresh.srv with led_status := 5 } }
      [0x5A, 0x02, 0x07]).trace = [(5, [0x00])] :=
  ⟨by decide, by decide, by decide, by decide, by decide,
    (set_report_without_effect _ 0x52 [] (by decide) (Or.inl rfl)).2.2.1,
    (set_report_without_effect _ 0x5A [0x01] (by decide)
      (Or.inr (Or.inl ⟨by decide, rfl⟩))).2.2.1,
    (set_report_without_effect _ 0x53 [0x07] (by decide)
      (Or.inr (Or.inr (Or.inl (by decide))))).2.2.1,
    (set_report_without_effect _ 0x5A [0x02, 0x07] (by decide)
      (Or.inr (Or.inr (Or.inr ⟨by decide, 0x02, [0x07], rfl, by decide⟩)))).2.2.1,
    (set_report_without_effect _ 0x5A [0x02, 0x07] (by decide)
      (Or.inr (Or.inr (Or.inr ⟨by decide, 0x02, [0x07], rfl, by decide⟩)))).2.2.2.2.2⟩

/-! ## The control thread after a connection has ended -/

/-- Claim C28, the failing input: after start, a control accept (5), an interrupt accept (6)
and a pass of the control loop whose `recv` returns no data, the loop has ended and the
server is reset while `control_thread_` is still joinable; the next control accept (7)
therefore starts no thread, and a control peer is attached with no control loop running.
The same happens when the first connection ends with a Virtual Cable Unplug message. -/
theorem control_loop_not_restarted :
    (run_worker (env_all_ok 1) worker_init
      [WorkerAction.start (some 3) (some 4), WorkerAction.accept_control 5,
       WorkerAction.accept_interrupt 6]).control_loop_running = true ∧
    (run_worker (env_all_ok 1) worker_init
      [WorkerAction.start (some 3) (some 4), WorkerAction.accept_control 5,
       WorkerAction.accept_interrupt 6, WorkerAction.control_recv [],
       WorkerAction.accept_control 7]) =
      { sys :=
          { srv := { control_listen_fd := 3, interrupt_listen_fd := 4,
                     control_client_fd := 7, interrupt_client_fd := -1,
                     running := true, connected := false, protocol_mode := 1,
                     led_status := 0 },
            trace := [Event.close 5, Event.close 6], sends := 0 },
        control_thread_joinable := true,
        control_loop_running := false } ∧
    (run_worker (env_all_ok 1) worker_init
      [WorkerAction.start (some 3) (some 4), WorkerAction.accept_control 5,
       WorkerAction.accept_interrupt 6, WorkerAction.control_recv [0x15],
       WorkerAction.control_recv [0x60], WorkerAction.accept_control 7,
       WorkerAction.accept_interrupt 8]).sys.srv.connected = true ∧
    (run_worker (env_all_ok 1) worker_init
      [WorkerAction.start (some 3) (some 4), WorkerAction.accept_control 5,
       WorkerAction.accept_interrupt 6, WorkerAction.control_recv [0x15],
       WorkerAction.control_recv [0x60], WorkerAction.accept_control 7,
       WorkerAction.accept_interrupt 8]).control_loop_running = false := by
  decide

/-! ## Protocol mode -/

theorem handle_set_report_protocol (w : Sys) (H : Nat) (payload : List Nat)
    (hH : H &&& 0xF0 = 0x50) :
    (handle_control_message w (H :: payload)).srv.protocol_mode = w.srv.protocol_mode := by
  have e1 : ¬ ((0x50 : Nat) = 0x10) := by decide
  have e2 : ¬ ((0x50 : Nat) = 0x70) := by decide
  have e3 : ¬ ((0x50 : Nat) = 0x60) := by decide
  simp only [handle_control_message, hH, send_control, HID_MSG_TYPE_CONTROL,
    HID_MSG_TYPE_SET_PROTOCOL, HID_MSG_TYPE_GET_PROTOCOL, HID_MSG_TYPE_SET_REPORT,
    HID_HANDSHAKE_SUCCESS, e1, e2, e3, if_false, if_true]
  split_ifs <;> rfl

theorem handle_control_message_protocol (w : Sys) (data : List Nat) :
    (handle_control_message w data).srv.protocol_mode = w.srv.protocol_mode ∨
    (handle_control_message w data).srv.protocol_mode = 1 ∨
    ∃ H payload, data = H :: payload ∧ H &&& 0xF0 = 0x70 ∧
      (handle_control_message w data).srv.protocol_mode = (H &&& 0x0F) &&& 0x01 := by
  cases data with
  | nil => exact Or.inl rfl
  | cons H payload =>
    by_cases h1 : H &&& 0xF0 = 0x10
    · by_cases hP : H &&& 0x0F = 0x05
      · right
        left
        rw [handle_hid_control_unplug_eq w H payload h1 hP]
        rfl
      · left
        rw [handle_hid_control_other_eq w H payload h1 hP]
    · by_cases h7 : H &&& 0xF0 = 0x70
      · right
        right
        refine ⟨H, payload, rfl, h7, ?_⟩
        rw [handle_set_protocol_eq w H payload h7]
      · left
        by_cases h6 : H &&& 0xF0 = 0x60
        · rw [handle_get_protocol_eq w H payload h6]
        · by_cases h5 : H &&& 0xF0 = 0x50
          · exact handle_set_report_protocol w H payload h5
          · by_cases h4 : H &&& 0xF0 = 0x40
            · rw [handle_get_report_eq w H payload h4]
            · by_cases h0 : H &&& 0xF0 = 0x00
              · rw [handle_handshake_eq w H payload h0]
              · rw [handle_default_eq w H payload h1 h7 h6 h5 h4 h0]

theorem step_protocol (env : Nat → Int) (w : Sys) (a : Action) :
    (step env w a).srv.protocol_mode = w.srv.protocol_mode ∨
    (step env w a).srv.protocol_mode = 1 ∨
    ∃ H payload, H &&& 0xF0 = 0x70 ∧
      (a = Action.control_message (H :: payload) ∨
        ∃ received, a = Action.control_recv received ∧ received.take 128 = H :: payload) ∧
      (step env w a).srv.protocol_mode = (H &&& 0x0F) &&& 0x01 := by
  cases a with
  | start c i =>
    left
    simp only [step, start]
    split_ifs
    · rfl
    · cases c <;> cases i <;> rfl
  | accept_control client =>
    left
    simp only [step, accept_control]
    split_ifs <;> rfl
  | accept_interrupt client =>
    simp only [step, accept_interrupt]
    split_ifs
    · exact Or.inr (Or.inl rfl)
    · exact Or.inl rfl
    · exact Or.inl rfl
  | control_message data =>
    simp only [step]
    rcases handle_control_message_protocol w data with e | e | ⟨H, payload, hd, hH, e⟩
    · exact Or.inl e
    · exact Or.inr (Or.inl e)
    · exact Or.inr (Or.inr ⟨H, payload, hH, Or.inl (by rw [hd]), e⟩)
  | control_recv received =>
    simp only [step, control_loop_iteration]
    split_ifs
    · exact Or.inr (Or.inl rfl)
    · exact Or.inr (Or.inl rfl)
    · exact Or.inr (Or.inl rfl)
    · rcases handle_control_message_protocol w (received.take 128) with
        e | e | ⟨H, payload, hd, hH, e⟩
      · exact Or.inl e
      · exact Or.inr (Or.inl e)
      · exact Or.inr (Or.inr ⟨H, payload, hH, Or.inr ⟨received, rfl, hd⟩, e⟩)
  | control_closed => exact Or.inr (Or.inl rfl)
  | send_packet data =>
    simp only [step]
    rcases send_interrupt_packet_peers env w data with e | e
    · rw [e]
      exact Or.inl rfl
    · rw [e]
      exact Or.inr (Or.inl rfl)
  | force_disconnect => exact Or.inr (Or.inl rfl)
  | stop =>
    simp only [step]
    rcases stop_eq w with e | ⟨v, _, _, e⟩
    · rw [e]
      exact Or.inl rfl
    · rw [e]
      exact Or.inr (Or.inl rfl)

theorem run_protocol (env : Nat → Int) (acts : List Action) :
    (run env sys_init acts).srv.protocol_mode = 0 ∨
    (run env sys_init acts).srv.protocol_mode = 1 := by
  induction acts using List.reverseRecOn with
  | nil => exact Or.inr rfl
  | append_singleton acts a ih =>
    rw [run_append]
    rcases step_protocol env (run env sys_init acts) a with e | e | ⟨H, payload, _, _, e⟩
    · rw [e]
      exact ih
    · exact Or.inr e
    · rw [e]
      have hle : (H &&& 0x0F) &&& 0x01 ≤ 1 := Nat.and_le_right
      omega

theorem foldl_last_writer {σ α : Type} (stp : σ → α → σ) (s0 : σ)
    (Z : σ → Prop) (W N : σ → α → Prop) (h0 : ¬ Z s0)
    (hstep : ∀ v b, Z (stp v b) ↔ W v b ∨ (Z v ∧ N v b)) (acts : List α) :
    Z (acts.foldl stp s0) ↔
      ∃ pre D post, acts = pre ++ D :: post ∧ W (pre.foldl stp s0) D ∧
        ∀ post1 b post2, post = post1 ++ b :: post2 →
          N ((pre ++ D :: post1).foldl stp s0) b := by
  constructor
  · induction acts using List.reverseRecOn with
    | nil =>
      intro h
      exact absurd h h0
    | append_singleton acts b ih =>
      intro h
      rw [List.foldl_append, List.foldl_cons, List.foldl_nil, hstep] at h
      rcases h with hW | ⟨hZ, hN⟩
      · refine ⟨acts, b, [], rfl, hW, ?_⟩
        intro post1 c post2 hsplit
        exact absurd hsplit (by simp)
      · obtain ⟨pre, D, post, hacts, hD, hpost⟩ := ih hZ
        refine ⟨pre, D, post ++ [b], by rw [hacts]; simp, hD, ?_⟩
        intro post1 c post2 hsplit
        rcases List.eq_nil_or_concat post2 with e | ⟨p2, b2, e⟩
        · subst e
          obtain ⟨e1, e2⟩ := List.append_inj' hsplit rfl
          cases e2
          subst e1
          rw [← hacts]
          exact hN
        · subst e
          have h2 : post ++ [b] = (post1 ++ c :: p2) ++ [b2] := by
            rw [hsplit]
            simp
          obtain ⟨e1, _⟩ := List.append_inj' h2 rfl
          exact hpost post1 c p2 e1
  · rintro ⟨pre, D, post, hacts, hD, hpost⟩
    subst hacts
    induction post using List.reverseRecOn with
    | nil =>
      rw [List.foldl_append, List.foldl_cons, List.foldl_nil, hstep]
      exact Or.inl hD
    | append_singleton post b ih =>
      have e : pre ++ D :: (post ++ [b]) = (pre ++ D :: post) ++ [b] := by simp
      rw [e, List.foldl_append, List.foldl_cons, List.foldl_nil, hstep]
      refine Or.inr ⟨ih (fun post1 c post2 hs => hpost post1 c (post2 ++ [b]) ?_), ?_⟩
      · rw [hs]
        simp
      · exact hpost post b [] rfl


theorem handle_control_message_protocol_exact (w : Sys) (H : Nat) (payload : List Nat) :
    (handle_control_message w (H :: payload)).srv.protocol_mode =
      if H &&& 0xF0 = 0x70 then (H &&& 0x0F) &&& 0x01
      else if H &&& 0xF0 = 0x10 ∧ H &&& 0x0F = 0x05 then 1
      else w.srv.protocol_mode := by
  by_cases h7 : H &&& 0xF0 = 0x70
  · rw [if_pos h7, handle_set_protocol_eq w H payload h7]
  · rw [if_neg h7]
    by_cases h1 : H &&& 0xF0 = 0x10
    · by_cases hP : H &&& 0x0F = 0x05
      · rw [if_pos ⟨h1, hP⟩, handle_hid_control_unplug_eq w H payload h1 hP]
        rfl
      · rw [if_neg (fun h => hP h.2), handle_hid_control_other_eq w H payload h1 hP]
    · rw [if_neg (fun h => h1 h.1)]
      by_cases h6 : H &&& 0xF0 = 0x60
      · rw [handle_get_protocol_eq w H payload h6]
      · by_cases h5 : H &&& 0xF0 = 0x50
        · exact handle_set_report_protocol w H payload h5
        · by_cases h4 : H &&& 0xF0 = 0x40
          · rw [handle_get_report_eq w H payload h4]
          · by_cases h0 : H &&& 0xF0 = 0x00
            · rw [handle_handshake_eq w H payload h0]
            · rw [handle_default_eq w H payload h1 h7 h6 h5 h4 h0]

theorem step_protocol_exact (env : Nat → Int) (w : Sys) (a : Action) :
    (step env w a).srv.protocol_mode =
      match a with
      | Action.start _ _ => w.srv.protocol_mode
      | Action.accept_control _ => w.srv.protocol_mode
      | Action.accept_interrupt client =>
        if client ≥ 0 ∧ w.srv.control_client_fd ≥ 0 then 1 else w.srv.protocol_mode
      | Action.control_message [] => w.srv.protocol_mode
      | Action.control_message (H :: _) =>
        if H &&& 0xF0 = 0x70 then (H &&& 0x0F) &&& 0x01
        else if H &&& 0xF0 = 0x10 ∧ H &&& 0x0F = 0x05 then 1
        else w.srv.protocol_mode
      | Action.control_recv received =>
        if w.srv.running = true ∧ w.srv.control_client_fd ≥ 0 then
          match received.take 128 with
          | [] => 1
          | H :: _ =>
            if H &&& 0xF0 = 0x70 then (H &&& 0x0F) &&& 0x01
            else if H &&& 0xF0 = 0x10 ∧ H &&& 0x0F = 0x05 then 1
            else w.srv.protocol_mode
        else 1
      | Action.control_closed => 1
      | Action.send_packet _ =>
        if w.srv.connected = true ∧ env w.sends < 0 then 1 else w.srv.protocol_mode
      | Action.force_disconnect => 1
      | Action.stop =>
        if w.srv.running = false ∧ w.srv.control_listen_fd < 0 ∧
            w.srv.interrupt_listen_fd < 0 then w.srv.protocol_mode
        else 1 := by
  cases a with
  | start c i =>
    simp only [step, start]
    split_ifs
    · rfl
    · cases c <;> cases i <;> rfl
  | accept_control client =>
    simp only [step, accept_control]
    split_ifs <;> rfl
  | accept_interrupt client =>
    simp only [step, accept_interrupt]
    by_cases hc : client ≥ 0
    · by_cases hf : w.srv.control_client_fd ≥ 0
      · rw [if_pos hc, if_pos hf, if_pos ⟨hc, hf⟩]
      · rw [if_pos hc, if_neg hf, if_neg (fun h => hf h.2)]
    · rw [if_neg hc, if_neg (fun h => hc h.1)]
  | control_message data =>
    cases data with
    | nil => rfl
    | cons H payload => exact handle_control_message_protocol_exact w H payload
  | control_recv received =>
    show (control_loop_iteration w received).2.srv.protocol_mode = _
    unfold control_loop_iteration
    cases hr : w.srv.running
    · simp [reset_connection_locked]
    · by_cases hf : w.srv.control_client_fd ≥ 0
      · have hf2 : ¬ w.srv.control_client_fd < 0 := not_lt.mpr hf
        cases hrec : received.take 128 with
        | nil =>
          simp only [hrec]
          simp [hf, reset_connection_locked]
        | cons H payload =>
          simp only [hrec]
          simp only [Bool.not_true, Bool.false_eq_true, if_false, hf2, List.length_cons,
            Nat.le_zero_eq, Nat.succ_ne_zero, hf, and_self, if_true, true_and]
          exact handle_control_message_protocol_exact w H payload
      · have hf2 : w.srv.control_client_fd < 0 := not_le.mp hf
        have hf3 : ¬ 0 ≤ w.srv.control_client_fd := hf
        simp [hf2, hf3, reset_connection_locked]
  | control_closed => rfl
  | send_packet data =>
    simp only [step]
    by_cases hc : w.srv.connected = true
    · by_cases he : env w.sends < 0
      · rw [if_pos ⟨hc, he⟩, send_interrupt_packet_fail env w data hc he]
        rfl
      · rw [if_neg (fun h => he h.2), send_interrupt_packet_ok env w data hc (not_lt.mp he)]
    · rw [if_neg (fun h => hc h.1)]
      have hc2 : w.srv.connected = false := by
        cases h : w.srv.connected
        · rfl
        · exact absurd h hc
      simp only [send_interrupt_packet, ensure_connection_locked, hc2]
      cases w.srv.running <;> rfl
  | force_disconnect => rfl
  | stop =>
    simp only [step, stop]
    by_cases h : w.srv.running = false ∧ w.srv.control_listen_fd < 0 ∧
        w.srv.interrupt_listen_fd < 0
    · rw [if_pos h]
      obtain ⟨h1, h2, h3⟩ := h
      simp [h1, h2, h3]
    · rw [if_neg h]
      split_ifs with h'
      · exfalso
        apply h
        simp only [Bool.and_eq_true, Bool.not_eq_true', decide_eq_true_eq] at h'
        exact ⟨h'.1.1, h'.1.2, h'.2⟩
      all_goals rfl

theorem step_protocol_zero_iff (env : Nat → Int) (v : Sys) (b : Action) :
    (step env v b).srv.protocol_mode = 0 ↔
      (∃ H payload,
        (b = Action.control_message (H :: payload) ∨
          ∃ received, b = Action.control_recv received ∧ v.srv.running = true ∧
            v.srv.control_client_fd ≥ 0 ∧ received.take 128 = H :: payload) ∧
        H &&& 0xF0 = 0x70 ∧ (H &&& 0x0F) &&& 0x01 = 0) ∨
      (v.srv.protocol_mode = 0 ∧
        match b with
        | Action.start _ _ => True
        | Action.accept_control _ => True
        | Action.accept_interrupt client => ¬ (client ≥ 0 ∧ v.srv.control_client_fd ≥ 0)
        | Action.control_message [] => True
        | Action.control_message (G :: _) =>
          G &&& 0xF0 ≠ 0x70 ∧ ¬ (G &&& 0xF0 = 0x10 ∧ G &&& 0x0F = 0x05)
        | Action.control_recv received =>
          v.srv.running = true ∧ v.srv.control_client_fd ≥ 0 ∧
          ∃ G rest, received.take 128 = G :: rest ∧
            G &&& 0xF0 ≠ 0x70 ∧ ¬ (G &&& 0xF0 = 0x10 ∧ G &&& 0x0F = 0x05)
        | Action.control_closed => False
        | Action.send_packet _ => ¬ (v.srv.connected = true ∧ env v.sends < 0)
        | Action.force_disconnect => False
        | Action.stop =>
          v.srv.running = false ∧ v.srv.control_listen_fd < 0 ∧
            v.srv.interrupt_listen_fd < 0) := by
  rw [step_protocol_exact]
  cases b with
  | start c i => simp
  | accept_control client => simp
  | accept_interrupt client =>
    by_cases h : client ≥ 0 ∧ v.srv.control_client_fd ≥ 0
    · simp [h]
    · simp [h]
  | control_message data =>
    cases data with
    | nil => simp
    | cons G rest =>
      by_cases h7 : G &&& 0xF0 = 0x70
      · simp only [if_pos h7]
        constructor
        · intro hb
          exact Or.inl ⟨G, rest, Or.inl rfl, h7, hb⟩
        · rintro (⟨H, payload, hD | ⟨received, hD, _⟩, _, hb⟩ | ⟨_, hn, _⟩)
          · cases hD
            exact hb
          · cases hD
          · exact absurd h7 hn
      · simp only [if_neg h7]
        by_cases hu : G &&& 0xF0 = 0x10 ∧ G &&& 0x0F = 0x05
        · simp only [if_pos hu]
          constructor
          · intro hb
            exact absurd hb (by decide)
          · rintro (⟨H, payload, hD | ⟨received, hD, _⟩, hH, _⟩ | ⟨_, _, hn⟩)
            · cases hD
              exact absurd hH h7
            · cases hD
            · exact absurd hu hn
        · simp only [if_neg hu]
          constructor
          · intro hb
            exact Or.inr ⟨hb, h7, hu⟩
          · rintro (⟨H, payload, hD | ⟨received, hD, _⟩, hH, _⟩ | ⟨hb, _⟩)
            · cases hD
              exact absurd hH h7
            · cases hD
            · exact hb
  | control_recv received =>
    by_cases hg : v.srv.running = true ∧ v.srv.control_client_fd ≥ 0
    · simp only [if_pos hg]
      cases hrec : received.take 128 with
      | nil =>
        simp only [hrec]
        constructor
        · intro hb
          exact absurd hb (by decide)
        · rintro (⟨H, payload, hD | ⟨received2, hD, _, _, hr2⟩, _, _⟩ | ⟨_, _, _, G, rest, hr2, _⟩)
          · cases hD
          · cases hD
            rw [hrec] at hr2
            cases hr2
          · cases hr2
      | cons G rest =>
        simp only [hrec]
        by_cases h7 : G &&& 0xF0 = 0x70
        · simp only [if_pos h7]
          constructor
          · intro hb
            exact Or.inl ⟨G, rest, Or.inr ⟨received, rfl, hg.1, hg.2, hrec⟩, h7, hb⟩
          · rintro (⟨H, payload, hD | ⟨received2, hD, _, _, hr2⟩, _, hb⟩ |
              ⟨_, _, _, G2, rest2, hr2, hn, _⟩)
            · cases hD
            · cases hD
              rw [hrec] at hr2
              cases hr2
              exact hb
            · cases hr2
              exact absurd h7 hn
        · simp only [if_neg h7]
          by_cases hu : G &&& 0xF0 = 0x10 ∧ G &&& 0x0F = 0x05
          · simp only [if_pos hu]
            constructor
            · intro hb
              exact absurd hb (by decide)
            · rintro (⟨H, payload, hD | ⟨received2, hD, _, _, hr2⟩, hH, _⟩ |
                ⟨_, _, _, G2, rest2, hr2, _, hn⟩)
              · cases hD
              · cases hD
                rw [hrec] at hr2
                cases hr2
                exact absurd hH h7
              · cases hr2
                exact absurd hu hn
          · simp only [if_neg hu]
            constructor
            · intro hb
              exact Or.inr ⟨hb, hg.1, hg.2, G, rest, rfl, h7, hu⟩
            · rintro (⟨H, payload, hD | ⟨received2, hD, _, _, hr2⟩, hH, _⟩ | ⟨hb, _⟩)
              · cases hD
              · cases hD
                rw [hrec] at hr2
                cases hr2
                exact absurd hH h7
              · exact hb
    · simp only [if_neg hg]
      constructor
      · intro hb
        exact absurd hb (by decide)
      · rintro (⟨H, payload, hD | ⟨received2, hD, h1, h2, _⟩, _, _⟩ | ⟨_, h1, h2, _⟩)
        · cases hD
        · cases hD
          exact absurd ⟨h1, h2⟩ hg
        · exact absurd ⟨h1, h2⟩ hg
  | control_closed => simp
  | send_packet data =>
    by_cases h : v.srv.connected = true ∧ env v.sends < 0
    · simp [h]
    · simp [h]
  | force_disconnect => simp
  | stop =>
    by_cases h : v.srv.running = false ∧ v.srv.control_listen_fd < 0 ∧
        v.srv.interrupt_listen_fd < 0
    · simp [h]
    · simp [h]

theorem protocol_mode_last_writer (env : Nat → Int) (acts : List Action) :
    (run env sys_init acts).srv.protocol_mode = 0 ↔
      ∃ pre D post, acts = pre ++ D :: post ∧
        (∃ H payload,
          (D = Action.control_message (H :: payload) ∨
            ∃ received, D = Action.control_recv received ∧
              (run env sys_init pre).srv.running = true ∧
              (run env sys_init pre).srv.control_client_fd ≥ 0 ∧
              received.take 128 = H :: payload) ∧
          H &&& 0xF0 = 0x70 ∧ (H &&& 0x0F) &&& 0x01 = 0) ∧
        ∀ post1 b post2, post = post1 ++ b :: post2 →
          match b with
          | Action.start _ _ => True
          | Action.accept_control _ => True
          | Action.accept_interrupt client =>
            ¬ (client ≥ 0 ∧
                (run env sys_init (pre ++ D :: post1)).srv.control_client_fd ≥ 0)
          | Action.control_message [] => True
          | Action.control_message (G :: _) =>
            G &&& 0xF0 ≠ 0x70 ∧ ¬ (G &&& 0xF0 = 0x10 ∧ G &&& 0x0F = 0x05)
          | Action.control_recv received =>
            (run env sys_init (pre ++ D :: post1)).srv.running = true ∧
            (run env sys_init (pre ++ D :: post1)).srv.control_client_fd ≥ 0 ∧
            ∃ G rest, received.take 128 = G :: rest ∧
              G &&& 0xF0 ≠ 0x70 ∧ ¬ (G &&& 0xF0 = 0x10 ∧ G &&& 0x0F = 0x05)
          | Action.control_closed => False
          | Action.send_packet _ =>
            ¬ ((run env sys_init (pre ++ D :: post1)).srv.connected = true ∧
                env (run env sys_init (pre ++ D :: post1)).sends < 0)
          | Action.force_disconnect => False
          | Action.stop =>
            (run env sys_init (pre ++ D :: post1)).srv.running = false ∧
            (run env sys_init (pre ++ D :: post1)).srv.control_listen_fd < 0 ∧
            (run env sys_init (pre ++ D :: post1)).srv.interrupt_listen_fd < 0 :=
  foldl_last_writer (step env) sys_init (fun v => v.srv.protocol_mode = 0)
    (fun v D => ∃ H payload,
      (D = Action.control_message (H :: payload) ∨
        ∃ received, D = Action.control_recv received ∧ v.srv.running = true ∧
          v.srv.control_client_fd ≥ 0 ∧ received.take 128 = H :: payload) ∧
      H &&& 0xF0 = 0x70 ∧ (H &&& 0x0F) &&& 0x01 = 0)
    (fun v b =>
      match b with
      | Action.start _ _ => True
      | Action.accept_control _ => True
      | Action.accept_interrupt client => ¬ (client ≥ 0 ∧ v.srv.control_client_fd ≥ 0)
      | Action.control_message [] => True
      | Action.control_message (G :: _) =>
        G &&& 0xF0 ≠ 0x70 ∧ ¬ (G &&& 0xF0 = 0x10 ∧ G &&& 0x0F = 0x05)
      | Action.control_recv received =>
        v.srv.running = true ∧ v.srv.control_client_fd ≥ 0 ∧
        ∃ G rest, received.take 128 = G :: rest ∧
          G &&& 0xF0 ≠ 0x70 ∧ ¬ (G &&& 0xF0 = 0x10 ∧ G &&& 0x0F = 0x05)
      | Action.control_closed => False
      | Action.send_packet _ => ¬ (v.srv.connected = true ∧ env v.sends < 0)
      | Action.force_disconnect => False
      | Action.stop =>
        v.srv.running = false ∧ v.srv.control_listen_fd < 0 ∧
          v.srv.interrupt_listen_fd < 0)
    (by decide) (step_protocol_zero_iff env) acts

/-- Claim C30: in every state reached from the constructed server by any events (accepts,
control messages of any bytes and length, sends, resets, `force_disconnect`, `stop`),
`protocol_mode` is 0 or 1.  Hence the STATUS field is `boot` exactly for 0 and `report`
exactly for 1, and the keyboard and mouse frames are the short boot frames exactly for 0.
The mode after each event is given exactly: a delivered SET_PROTOCOL message stores the low
bit of its header; the events that run `reset_connection_locked` (Virtual Cable Unplug, a
pass of the control loop that ends it, the end of the control loop, a failed interrupt
write, `force_disconnect`, a `stop` that does not return at once) and an interrupt accept
that enters Connected store 1; every other event, a control accept among them, keeps it.
So the mode is 0 exactly when some delivered SET_PROTOCOL had its low bit clear and no
event after it was a reset, an entry into Connected or another SET_PROTOCOL. -/
theorem protocol_mode_is_bit (env : Nat → Int) (acts : List Action) (w : Sys)
    (hw : w = run env sys_init acts) :
    (w.srv.protocol_mode = 0 ∨ w.srv.protocol_mode = 1) ∧
    (status_protocol_is_boot w.srv = true ↔ w.srv.protocol_mode = 0) ∧
    (status_protocol_is_boot w.srv = false ↔ w.srv.protocol_mode = 1) ∧
    (∀ (env2 : Nat → Int) (r : KeyboardReport),
      send_keyboard_report env2 w r =
        send_interrupt_packet env2 w
          (if w.srv.protocol_mode = 1 then
            [0x01, r.modifiers, r.reserved,
             r.keys 0, r.keys 1, r.keys 2, r.keys 3, r.keys 4, r.keys 5]
          else
            [r.modifiers, r.reserved,
             r.keys 0, r.keys 1, r.keys 2, r.keys 3, r.keys 4, r.keys 5])) ∧
    (∀ (env2 : Nat → Int) (r : MouseReport),
      send_mouse_report env2 w r =
        send_interrupt_packet env2 w
          (if w.srv.protocol_mode = 1 then
            [0x02, r.buttons, to_uint8 r.dx, to_uint8 r.dy, to_uint8 r.wheel]
          else [r.buttons, to_uint8 r.dx, to_uint8 r.dy])) ∧
    (∀ a : Action,
      (step env w a).srv.protocol_mode = w.srv.protocol_mode ∨
      (step env w a).srv.protocol_mode = 1 ∨
      ∃ H payload, H &&& 0xF0 = 0x70 ∧
        (a = Action.control_message (H :: payload) ∨
          ∃ received, a = Action.control_recv received ∧
            received.take 128 = H :: payload) ∧
        (step env w a).srv.protocol_mode = (H &&& 0x0F) &&& 0x01) ∧
    (∀ a : Action,
      (step env w a).srv.protocol_mode =
        match a with
        | Action.start _ _ => w.srv.protocol_mode
        | Action.accept_control _ => w.srv.protocol_mode
        | Action.accept_interrupt client =>
          if client ≥ 0 ∧ w.srv.control_client_fd ≥ 0 then 1 else w.srv.protocol_mode
        | Action.control_message [] => w.srv.protocol_mode
        | Action.control_message (H :: _) =>
          if H &&& 0xF0 = 0x70 then (H &&& 0x0F) &&& 0x01
          else if H &&& 0xF0 = 0x10 ∧ H &&& 0x0F = 0x05 then 1
          else w.srv.protocol_mode
        | Action.control_recv received =>
          if w.srv.running = true ∧ w.srv.control_client_fd ≥ 0 then
            match received.take 128 with
            | [] => 1
            | H :: _ =>
              if H &&& 0xF0 = 0x70 then (H &&& 0x0F) &&& 0x01
              else if H &&& 0xF0 = 0x10 ∧ H &&& 0x0F = 0x05 then 1
              else w.srv.protocol_mode
          else 1
        | Action.control_closed => 1
        | Action.send_packet _ =>
          if w.srv.connected = true ∧ env w.sends < 0 then 1 else w.srv.protocol_mode
        | Action.force_disconnect => 1
        | Action.stop =>
          if w.srv.running = false ∧ w.srv.control_listen_fd < 0 ∧
              w.srv.interrupt_listen_fd < 0 then w.srv.protocol_mode
          else 1) ∧
    (w.srv.protocol_mode = 0 ↔
      ∃ pre D post, acts = pre ++ D :: post ∧
        (∃ H payload,
          (D = Action.control_message (H :: payload) ∨
            ∃ received, D = Action.control_recv received ∧
              (run env sys_init pre).srv.running = true ∧
              (run env sys_init pre).srv.control_client_fd ≥ 0 ∧
              received.take 128 = H :: payload) ∧
          H &&& 0xF0 = 0x70 ∧ (H &&& 0x0F) &&& 0x01 = 0) ∧
        ∀ post1 b post2, post = post1 ++ b :: post2 →
          match b with
          | Action.start _ _ => True
          | Action.accept_control _ => True
          | Action.accept_interrupt client =>
            ¬ (client ≥ 0 ∧
                (run env sys_init (pre ++ D :: post1)).srv.control_client_fd ≥ 0)
          | Action.control_message [] => True
          | Action.control_message (G :: _) =>
            G &&& 0xF0 ≠ 0x70 ∧ ¬ (G &&& 0xF0 = 0x10 ∧ G &&& 0x0F = 0x05)
          | Action.control_recv received =>
            (run env sys_init (pre ++ D :: post1)).srv.running = true ∧
            (run env sys_init (pre ++ D :: post1)).srv.control_client_fd ≥ 0 ∧
            ∃ G rest, received.take 128 = G :: rest ∧
              G &&& 0xF0 ≠ 0x70 ∧ ¬ (G &&& 0xF0 = 0x10 ∧ G &&& 0x0F = 0x05)
          | Action.control_closed => False
          | Action.send_packet _ =>
            ¬ ((run env sys_init (pre ++ D :: post1)).srv.connected = true ∧
                env (run env sys_init (pre ++ D :: post1)).sends < 0)
          | Action.force_disconnect => False
          | Action.stop =>
            (run env sys_init (pre ++ D :: post1)).srv.running = false ∧
            (run env sys_init (pre ++ D :: post1)).srv.control_listen_fd < 0 ∧
            (run env sys_init (pre ++ D :: post1)).srv.interrupt_listen_fd < 0) := by
  subst hw
  have hbit := run_protocol env acts
  refine ⟨hbit, ?_, ?_, fun env2 r => ?_, fun env2 r => ?_, step_protocol env _,
    step_protocol_exact env _, protocol_mode_last_writer env acts⟩
  · simp [status_protocol_is_boot, current_protocol]
  · rcases hbit with h | h <;> simp [status_protocol_is_boot, current_protocol, h]
  · rw [send_keyboard_report_eq]
    rcases hbit with h | h <;> simp [h]
  · rw [send_mouse_report_eq]
    rcases hbit with h | h <;> simp [h]

/-- Claim C30, instances: after a connection and the message `[0x7E]` (SET_PROTOCOL with the
low bit clear) the mode is 0 and STATUS says boot; a control accept after it keeps the mode;
after `[0x7F]` the mode is 1; a reset after `[0x7E]` gives 1 again. -/
theorem protocol_mode_is_bit_witness :
    (run (env_all_ok 1) sys_init
      [Action.start (some 3) (some 4), Action.accept_control 5, Action.accept_interrupt 6,
       Action.control_recv [0x7E]]).srv.protocol_mode = 0 ∧
    status_protocol_is_boot (run (env_all_ok 1) sys_init
      [Action.start (some 3) (some 4), Action.accept_control 5, Action.accept_interrupt 6,
       Action.control_recv [0x7E]]).srv = true ∧
    (step (env_all_ok 1) (run (env_all_ok 1) sys_init
        [Action.start (some 3) (some 4), Action.accept_control 5, Action.accept_interrupt 6,
         Action.control_recv [0x7E]]) (Action.accept_control 9)).srv.protocol_mode =
      (run (env_all_ok 1) sys_init
        [Action.start (some 3) (some 4), Action.accept_control 5, Action.accept_interrupt 6,
         Action.control_recv [0x7E]]).srv.protocol_mode ∧
    ((run (env_all_ok 1) sys_init
      [Action.start (some 3) (some 4), Action.accept_control 5, Action.accept_interrupt 6,
       Action.control_recv [0x7F]]).srv.protocol_mode = 0 ∨
     (run (env_all_ok 1) sys_init
      [Action.start (some 3) (some 4), Action.accept_control 5, Action.accept_interrupt 6,
       Action.control_recv [0x7F]]).srv.protocol_mode = 1) ∧
    (run (env_all_ok 1) sys_init
      [Action.start (some 3) (some 4), Action.accept_control 5, Action.accept_interrupt 6,
       Action.control_recv [0x7E], Action.force_disconnect]).srv.protocol_mode = 1 :=
  ⟨by decide,
    (protocol_mode_is_bit (env_all_ok 1)
      [Action.start (some 3) (some 4), Action.accept_control 5, Action.accept_interrupt 6,
       Action.control_recv [0x7E]] _ rfl).2.1.mpr (by decide),
    (protocol_mode_is_bit (env_all_ok 1)
      [Action.start (some 3) (some 4), Action.accept_control 5, Action.accept_interrupt 6,
       Action.control_recv [0x7E]] _ rfl).2.2.2.2.2.2.1 (Action.accept_control 9),
    (protocol_mode_is_bit (env_all_ok 1)
      [Action.start (some 3) (some 4), Action.accept_control 5, Action.accept_interrupt 6,
       Action.control_recv [0x7F]] _ rfl).1,
    by decide⟩

end HidServer

end JadeAi
